import Mathlib

/-!
# GstInference: postprocessing and the prediction tree

A shallow embedding of the postprocessing entry points of the GStreamer
inference elements (`ext/r2inference/gsttinyyolov3.c`,
`ext/r2inference/gstinceptionv3.c`) together with the prediction tree they
populate and the box overlap measure used when duplicated boxes are removed,
of the properties of the tinyyolov3 element, of the backend
(`gst-libs/gst/r2inference/gstbasebackend.cc`), of the overlay base class
(`gst-libs/gst/opencv/gstinferencebaseoverlay.cc`), of the inference bin
(`gst/inferenceutils/gstinferencebin.c`), of the plugin entry point
(`ext/r2inference/gstinference.c`) and of the two application callbacks under
`tests/`.

Conventions of the embedding:

* a C pointer argument that the code tests against `NULL` is an `Option`;
* `gdouble` values are exact rationals;
* a call whose C execution would dereference `NULL` or index past the end of an
  array has no result (`none`);
* stores through the `valid_prediction` out-pointer are recorded, in order, in
  the field `valid_stores` of the result;
* the r2inference library behind the backend is a record of the outcomes of its
  calls, and what the backend does to it is recorded, in order, as events.
-/

set_option linter.unusedVariables false

namespace GstInference

/-! ## Scalar and record types -/

/-- The C type `gdouble`, modelled by exact rationals. -/
abbrev gdouble := ℚ

/-- Raw prediction data as handed over by the backend: a flat float vector. -/
abbrev Tensor := List gdouble

/-- Conversion of a `guint` to a `gint` argument (two's complement, 32 bits). -/
def guint_to_gint (n : Nat) : Int :=
  if n % 2 ^ 32 < 2 ^ 31 then (n % 2 ^ 32 : Nat) else ((n % 2 ^ 32 : Nat) : Int) - 2 ^ 32

/-- The element states of `GST_STATE`. -/
inductive GstState
  | VOID_PENDING
  | NULL
  | READY
  | PAUSED
  | PLAYING
deriving DecidableEq

/-- Modelled from the spec: the `BBox` record of `gstinferencemeta.h`, which is
not among the sources. The spec (section 3, BoundingBox) gives a rectangle, an
objectness score and one probability per class. -/
structure BBox where
  x : gdouble
  y : gdouble
  width : gdouble
  height : gdouble
  objectness : gdouble
  class_probabilities : List gdouble
deriving DecidableEq

/-- The `bbox` member of a prediction, with the four fields the sources read
and write (`gsttinyyolov3.c` lines 309-310, `gstdetection.c` lines 206-209). -/
structure BoundingBox where
  x : Int
  y : Int
  width : Int
  height : Int
deriving DecidableEq

/-- The classification record, with the fields the sources read
(`gstdetection.c` lines 212-213, `gstclassification.c` lines 200-201) and the
label of the spec. -/
structure GstInferenceClassification where
  class_id : Int
  class_prob : gdouble
  class_label : Option String
  num_classes : Int
  probabilities : List gdouble
deriving DecidableEq

/-- A node of the prediction tree: identifier, bounding box, classifications in
append order and owned children in append order. -/
inductive GstInferencePrediction
  | mk (prediction_id : Nat) (bbox : BoundingBox)
      (classifications : List GstInferenceClassification)
      (children : List GstInferencePrediction)

namespace GstInferencePrediction

/-- Field `prediction_id`. -/
def prediction_id : GstInferencePrediction → Nat
  | mk i _ _ _ => i

/-- Field `bbox`. -/
def bbox : GstInferencePrediction → BoundingBox
  | mk _ b _ _ => b

/-- Field `classifications`. -/
def classifications : GstInferencePrediction → List GstInferenceClassification
  | mk _ _ cs _ => cs

/-- The immediate children (`gst_inference_prediction_get_children`). -/
def children : GstInferencePrediction → List GstInferencePrediction
  | mk _ _ _ ch => ch

end GstInferencePrediction

/-- The inference meta: `prediction` is the root of the tree, or `NULL`. -/
structure GstInferenceMeta where
  prediction : Option GstInferencePrediction

/-- The two fields of `GstVideoInfo` that postprocessing reads. -/
structure GstVideoInfo where
  width : Int
  height : Int
deriving DecidableEq

/-- The record `struct _GstTinyyolov3`; `state` is `GST_STATE` of the parent
element. -/
structure GstTinyyolov3 where
  state : GstState
  obj_thresh : gdouble
  prob_thresh : gdouble
  iou_thresh : gdouble
  num_classes : Nat
deriving DecidableEq

/-- The record `struct _GstInceptionv3`: nothing beside the parent element. -/
structure GstInceptionv3 where
  state : GstState
deriving DecidableEq

/-! ## Prediction tree primitives -/

/-- Modelled from the spec: `gst_inference_prediction_new`, whose body
(`gstinferenceprediction.c`) is not among the sources. Section 4.4 `create_root`
gives a node whose box starts at `x = 0`, `y = 0` and whose classification and
children lists are empty; the caller stores width and height afterwards. The
identifier is the one handed out by the process-wide counter. -/
def gst_inference_prediction_new (fresh_id : Nat) : GstInferencePrediction :=
  .mk fresh_id { x := 0, y := 0, width := 0, height := 0 } [] []

/-- Modelled from the spec: `gst_inference_prediction_append`, whose body is not
among the sources. Section 4.4 `append_child` adds the child as the last child
of the parent. -/
def gst_inference_prediction_append (parent child : GstInferencePrediction) :
    GstInferencePrediction :=
  .mk parent.prediction_id parent.bbox parent.classifications (parent.children ++ [child])

/-- Modelled from the spec: `gst_inference_prediction_append_classification`,
whose body is not among the sources. Section 4.4 `append_classification` adds the
classification to the node's list, which is kept in append order. -/
def gst_inference_prediction_append_classification (node : GstInferencePrediction)
    (c : GstInferenceClassification) : GstInferencePrediction :=
  .mk node.prediction_id node.bbox (node.classifications ++ [c]) node.children

/-- The two stores `bbox.width = ...; bbox.height = ...` on a node. -/
def set_bbox_size (node : GstInferencePrediction) (width height : Int) :
    GstInferencePrediction :=
  .mk node.prediction_id { node.bbox with width := width, height := height }
    node.classifications node.children

/-! ## Postprocessing -/

/-- What a postprocess call leaves behind: its return value, the meta (when
the pointer was not `NULL`) and the values stored through `valid_prediction`. -/
structure PostprocessResult where
  ret : Bool
  meta_model : Option GstInferenceMeta
  valid_stores : List Bool

/-- Everything `gst_create_boxes_float` hands back to its caller: the return
value, the stores it made through `valid_prediction`, the array it left in
`*resulting_boxes`, the count it left in `*elements` and the rows it stored in
`probabilities`. -/
structure CreateBoxesResult where
  ret : Bool
  valid_stores : List Bool
  resulting_boxes : List BBox
  elements : Int
  probabilities : List (List gdouble)

/-- The helpers of `gstinferencepostprocess.h` that `gst_tinyyolov3_postprocess`
calls and whose bodies are not among the sources, taken as parameters, and
the identifier the next `gst_inference_prediction_new` hands out. -/
structure Tinyyolov3Env where
  gst_create_boxes_float :
    GstTinyyolov3 → Tensor → gdouble → gdouble → gdouble → Int → CreateBoxesResult
  gst_create_prediction_from_box :
    GstTinyyolov3 → BBox → List String → Int → List gdouble → GstInferencePrediction
  fresh_id : Nat

/-- Lines 300-303 of `gsttinyyolov3.c`: the call of `gst_create_boxes_float` with
the element's three thresholds and its class count (a `guint` passed as `gint`). -/
def tinyyolov3_create_boxes (env : Tinyyolov3Env) (tinyyolov3 : GstTinyyolov3)
    (prediction : Tensor) : CreateBoxesResult :=
  env.gst_create_boxes_float tinyyolov3 prediction tinyyolov3.obj_thresh
    tinyyolov3.prob_thresh tinyyolov3.iou_thresh (guint_to_gint tinyyolov3.num_classes)

/-- Lines 307-311 of `gsttinyyolov3.c`: the root already on the meta, or a new
one sized from the video info. -/
def tinyyolov3_root (env : Tinyyolov3Env) (imeta : GstInferenceMeta)
    (info_model : GstVideoInfo) : GstInferencePrediction :=
  match imeta.prediction with
  | some root => root
  | none =>
    set_bbox_size (gst_inference_prediction_new env.fresh_id) info_model.width info_model.height

/-- Lines 313-319 of `gsttinyyolov3.c`: the loop `for (i = 0; i < num_boxes; i++)`,
with `remaining` iterations left at index `i`. Reading `boxes[i]` or
`probabilities[i]` past the end of the array has no result. -/
def tinyyolov3_append_boxes (env : Tinyyolov3Env) (vi : GstTinyyolov3)
    (boxes : List BBox) (probabilities : List (List gdouble))
    (labels_list : List String) (num_labels : Int) :
    (remaining : Nat) → (i : Nat) → GstInferencePrediction → Option GstInferencePrediction
  | 0, _, root => some root
  | remaining + 1, i, root =>
    match boxes[i]?, probabilities[i]? with
    | some box, some probs =>
      tinyyolov3_append_boxes env vi boxes probabilities labels_list num_labels remaining (i + 1)
        (gst_inference_prediction_append root
          (env.gst_create_prediction_from_box vi box labels_list num_labels probs))
    | _, _ => none

/-- The function `gst_tinyyolov3_postprocess` (`gsttinyyolov3.c` lines 275-331).
The five `g_return_val_if_fail` guards come first; `predsize` is never read.
`gst_inference_print_predictions` only logs. -/
def gst_tinyyolov3_postprocess (env : Tinyyolov3Env) (vi : Option GstTinyyolov3)
    (prediction : Option Tensor) (predsize : Nat) (meta_model : Option GstInferenceMeta)
    (info_model : Option GstVideoInfo) (valid_prediction : Option Bool)
    (labels_list : List String) (num_labels : Int) : Option PostprocessResult :=
  match vi, prediction, meta_model, info_model, valid_prediction with
  | some tinyyolov3, some data, some imeta, some info, some _ =>
    let created := tinyyolov3_create_boxes env tinyyolov3 data
    let num_boxes := created.elements
    let root := tinyyolov3_root env imeta info
    match tinyyolov3_append_boxes env tinyyolov3 created.resulting_boxes created.probabilities
        labels_list num_labels num_boxes.toNat 0 root with
    | some root' =>
      some { ret := true
             meta_model := some { prediction := some root' }
             valid_stores := created.valid_stores ++ [decide (num_boxes > 0)] }
    | none => none
  | _, _, _, _, _ =>
    some { ret := false, meta_model := meta_model, valid_stores := [] }

/-- The helper of `gstinferencepostprocess.h` that `gst_inceptionv3_postprocess`
calls and whose body is not among the sources, taken as a parameter. -/
structure Inceptionv3Env where
  gst_create_class_from_prediction :
    GstInceptionv3 → Option Tensor → Nat → List String → Int → GstInferenceClassification

/-- The function `gst_inceptionv3_postprocess` (`gstinceptionv3.c` lines 145-179).
Only `vi`, `meta_model` and `info_model` are guarded; the store
`*valid_prediction = TRUE` through a `NULL` pointer has no result.
`gst_inference_print_predictions` only logs. -/
def gst_inceptionv3_postprocess (env : Inceptionv3Env) (vi : Option GstInceptionv3)
    (prediction : Option Tensor) (predsize : Nat) (meta_model : Option GstInferenceMeta)
    (info_model : Option GstVideoInfo) (valid_prediction : Option Bool)
    (labels_list : List String) (num_labels : Int) : Option PostprocessResult :=
  match vi, meta_model, info_model with
  | some inceptionv3, some imeta, some _ =>
    match imeta.prediction with
    | none => some { ret := false, meta_model := some imeta, valid_stores := [] }
    | some root =>
      let c := env.gst_create_class_from_prediction inceptionv3 prediction predsize
        labels_list num_labels
      let root' := gst_inference_prediction_append_classification root c
      match valid_prediction with
      | some _ =>
        some { ret := true
               meta_model := some { prediction := some root' }
               valid_stores := [true] }
      | none => none
  | _, _, _ =>
    some { ret := false, meta_model := meta_model, valid_stores := [] }

/-! ## Box overlap -/

/-- Modelled from the spec: the area of a box's rectangle (section 4.2). The
overlap routines of `gstinferencepostprocess.c` are not among the sources. -/
def box_area (b : BBox) : gdouble :=
  b.width * b.height

/-- Modelled from the spec: the intersection area of two axis-aligned
rectangles (section 4.2); rectangles that do not overlap intersect in area 0. -/
def intersection_area (a b : BBox) : gdouble :=
  let w := min (a.x + a.width) (b.x + b.width) - max a.x b.x
  let h := min (a.y + a.height) (b.y + b.height) - max a.y b.y
  if w ≤ 0 ∨ h ≤ 0 then 0 else w * h

/-- Modelled from the spec: the union area of two rectangles (section 4.2). -/
def union_area (a b : BBox) : gdouble :=
  box_area a + box_area b - intersection_area a b

/-- Modelled from the spec: the overlap measure used by
`gst_remove_duplicated_boxes`, whose body is not among the sources. Section 4.2:
"IoU = intersection area / union area of two axis-aligned rectangles; degenerate
(zero-area) boxes have IoU 0 with everything." -/
def intersection_over_union (a b : BBox) : gdouble :=
  if box_area a = 0 ∨ box_area b = 0 then 0
  else intersection_area a b / union_area a b

/-- The predictions the loop of `gst_tinyyolov3_postprocess` appends when box
creation yields `count` boxes: the one built from `boxes[i]` and
`probabilities[i]`, for `i = 0 .. count - 1` in increasing order. -/
def tinyyolov3_new_predictions (env : Tinyyolov3Env) (vi : GstTinyyolov3)
    (boxes : List BBox) (probabilities : List (List gdouble))
    (labels_list : List String) (num_labels : Int) (count : Nat) :
    List GstInferencePrediction :=
  List.zipWith (fun box probs => env.gst_create_prediction_from_box vi box labels_list num_labels probs)
    (boxes.take count) (probabilities.take count)

/-! ## Concrete inputs -/

/-- A tinyyolov3 element with the defaults of `gst_tinyyolov3_init`. -/
def default_tinyyolov3 : GstTinyyolov3 :=
  { state := GstState.PLAYING, obj_thresh := 1 / 2, prob_thresh := 1 / 2, iou_thresh := 2 / 5,
    num_classes := 80 }

/-- The video info of the 416 x 416 model input. -/
def model_info : GstVideoInfo :=
  { width := 416, height := 416 }

/-- A meta that carries no root. -/
def empty_meta : GstInferenceMeta :=
  { prediction := none }

/-- A root with one classification and one child, as an earlier element left it. -/
def earlier_root : GstInferencePrediction :=
  .mk 3 { x := 0, y := 0, width := 640, height := 480 }
    [{ class_id := 2, class_prob := 3 / 4, class_label := some "cat", num_classes := 3,
       probabilities := [1 / 8, 1 / 8, 3 / 4] }]
    [.mk 4 { x := 5, y := 6, width := 7, height := 8 } [] []]

/-- A meta that carries `earlier_root`. -/
def rooted_meta : GstInferenceMeta :=
  { prediction := some earlier_root }

/-- Two boxes of class 0 that do not touch each other. -/
def left_box : BBox :=
  { x := 0, y := 0, width := 10, height := 10, objectness := 1, class_probabilities := [9 / 10] }

/-- The second of the two boxes. -/
def right_box : BBox :=
  { x := 100, y := 100, width := 10, height := 10, objectness := 1,
    class_probabilities := [4 / 5] }

/-- A prediction built from a box: the box corners rounded down, one
classification holding the first class probability. -/
def prediction_of_box (box : BBox) (probs : List gdouble) : GstInferencePrediction :=
  .mk 9 { x := box.x.floor, y := box.y.floor, width := box.width.floor, height := box.height.floor }
    [{ class_id := 0, class_prob := probs.getD 0 0, class_label := none, num_classes := 1,
       probabilities := probs }] []

/-- Helpers whose box creation rejects its input: it returns `FALSE`, stores
`FALSE` through `valid_prediction` and leaves no box. -/
def rejecting_env : Tinyyolov3Env :=
  { gst_create_boxes_float := fun _ _ _ _ _ _ =>
      { ret := false, valid_stores := [false], resulting_boxes := [], elements := 0,
        probabilities := [] }
    gst_create_prediction_from_box := fun _ box _ _ probs => prediction_of_box box probs
    fresh_id := 11 }

/-- Helpers whose box creation yields the two boxes above. -/
def two_box_env : Tinyyolov3Env :=
  { gst_create_boxes_float := fun _ _ _ _ _ _ =>
      { ret := true, valid_stores := [true], resulting_boxes := [left_box, right_box],
        elements := 2, probabilities := [[9 / 10], [4 / 5]] }
    gst_create_prediction_from_box := fun _ box _ _ probs => prediction_of_box box probs
    fresh_id := 11 }

/-- An inceptionv3 element. -/
def default_inceptionv3 : GstInceptionv3 :=
  { state := GstState.PLAYING }

/-- The classification the example helper returns for every input. -/
def fixed_class : GstInferenceClassification :=
  { class_id := 1, class_prob := 7 / 10, class_label := some "dog", num_classes := 2,
    probabilities := [3 / 10, 7 / 10] }

/-- A classification helper that returns `fixed_class`. -/
def fixed_class_env : Inceptionv3Env :=
  { gst_create_class_from_prediction := fun _ _ _ _ _ => fixed_class }

/-! ## Classification from a probability vector -/

/-- Modelled from the spec: the scan behind the arg-max of section 4.3, whose
code (`gstinferencepostprocess.c`) is not among the sources. The scan visits
the vector in index order and moves to a new index only for a strictly greater
value (section 3: "ties broken by first occurrence in scan order"). `i` is the
index of the head of the remaining list. -/
def argmax_scan : List gdouble → (i : Nat) → (best_index : Nat) → (best : gdouble) → Nat
  | [], _, best_index, _ => best_index
  | p :: rest, i, best_index, best =>
    if p > best then argmax_scan rest (i + 1) i p
    else argmax_scan rest (i + 1) best_index best

/-- Modelled from the spec: the arg-max index of a probability vector
(section 4.3), the scan started at the first entry. -/
def argmax_index : List gdouble → Nat
  | [] => 0
  | p :: rest => argmax_scan rest 1 0 p

/-- Modelled from the spec: `gst_create_class_from_prediction`, declared in
`gstinferencepostprocess.h` (lines 80-90) with its body not among the sources.
Section 4.3: a single classification holding the arg-max index, its label looked
up in the label list (absent when the index is out of range), the raw vector
value at that index and the full probability vector. -/
def gst_create_class_from_prediction (prediction : Tensor) (labels_list : List String)
    (num_labels : Int) : GstInferenceClassification :=
  { class_id := (argmax_index prediction : Nat)
    class_prob := prediction.getD (argmax_index prediction) 0
    class_label :=
      if (argmax_index prediction : Int) < num_labels then labels_list[argmax_index prediction]?
      else none
    num_classes := (prediction.length : Nat)
    probabilities := prediction }

/-! ## Properties of the tinyyolov3 element -/

/-- GLib's `GValue`, with the kinds of value the sources read. A string value
may hold `NULL`. -/
inductive GValue
  | g_double (v : gdouble)
  | g_uint (n : Nat)
  | g_int (n : Int)
  | g_string (s : Option String)
  | g_boolean (b : Bool)
  | g_enum (n : Int)
  | g_array
deriving DecidableEq

/-- GLib's `g_value_get_double`: the double held, 0 for a value of another kind. -/
def g_value_get_double : GValue → gdouble
  | .g_double v => v
  | _ => 0

/-- GLib's `g_value_get_uint`: the unsigned held, 0 for a value of another kind. -/
def g_value_get_uint : GValue → Nat
  | .g_uint n => n
  | _ => 0

/-- GLib's `g_value_get_int`: the integer held, 0 for a value of another kind. -/
def g_value_get_int : GValue → Int
  | .g_int n => n
  | _ => 0

/-- GLib's `g_value_get_string`: the string held, `NULL` for a value of another
kind. -/
def g_value_get_string : GValue → Option String
  | .g_string s => s
  | _ => none

/-- GLib's `g_value_get_boolean`: the boolean held, `FALSE` for a value of
another kind. -/
def g_value_get_boolean : GValue → Bool
  | .g_boolean b => b
  | _ => false

/-- GLib's `g_value_get_enum`: the enum held, 0 for a value of another kind. -/
def g_value_get_enum : GValue → Int
  | .g_enum n => n
  | _ => 0

/-- The property identifiers of `gsttinyyolov3.c` (lines 87-94). -/
def PROP_OBJ_THRESH : Nat := 1

/-- Second identifier of the enum. -/
def PROP_PROB_THRESH : Nat := 2

/-- Third identifier of the enum. -/
def PROP_IOU_THRESH : Nat := 3

/-- Fourth identifier of the enum. -/
def PROP_NUM_CLASSES : Nat := 4

/-- What `gst_tinyyolov3_set_property` leaves behind: the element, whether
`G_OBJECT_WARN_INVALID_PROPERTY_ID` ran and whether `GST_ERROR_OBJECT` ran. -/
structure SetPropertyResult where
  element : GstTinyyolov3
  invalid_id_warned : Bool
  error_logged : Bool
deriving DecidableEq

/-- The function `gst_tinyyolov3_set_property` (`gsttinyyolov3.c` lines 199-238).
The case `PROP_NUM_CLASSES` has no `break` after its `else` branch, so control
falls into `default`. -/
def gst_tinyyolov3_set_property (tinyyolov3 : GstTinyyolov3) (property_id : Nat)
    (value : GValue) : SetPropertyResult :=
  if property_id = PROP_OBJ_THRESH then
    { element := { tinyyolov3 with obj_thresh := g_value_get_double value }
      invalid_id_warned := false, error_logged := false }
  else if property_id = PROP_PROB_THRESH then
    { element := { tinyyolov3 with prob_thresh := g_value_get_double value }
      invalid_id_warned := false, error_logged := false }
  else if property_id = PROP_IOU_THRESH then
    { element := { tinyyolov3 with iou_thresh := g_value_get_double value }
      invalid_id_warned := false, error_logged := false }
  else if property_id = PROP_NUM_CLASSES then
    if tinyyolov3.state ≠ GstState.NULL then
      { element := tinyyolov3, invalid_id_warned := false, error_logged := true }
    else
      { element := { tinyyolov3 with num_classes := g_value_get_uint value }
        invalid_id_warned := true, error_logged := false }
  else
    { element := tinyyolov3, invalid_id_warned := true, error_logged := false }

/-- The function `gst_tinyyolov3_get_property` (`gsttinyyolov3.c` lines 240-265):
the value stored into `value`, none for an unknown identifier. -/
def gst_tinyyolov3_get_property (tinyyolov3 : GstTinyyolov3) (property_id : Nat) :
    Option GValue :=
  if property_id = PROP_OBJ_THRESH then some (.g_double tinyyolov3.obj_thresh)
  else if property_id = PROP_PROB_THRESH then some (.g_double tinyyolov3.prob_thresh)
  else if property_id = PROP_IOU_THRESH then some (.g_double tinyyolov3.iou_thresh)
  else if property_id = PROP_NUM_CLASSES then some (.g_uint tinyyolov3.num_classes)
  else none

/-! ## The backend (`gstbasebackend.cc`) -/

/-- The codes of `r2i::RuntimeError::Code` that the sources name, and the
other error codes. -/
inductive ErrorCode
  | EOK
  | NOT_IMPLEMENTED
  | WRONG_ENGINE_STATE
  | OTHER_ERROR (n : Nat)
deriving DecidableEq

/-- An `r2i::RuntimeError`: a code and a description. -/
structure RuntimeError where
  code : ErrorCode
  description : String
deriving DecidableEq

/-- The method `IsError` of `r2i::RuntimeError`: the code is not `EOK`. -/
def RuntimeError.IsError (error : RuntimeError) : Bool :=
  decide (error.code ≠ ErrorCode.EOK)

/-- A default-constructed `r2i::RuntimeError`, which reports no error. -/
def RuntimeError.clean : RuntimeError :=
  { code := ErrorCode.EOK, description := "" }

/-- What `g_set_error` stores through `err`: the code and the description of
the runtime error. -/
structure GError where
  code : ErrorCode
  message : String
deriving DecidableEq

/-- The value types that `pspec->value_type` is switched on, and the others. -/
inductive GType
  | G_TYPE_STRING
  | G_TYPE_INT
  | G_TYPE_DOUBLE
  | G_TYPE_OTHER
deriving DecidableEq

/-- The two fields of `GParamSpec` that the backend reads. -/
structure GParamSpec where
  name : String
  value_type : GType
deriving DecidableEq

/-- The class `InferenceProperty` (lines 36-88): a copy of the value and the
spec it was set with. -/
structure InferenceProperty where
  avalue : GValue
  apspec : GParamSpec
deriving DecidableEq

/-- The method `get_name` of `InferenceProperty`. -/
def InferenceProperty.get_name (property : InferenceProperty) : String :=
  property.apspec.name

/-- An entry of the parameter table that `params->List` fills: the name and
the result of the bit test `WRITE_BEFORE_START & flags`. -/
structure ParameterMeta where
  name : String
  write_before_start : Bool
deriving DecidableEq

/-- The argument of the three overloads of `params->Set`. -/
inductive ParamValue
  | of_string (s : Option String)
  | of_int (n : Int)
  | of_double (v : gdouble)
deriving DecidableEq

/-- What the backend did, in order: an invocation of
`apply_inference_property`, a call of `params->Set`, the call of
`engine->Start`. -/
inductive BackendEvent
  | apply_inference_property (property : InferenceProperty)
  | params_set (name : String) (value : ParamValue)
  | engine_start
deriving DecidableEq

/-- An output of the engine: the `GetResultSize ()` bytes found at
`GetResultData ()`. -/
structure IPrediction where
  result_data : List Nat
deriving DecidableEq

/-- The method `GetResultSize` of an output. -/
def IPrediction.GetResultSize (prediction : IPrediction) : Nat :=
  prediction.result_data.length

/-- The video formats that `gst_base_backend_cast_format` tells apart. -/
inductive GstVideoFormat
  | GST_VIDEO_FORMAT_RGB
  | GST_VIDEO_FORMAT_BGR
  | GST_VIDEO_FORMAT_GRAY8
  | GST_VIDEO_FORMAT_OTHER
deriving DecidableEq

/-- The image formats of `r2i::ImageFormat::Id` that the sources name. -/
inductive ImageFormat
  | RGB
  | BGR
  | GRAY8
deriving DecidableEq

/-- A meta on a buffer: its API type and its content. -/
structure GstMeta where
  api : Nat
  content : Nat
deriving DecidableEq

/-- A mapped video frame: plane 0, the geometry the sources read, and the metas
of its buffer in the order they were attached. -/
structure GstVideoFrame where
  data : List Nat
  width : Int
  height : Int
  format : GstVideoFormat
  pstride : Int
  stride : Int
  buffer : List GstMeta
deriving DecidableEq

/-- The r2inference library behind the backend, as the outcome of each of its
calls. The outcome of `params->Set` and of `engine->Start` may depend on
everything the backend did before. -/
structure R2I where
  MakeFactory : RuntimeError
  MakeEngine : RuntimeError
  MakeLoader : RuntimeError
  Load : String → RuntimeError
  SetModel : RuntimeError
  MakeParameters : RuntimeError
  Configure : RuntimeError
  ListParameters : List ParameterMeta → RuntimeError × List ParameterMeta
  Set : List BackendEvent → String → ParamValue → RuntimeError
  Start : List BackendEvent → RuntimeError
  MakeFrame : RuntimeError
  FrameConfigure : List Nat → Int → Int → ImageFormat → RuntimeError
  Predict : GstVideoFrame → RuntimeError × List (Option IPrediction)
  PredictSingle : GstVideoFrame → RuntimeError × Option IPrediction

/-- The record `struct _GstBaseBackendPrivate`, with the two flags and the
pending property list; `events` is what the backend did to the library so far. -/
structure GstBaseBackendPrivate where
  backend_started : Bool
  backend_created : Bool
  property_list : List InferenceProperty
  events : List BackendEvent
deriving DecidableEq

/-- The function `gst_base_backend_set_property` (lines 236-268). The value a
property is queued with is a copy of `value`. -/
def gst_base_backend_set_property (priv : GstBaseBackendPrivate) (value : GValue)
    (pspec : GParamSpec) : GstBaseBackendPrivate :=
  if priv.backend_started then
    match pspec.value_type with
    | GType.G_TYPE_STRING =>
      { priv with events := priv.events ++
          [BackendEvent.params_set pspec.name (ParamValue.of_string (g_value_get_string value))] }
    | GType.G_TYPE_INT =>
      { priv with events := priv.events ++
          [BackendEvent.params_set pspec.name (ParamValue.of_int (g_value_get_int value))] }
    | GType.G_TYPE_DOUBLE =>
      { priv with events := priv.events ++
          [BackendEvent.params_set pspec.name (ParamValue.of_double (g_value_get_double value))] }
    | GType.G_TYPE_OTHER => priv
  else
    { priv with property_list := priv.property_list ++ [{ avalue := value, apspec := pspec }] }

/-- The method `apply_inference_property` (lines 61-83): the events and the
error after the call. A value of another type than string, int or double only
draws a warning and leaves `error` as it was. -/
def apply_inference_property (r2i : R2I) (property : InferenceProperty)
    (events : List BackendEvent) (error : RuntimeError) : List BackendEvent × RuntimeError :=
  let invoked := events ++ [BackendEvent.apply_inference_property property]
  match property.apspec.value_type with
  | GType.G_TYPE_STRING =>
    (invoked ++ [BackendEvent.params_set property.apspec.name
        (ParamValue.of_string (g_value_get_string property.avalue))],
      r2i.Set invoked property.apspec.name
        (ParamValue.of_string (g_value_get_string property.avalue)))
  | GType.G_TYPE_INT =>
    (invoked ++ [BackendEvent.params_set property.apspec.name
        (ParamValue.of_int (g_value_get_int property.avalue))],
      r2i.Set invoked property.apspec.name (ParamValue.of_int (g_value_get_int property.avalue)))
  | GType.G_TYPE_DOUBLE =>
    (invoked ++ [BackendEvent.params_set property.apspec.name
        (ParamValue.of_double (g_value_get_double property.avalue))],
      r2i.Set invoked property.apspec.name
        (ParamValue.of_double (g_value_get_double property.avalue)))
  | GType.G_TYPE_OTHER => (invoked, error)

/-- The inner loop of lines 367-380: the first entry of the table with the
name of the property decides, and it asks for the property before the start
when its flag `WRITE_BEFORE_START` is set. -/
def is_write_before_start (params : List ParameterMeta) (name : String) : Bool :=
  match params.find? (fun param => param.name = name) with
  | some param => param.write_before_start
  | none => false

/-- Where one of the two loops over the pending list ends: the list, the
events and the error after it, and whether it left through `goto start_error`. -/
structure ApplyOutcome where
  property_list : List InferenceProperty
  events : List BackendEvent
  error : RuntimeError
  failed : Bool
deriving DecidableEq

/-- The loop of lines 364-381 over the pending list: a property whose
parameter is flagged `WRITE_BEFORE_START` is applied and erased from the list,
the others stay in their order; an error of an applied property ends the loop.
After `erase (property_it--)` the iteration resumes at the element that
followed the erased one. -/
def start_apply_before (r2i : R2I) (params : List ParameterMeta) :
    List InferenceProperty → List BackendEvent → RuntimeError → ApplyOutcome
  | [], events, error =>
    { property_list := [], events := events, error := error, failed := false }
  | property :: rest, events, error =>
    if is_write_before_start params property.get_name then
      let applied := apply_inference_property r2i property events error
      if applied.2.IsError then
        { property_list := rest, events := applied.1, error := applied.2, failed := true }
      else start_apply_before r2i params rest applied.1 applied.2
    else
      let after := start_apply_before r2i params rest events error
      { after with property_list := property :: after.property_list }

/-- The loop of lines 389-398: the front of the list is applied and popped
until the list is empty or an applied property reports an error. -/
def start_apply_rest (r2i : R2I) :
    List InferenceProperty → List BackendEvent → RuntimeError → ApplyOutcome
  | [], events, error =>
    { property_list := [], events := events, error := error, failed := false }
  | property :: rest, events, error =>
    let applied := apply_inference_property r2i property events error
    if applied.2.IsError then
      { property_list := rest, events := applied.1, error := applied.2, failed := true }
    else start_apply_rest r2i rest applied.1 applied.2

/-- Lines 313-361: the creation of the backend, as the error of the first step
that fails (or of the last step) and the parameter table afterwards. -/
def backend_create (r2i : R2I) (model_location : String) (params : List ParameterMeta) :
    RuntimeError × List ParameterMeta :=
  if r2i.MakeFactory.IsError then (r2i.MakeFactory, params)
  else if r2i.MakeEngine.IsError then (r2i.MakeEngine, params)
  else if r2i.MakeLoader.IsError then (r2i.MakeLoader, params)
  else if (r2i.Load model_location).IsError then (r2i.Load model_location, params)
  else if r2i.SetModel.IsError then (r2i.SetModel, params)
  else if r2i.MakeParameters.IsError then (r2i.MakeParameters, params)
  else if r2i.Configure.IsError then (r2i.Configure, params)
  else r2i.ListParameters params

/-- What `gst_base_backend_start` leaves behind: the return value, the private
record, the function-static parameter table and what `g_set_error` stored. -/
structure StartResult where
  ret : Bool
  priv : GstBaseBackendPrivate
  params : List ParameterMeta
  err : Option GError
deriving DecidableEq

/-- The label `error:` of `gst_base_backend_start` and of
`gst_base_backend_process_frame`: the `GError` made from the runtime error. -/
def gerror_of (error : RuntimeError) : GError :=
  { code := error.code, message := error.description }

/-- The function `gst_base_backend_start` (lines 298-411). `params` is the
function-static table; `*err` is empty on entry. -/
def gst_base_backend_start (r2i : R2I) (params : List ParameterMeta)
    (priv : GstBaseBackendPrivate) (model_location : Option String) (err : Option Unit) :
    StartResult :=
  match model_location, err with
  | some location, some _ =>
    let created :=
      if priv.backend_created then (RuntimeError.clean, params)
      else backend_create r2i location params
    if created.1.IsError then
      { ret := false, priv := priv, params := created.2, err := some (gerror_of created.1) }
    else
      let before := start_apply_before r2i created.2 priv.property_list priv.events created.1
      if before.failed then
        { ret := false
          priv := { priv with backend_created := true, property_list := before.property_list,
                              events := before.events }
          params := created.2, err := some (gerror_of before.error) }
      else
        let started := r2i.Start before.events
        if started.IsError then
          { ret := false
            priv := { priv with backend_created := true, property_list := before.property_list,
                                events := before.events ++ [BackendEvent.engine_start] }
            params := created.2, err := some (gerror_of started) }
        else
          let rest := start_apply_rest r2i before.property_list
            (before.events ++ [BackendEvent.engine_start]) started
          if rest.failed then
            { ret := false
              priv := { priv with backend_created := true, property_list := rest.property_list,
                                  events := rest.events }
              params := created.2, err := some (gerror_of rest.error) }
          else
            { ret := true
              priv := { backend_started := true, backend_created := true,
                        property_list := rest.property_list, events := rest.events }
              params := created.2, err := none }
  | _, _ => { ret := false, priv := priv, params := params, err := none }

/-- The function `gst_base_backend_cast_format` (lines 435-454). -/
def gst_base_backend_cast_format : GstVideoFormat → ImageFormat
  | GstVideoFormat.GST_VIDEO_FORMAT_RGB => ImageFormat.RGB
  | GstVideoFormat.GST_VIDEO_FORMAT_BGR => ImageFormat.BGR
  | GstVideoFormat.GST_VIDEO_FORMAT_GRAY8 => ImageFormat.GRAY8
  | GstVideoFormat.GST_VIDEO_FORMAT_OTHER => ImageFormat.RGB

/-- Lines 493-502: the multi-output `Predict` and, when it answers
`NOT_IMPLEMENTED`, the single-output `Predict`, whose output is pushed on the
vector. -/
def backend_predict (r2i : R2I) (frame : GstVideoFrame) :
    RuntimeError × List (Option IPrediction) :=
  if (r2i.Predict frame).1.code = ErrorCode.NOT_IMPLEMENTED then
    ((r2i.PredictSingle frame).1, (r2i.Predict frame).2 ++ [(r2i.PredictSingle frame).2])
  else r2i.Predict frame

/-- The loop of lines 518-528: every output is copied behind the bytes
gathered so far. Reading through a null output has no result. -/
def concatenate_outputs :
    List (Option IPrediction) → (data : List Nat) → (size : Nat) → Option (List Nat × Nat)
  | [], data, size => some (data, size)
  | none :: _, _, _ => none
  | some prediction :: rest, data, size =>
    concatenate_outputs rest (data ++ prediction.result_data) (size + prediction.GetResultSize)

/-- What `gst_base_backend_process_frame` leaves behind: the return value, the
stores through `prediction_data` and `prediction_size` (none when not written)
and what `g_set_error` stored. -/
structure ProcessFrameResult where
  ret : Bool
  prediction_data : Option (List Nat)
  prediction_size : Option Nat
  err : Option GError
deriving DecidableEq

/-- The function `gst_base_backend_process_frame` (lines 456-545).
`priv->factory` and `priv->engine` are the objects of `r2i`; `*err` is empty on
entry. -/
def gst_base_backend_process_frame (r2i : R2I) (input_frame : Option GstVideoFrame)
    (prediction_data prediction_size err : Option Unit) : Option ProcessFrameResult :=
  match input_frame, prediction_data, prediction_size, err with
  | some frame, some _, some _, some _ =>
    if r2i.MakeFrame.IsError then
      some { ret := false, prediction_data := none, prediction_size := none,
             err := some (gerror_of r2i.MakeFrame) }
    else
      let configured := r2i.FrameConfigure frame.data frame.width frame.height
        (gst_base_backend_cast_format frame.format)
      if configured.IsError then
        some { ret := false, prediction_data := none, prediction_size := none,
               err := some (gerror_of configured) }
      else
        let predicted := backend_predict r2i frame
        if predicted.1.IsError then
          some { ret := false, prediction_data := none, prediction_size := none,
                 err := some (gerror_of predicted.1) }
        else if predicted.2.length = 0 then
          some { ret := false, prediction_data := none, prediction_size := none,
                 err := some { code := ErrorCode.WRONG_ENGINE_STATE,
                               message := "Engine got 0 predictions" } }
        else
          match concatenate_outputs predicted.2 [] 0 with
          | some (data, size) =>
            some { ret := true, prediction_data := some data, prediction_size := some size,
                   err := none }
          | none => none
  | _, _, _, _ =>
    some { ret := false, prediction_data := none, prediction_size := none, err := none }

/-- The properties `apply_inference_property` was invoked on, in order. -/
def applied_properties : List BackendEvent → List InferenceProperty
  | [] => []
  | BackendEvent.apply_inference_property property :: rest => property :: applied_properties rest
  | _ :: rest => applied_properties rest

/-- A library on which every call succeeds: two parameters are listed, `device`
flagged `WRITE_BEFORE_START`, and the engine gives two outputs. -/
def working_r2i : R2I :=
  { MakeFactory := RuntimeError.clean
    MakeEngine := RuntimeError.clean
    MakeLoader := RuntimeError.clean
    Load := fun _ => RuntimeError.clean
    SetModel := RuntimeError.clean
    MakeParameters := RuntimeError.clean
    Configure := RuntimeError.clean
    ListParameters := fun _ =>
      (RuntimeError.clean,
        [{ name := "device", write_before_start := true },
         { name := "threads", write_before_start := false }])
    Set := fun _ _ _ => RuntimeError.clean
    Start := fun _ => RuntimeError.clean
    MakeFrame := RuntimeError.clean
    FrameConfigure := fun _ _ _ _ => RuntimeError.clean
    Predict := fun _ =>
      (RuntimeError.clean, [some { result_data := [1, 2] }, some { result_data := [3] }])
    PredictSingle := fun _ => (RuntimeError.clean, some { result_data := [7] }) }

/-- The same library with an engine that refuses to start. -/
def refusing_r2i : R2I :=
  { working_r2i with
    Start := fun _ => { code := ErrorCode.WRONG_ENGINE_STATE, description := "not ready" } }

/-- The same library with an engine that gives no output. -/
def silent_r2i : R2I :=
  { working_r2i with Predict := fun _ => (RuntimeError.clean, []) }

/-- A queued string property for the parameter `device`. -/
def device_property : InferenceProperty :=
  { avalue := GValue.g_string (some "gpu")
    apspec := { name := "device", value_type := GType.G_TYPE_STRING } }

/-- A queued integer property for the parameter `threads`. -/
def threads_property : InferenceProperty :=
  { avalue := GValue.g_int 4, apspec := { name := "threads", value_type := GType.G_TYPE_INT } }

/-- A backend that was never started, with two queued properties. -/
def fresh_backend : GstBaseBackendPrivate :=
  { backend_started := false, backend_created := false
    property_list := [threads_property, device_property], events := [] }

/-- A backend that is started. -/
def started_backend : GstBaseBackendPrivate :=
  { backend_started := true, backend_created := true, property_list := []
    events := [BackendEvent.engine_start] }

/-- A 2 x 1 RGB frame without metas. -/
def small_frame : GstVideoFrame :=
  { data := [0, 0, 0, 255, 255, 255], width := 2, height := 1
    format := GstVideoFormat.GST_VIDEO_FORMAT_RGB, pstride := 3, stride := 6, buffer := [] }

/-- The library of a backend that knows only the single-output `Predict`. -/
def single_output_r2i : R2I :=
  { working_r2i with
    Predict := fun _ =>
      ({ code := ErrorCode.NOT_IMPLEMENTED, description := "no multiple outputs" }, []) }

/-! ## The overlay base class (`gstinferencebaseoverlay.cc`) -/

/-- The record `struct _GstInferenceBaseOverlayPrivate` (lines 81-91). -/
structure GstInferenceBaseOverlayPrivate where
  font_scale : gdouble
  thickness : Int
  labels : Option String
  labels_list : Option (List String)
  num_labels : Int
  style : Int
  alpha_overlay : gdouble
  enable : Bool
deriving DecidableEq

/-- The flow returns the overlay hands back, and the others. -/
inductive GstFlowReturn
  | GST_FLOW_OK
  | GST_FLOW_ERROR
  | GST_FLOW_OTHER (code : Int)
deriving DecidableEq

/-- The `cv::Mat` header that lines 372-389 build over plane 0 of the frame:
`height` rows, `width` columns, 8-bit pixels of `channels` bytes, rows `step`
bytes apart. -/
structure CvMat where
  rows : Int
  cols : Int
  channels : Int
  step : Int
  data : List Nat
deriving DecidableEq

/-- The arguments of one call of `process_meta`, the overlay itself apart. -/
structure ProcessMetaCall where
  cv_mat : CvMat
  frame : GstVideoFrame
  inference_meta : GstMeta
  font_scale : gdouble
  thickness : Int
  labels_list : Option (List String)
  num_labels : Int
  style : Int
  alpha_overlay : gdouble
deriving DecidableEq

/-- The class record of an overlay subclass: its `process_meta` (or `NULL`) and
its `meta_type`. -/
structure GstInferenceBaseOverlayClass where
  process_meta : Option (ProcessMetaCall → GstFlowReturn)
  meta_type : Nat

/-- GStreamer's `gst_buffer_get_meta`: the first meta of the buffer with the
API type asked for, or `NULL`. -/
def gst_buffer_get_meta (buffer : List GstMeta) (api : Nat) : Option GstMeta :=
  buffer.find? fun m => m.api = api

/-- What `gst_inference_base_overlay_transform_frame_ip` leaves behind: the
flow return and the calls of `process_meta` it made. -/
structure TransformResult where
  ret : GstFlowReturn
  calls : List ProcessMetaCall
deriving DecidableEq

/-- The function `gst_inference_base_overlay_transform_frame_ip` (lines 335-398). -/
def gst_inference_base_overlay_transform_frame_ip (io_class : GstInferenceBaseOverlayClass)
    (priv : GstInferenceBaseOverlayPrivate) (frame : GstVideoFrame) : TransformResult :=
  match io_class.process_meta with
  | none => { ret := GstFlowReturn.GST_FLOW_ERROR, calls := [] }
  | some process_meta =>
    if priv.enable = false then { ret := GstFlowReturn.GST_FLOW_OK, calls := [] }
    else
      match gst_buffer_get_meta frame.buffer io_class.meta_type with
      | none => { ret := GstFlowReturn.GST_FLOW_OK, calls := [] }
      | some found =>
        let call : ProcessMetaCall :=
          { cv_mat := { rows := frame.height, cols := frame.width, channels := frame.pstride,
                        step := frame.stride, data := frame.data }
            frame := frame, inference_meta := found, font_scale := priv.font_scale
            thickness := priv.thickness, labels_list := priv.labels_list
            num_labels := priv.num_labels, style := priv.style
            alpha_overlay := priv.alpha_overlay }
        { ret := process_meta call, calls := [call] }

/-- The fields of a character sequence between the occurrences of a
delimiter, in their order; a sequence without delimiter is one field. -/
def split_fields (delimiter : Char) : List Char → List (List Char)
  | [] => [[]]
  | c :: rest =>
    if c = delimiter then [] :: split_fields delimiter rest
    else
      match split_fields delimiter rest with
      | [] => [[c]]
      | field :: fields => (c :: field) :: fields

/-- Fields joined with a delimiter between neighbours. -/
def join_fields (delimiter : Char) : List (List Char) → List Char
  | [] => []
  | field :: fields => field ++ fields.flatMap fun next => delimiter :: next

/-- GLib's `g_strsplit (string, ";", 0)`: `NULL` for `NULL`, the empty vector
for the empty string, and else the fields between the semicolons. -/
def g_strsplit_semicolon (string : Option String) : Option (List String) :=
  match string with
  | none => none
  | some s =>
    if s.data = [] then some []
    else some ((split_fields ';' s.data).map String.mk)

/-- GLib's `g_strv_length`: the number of strings of the vector, 0 for `NULL`. -/
def g_strv_length (str_array : Option (List String)) : Nat :=
  match str_array with
  | none => 0
  | some strings => strings.length

/-- The property identifiers of `gstinferencebaseoverlay.cc` (lines 53-62). -/
def PROP_FONT_SCALE : Nat := 1

/-- Second identifier of the overlay enum. -/
def PROP_THICKNESS : Nat := 2

/-- Third identifier of the overlay enum. -/
def PROP_LABELS : Nat := 3

/-- Fourth identifier of the overlay enum. -/
def PROP_STYLE : Nat := 4

/-- Fifth identifier of the overlay enum. -/
def PROP_ALPHA_OVERLAY : Nat := 5

/-- Sixth identifier of the overlay enum. -/
def PROP_ENABLE : Nat := 6

/-- The function `gst_inference_base_overlay_set_property` (lines 188-240): the
private record after the call. An unknown identifier only draws a warning. -/
def gst_inference_base_overlay_set_property (priv : GstInferenceBaseOverlayPrivate)
    (property_id : Nat) (value : GValue) : GstInferenceBaseOverlayPrivate :=
  if property_id = PROP_FONT_SCALE then { priv with font_scale := g_value_get_double value }
  else if property_id = PROP_THICKNESS then { priv with thickness := g_value_get_int value }
  else if property_id = PROP_LABELS then
    { priv with
      labels := g_value_get_string value
      labels_list := g_strsplit_semicolon (g_value_get_string value)
      num_labels := (g_strv_length (g_strsplit_semicolon (g_value_get_string value)) : Nat) }
  else if property_id = PROP_STYLE then { priv with style := g_value_get_enum value }
  else if property_id = PROP_ALPHA_OVERLAY then
    { priv with alpha_overlay := g_value_get_double value }
  else if property_id = PROP_ENABLE then { priv with enable := g_value_get_boolean value }
  else priv

/-- An overlay with the defaults of `gst_inference_base_overlay_init`. -/
def default_overlay : GstInferenceBaseOverlayPrivate :=
  { font_scale := 2, thickness := 2, labels := none, labels_list := none, num_labels := 0
    style := 0, alpha_overlay := 1, enable := true }

/-- A subclass whose `process_meta` answers with the thickness it was given. -/
def echo_class : GstInferenceBaseOverlayClass :=
  { process_meta := some fun call => GstFlowReturn.GST_FLOW_OTHER call.thickness
    meta_type := 42 }

/-- A frame whose buffer carries a meta of type 42 behind one of another type. -/
def annotated_frame : GstVideoFrame :=
  { small_frame with buffer := [{ api := 7, content := 0 }, { api := 42, content := 1 }] }

/-! ## The inference bin (`gstinferencebin.c`) -/

/-- Conversion of a `gint` to a `guint` (two's complement, 32 bits), as in the
store `self->filter = g_value_get_int (value)`. -/
def gint_to_guint (n : Int) : Nat :=
  (n % 2 ^ 32).toNat

/-- The conversion `%d` of `printf`: the argument read as a `gint`, in signed
decimal. -/
def format_d (n : Nat) : String :=
  toString (guint_to_gint n)

/-- The conversion `%s` of `printf`: the string, and `(null)` for `NULL`. -/
def format_s (s : Option String) : String :=
  match s with
  | some text => text
  | none => "(null)"

/-- The record `struct _GstInferenceBin` (lines 102-120): the eleven properties
and, for the two ghost pads, the pad each of them targets. `added` are the bins
added to the element. -/
structure GstInferenceBin where
  arch : Option String
  backend : Option String
  model_location : Option String
  input_layer : Option String
  output_layer : Option String
  labels : Option String
  crop : Bool
  overlay : Bool
  filter : Nat
  scaler : Option String
  converter : Option String
  sinkpad : Option Nat
  srcpad : Option Nat
  added : List Nat
deriving DecidableEq

namespace GstInferenceBin

/-- The property identifiers of `gstinferencebin.c` (lines 72-86). -/
def PROP_ARCH : Nat := 1

/-- Second identifier of the bin's enum. -/
def PROP_BACKEND : Nat := 2

/-- Third identifier of the bin's enum. -/
def PROP_MODEL_LOCATION : Nat := 3

/-- Fourth identifier of the bin's enum. -/
def PROP_INPUT_LAYER : Nat := 4

/-- Fifth identifier of the bin's enum. -/
def PROP_OUTPUT_LAYER : Nat := 5

/-- Sixth identifier of the bin's enum. -/
def PROP_LABELS : Nat := 6

/-- Seventh identifier of the bin's enum. -/
def PROP_CROP : Nat := 7

/-- Eighth identifier of the bin's enum. -/
def PROP_OVERLAY : Nat := 8

/-- Ninth identifier of the bin's enum. -/
def PROP_FILTER : Nat := 9

/-- Tenth identifier of the bin's enum. -/
def PROP_SCALER : Nat := 10

/-- Eleventh identifier of the bin's enum. -/
def PROP_CONVERTER : Nat := 11

end GstInferenceBin

/-- The function `gst_inference_bin_init` (lines 214-241): the defaults of the
eleven properties, the ghost pads without target. The default `-1` of `filter`
is stored in a `guint`. -/
def gst_inference_bin_init : GstInferenceBin :=
  { arch := some "tinyyolov2", backend := some "tensorflow", model_location := none
    input_layer := none, output_layer := none, labels := none, crop := false
    overlay := true, filter := gint_to_guint (-1), scaler := some "videoscale"
    converter := some "videoconvert", sinkpad := none, srcpad := none, added := [] }

/-- The function `gst_inference_bin_set_property` (lines 275-333). An unknown
identifier only draws a warning. -/
def gst_inference_bin_set_property (self : GstInferenceBin) (property_id : Nat)
    (value : GValue) : GstInferenceBin :=
  if property_id = GstInferenceBin.PROP_ARCH then
    { self with arch := g_value_get_string value }
  else if property_id = GstInferenceBin.PROP_BACKEND then
    { self with backend := g_value_get_string value }
  else if property_id = GstInferenceBin.PROP_MODEL_LOCATION then
    { self with model_location := g_value_get_string value }
  else if property_id = GstInferenceBin.PROP_INPUT_LAYER then
    { self with input_layer := g_value_get_string value }
  else if property_id = GstInferenceBin.PROP_OUTPUT_LAYER then
    { self with output_layer := g_value_get_string value }
  else if property_id = GstInferenceBin.PROP_LABELS then
    { self with labels := g_value_get_string value }
  else if property_id = GstInferenceBin.PROP_CROP then
    { self with crop := g_value_get_boolean value }
  else if property_id = GstInferenceBin.PROP_OVERLAY then
    { self with overlay := g_value_get_boolean value }
  else if property_id = GstInferenceBin.PROP_FILTER then
    { self with filter := gint_to_guint (g_value_get_int value) }
  else if property_id = GstInferenceBin.PROP_SCALER then
    { self with scaler := g_value_get_string value }
  else if property_id = GstInferenceBin.PROP_CONVERTER then
    { self with converter := g_value_get_string value }
  else self

/-- The function `gst_inference_bin_get_property` (lines 335-385): the value
stored into `value`, none for an unknown identifier. `g_value_set_int` is
handed the `guint` field as a `gint`. -/
def gst_inference_bin_get_property (self : GstInferenceBin) (property_id : Nat) :
    Option GValue :=
  if property_id = GstInferenceBin.PROP_ARCH then some (GValue.g_string self.arch)
  else if property_id = GstInferenceBin.PROP_BACKEND then some (GValue.g_string self.backend)
  else if property_id = GstInferenceBin.PROP_MODEL_LOCATION then
    some (GValue.g_string self.model_location)
  else if property_id = GstInferenceBin.PROP_INPUT_LAYER then
    some (GValue.g_string self.input_layer)
  else if property_id = GstInferenceBin.PROP_OUTPUT_LAYER then
    some (GValue.g_string self.output_layer)
  else if property_id = GstInferenceBin.PROP_LABELS then some (GValue.g_string self.labels)
  else if property_id = GstInferenceBin.PROP_CROP then some (GValue.g_boolean self.crop)
  else if property_id = GstInferenceBin.PROP_OVERLAY then some (GValue.g_boolean self.overlay)
  else if property_id = GstInferenceBin.PROP_FILTER then
    some (GValue.g_int (guint_to_gint self.filter))
  else if property_id = GstInferenceBin.PROP_SCALER then some (GValue.g_string self.scaler)
  else if property_id = GstInferenceBin.PROP_CONVERTER then
    some (GValue.g_string self.converter)
  else none

/-- The text `true` or `false` of lines 396-397. -/
def bool_text (b : Bool) : String :=
  if b then "true" else "false"

/-- A setting that `gst_inference_bin_build_pipe` appends only for a property
that is not `NULL` (lines 416-428). -/
def optional_setting (before : String) (value : Option String) (after : String) : String :=
  match value with
  | some text => before ++ text ++ after
  | none => ""

/-- The function `gst_inference_bin_build_pipe` (lines 387-437): the appends to
the `GString`, in order. -/
def gst_inference_bin_build_pipe (self : Option GstInferenceBin) : Option String :=
  match self with
  | none => none
  | some self =>
    some (String.join
      [ "inferencefilter filter-class=" ++ format_d self.filter ++ " name=filter ! ",
        "inferencedebug name=debug_before ! ",
        format_s self.converter ++ " name=converter_before ! ",
        "tee name=tee ",
        "tee. ! queue max-size-buffers=3 leaky=no name=queue_bypass ! arch.sink_bypass ",
        "tee. ! queue max-size-buffers=3 leaky=no name=queue_sink ! inferencecrop enable="
          ++ bool_text self.crop ++ " name=crop ! ",
        format_s self.scaler ++ " name=scaler ! arch.sink_model ",
        format_s self.arch ++ " name=arch backend=" ++ format_s self.backend
          ++ " model-location=" ++ format_s self.model_location ++ " ",
        optional_setting "labels=\"" self.labels "\" ",
        optional_setting "backend::input-layer=" self.input_layer " ",
        optional_setting "backend::output-layer=" self.output_layer " ",
        "arch.src_bypass ! queue name=queue_output ! inferencedebug name=debug_after ",
        "! inferenceoverlay enable=" ++ bool_text self.overlay ++ " name=overlay " ])

/-- Whether a text holds another one somewhere inside. -/
def contains_text (text part : String) : Bool :=
  text.data.tails.any fun rest => part.data.isPrefixOf rest

/-- The GStreamer calls of `gst_inference_bin_start`, as their outcomes: the bin
parsed from a description (or `NULL`), whether `gst_bin_add` takes it, and its
static pads by name. -/
structure GstParse where
  gst_parse_bin_from_description_full : String → Option Nat
  gst_bin_add : Nat → Bool
  gst_element_get_static_pad : Nat → String → Option Nat

/-- The function `gst_inference_bin_start` (lines 439-492): the return value
and the bin afterwards. -/
def gst_inference_bin_start (gst : GstParse) (self : Option GstInferenceBin) :
    Bool × Option GstInferenceBin :=
  match self with
  | none => (false, none)
  | some self =>
    match gst_inference_bin_build_pipe (some self) with
    | none => (false, some self)
    | some pipe =>
      match gst.gst_parse_bin_from_description_full pipe with
      | none => (false, some self)
      | some bin =>
        if gst.gst_bin_add bin = false then (false, some self)
        else
          match gst.gst_element_get_static_pad bin "sink",
            gst.gst_element_get_static_pad bin "src" with
          | some sinkpad, some srcpad =>
            (true, some { self with added := self.added ++ [bin], sinkpad := some sinkpad
                                    srcpad := some srcpad })
          | _, _ => (false, some { self with added := self.added ++ [bin] })

/-- The function `gst_inference_bin_stop` (lines 494-500). -/
def gst_inference_bin_stop (self : Option GstInferenceBin) : Bool :=
  match self with
  | none => false
  | some _ => true

/-- The transitions of `GstStateChange`. -/
inductive GstStateChange
  | NULL_TO_READY
  | READY_TO_PAUSED
  | PAUSED_TO_PLAYING
  | PLAYING_TO_PAUSED
  | PAUSED_TO_READY
  | READY_TO_NULL
  | OTHER_CHANGE (code : Nat)
deriving DecidableEq

/-- The values of `GstStateChangeReturn`. -/
inductive GstStateChangeReturn
  | GST_STATE_CHANGE_FAILURE
  | GST_STATE_CHANGE_SUCCESS
  | GST_STATE_CHANGE_ASYNC
  | GST_STATE_CHANGE_NO_PREROLL
deriving DecidableEq

/-- What `gst_inference_bin_change_state` leaves behind: the return value, the
bin, and which of `gst_inference_bin_start`, the parent's `change_state` and
`gst_inference_bin_stop` it called. -/
structure ChangeStateResult where
  ret : GstStateChangeReturn
  self : GstInferenceBin
  start_called : Bool
  parent_called : Bool
  stop_called : Bool
deriving DecidableEq

/-- The function `gst_inference_bin_change_state` (lines 502-540).
`parent_change_state` is the parent class's `change_state`, which sees the bin
as `gst_inference_bin_start` left it. -/
def gst_inference_bin_change_state (gst : GstParse)
    (parent_change_state : GstInferenceBin → GstStateChange → GstStateChangeReturn)
    (self : GstInferenceBin) (transition : GstStateChange) : ChangeStateResult :=
  let started : Bool × Option GstInferenceBin :=
    if transition = GstStateChange.READY_TO_PAUSED then gst_inference_bin_start gst (some self)
    else (true, some self)
  let start_called := decide (transition = GstStateChange.READY_TO_PAUSED)
  let self' := started.2.getD self
  if started.1 = false then
    { ret := GstStateChangeReturn.GST_STATE_CHANGE_FAILURE, self := self'
      start_called := start_called, parent_called := false, stop_called := false }
  else
    let ret := parent_change_state self' transition
    if ret = GstStateChangeReturn.GST_STATE_CHANGE_FAILURE then
      { ret := ret, self := self', start_called := start_called, parent_called := true
        stop_called := false }
    else if transition = GstStateChange.PAUSED_TO_READY then
      if gst_inference_bin_stop (some self') = false then
        { ret := GstStateChangeReturn.GST_STATE_CHANGE_FAILURE, self := self'
          start_called := start_called, parent_called := true, stop_called := true }
      else
        { ret := ret, self := self', start_called := start_called, parent_called := true
          stop_called := true }
    else
      { ret := ret, self := self', start_called := start_called, parent_called := true
        stop_called := false }

/-! ## Plugin registration (`gstinference.c`) -/

/-- The ten element names in the order `plugin_init` registers them. -/
def element_names : List String :=
  ["resnet50v1", "inceptionv1", "inceptionv2", "mobilenetv2", "inceptionv3", "inceptionv4",
   "tinyyolov2", "tinyyolov3", "mobilenetv2ssd", "rosetta"]

/-- The chain of `ret = gst_element_register (...); if (!ret) goto out;` over
the names still to register: the return value and the registrations attempted,
each with its outcome. The outcome of a registration may depend on those made
before. -/
def register_elements (gst_element_register : List (String × Bool) → String → Bool) :
    List String → List (String × Bool) → Bool × List (String × Bool)
  | [], attempted => (true, attempted)
  | name :: rest, attempted =>
    if gst_element_register attempted name then
      register_elements gst_element_register rest (attempted ++ [(name, true)])
    else (false, attempted ++ [(name, false)])

/-- The function `plugin_init` (`gstinference.c` lines 37-107). -/
def plugin_init (gst_element_register : List (String × Bool) → String → Bool) :
    Bool × List (String × Bool) :=
  register_elements gst_element_register element_names []

/-! ## Application callbacks (`tests/`) -/

/-- The box record filled by `gst_detection_process_inference`
(`gstdetection.c` lines 204-213). -/
structure PredictionBox where
  x : Int
  y : Int
  width : Int
  height : Int
  category : Int
  probability : gdouble
deriving DecidableEq

/-- What a callback does to the locks and lists of the predictions, in order:
it takes the lock of a prediction, releases it, or reads the classifications
list of a prediction. Predictions are named by their identifier. -/
inductive AccessEvent
  | lock (prediction_id : Nat)
  | unlock (prediction_id : Nat)
  | read_classifications (prediction_id : Nat)
deriving DecidableEq

/-- The call of `handle_prediction` made by the detection callback: the frame,
the array of boxes (`NULL` or the boxes) and their number. -/
structure HandleDetection where
  frame : GstVideoFrame
  boxes : Option (List PredictionBox)
  num_boxes : Int
deriving DecidableEq

/-- The call of `handle_prediction` made by the classification callback: the
frame, the probabilities and the number of classes. -/
structure HandleClassification where
  frame : GstVideoFrame
  probabilities : List gdouble
  num_classes : Int
deriving DecidableEq

/-- What the detection callback leaves behind: its call of `handle_prediction`
(none when a guard returned) and its accesses. -/
structure DetectionResult where
  handled : Option HandleDetection
  accesses : List AccessEvent
deriving DecidableEq

/-- What the classification callback leaves behind. -/
structure ClassificationResult where
  handled : Option HandleClassification
  accesses : List AccessEvent
deriving DecidableEq

/-- Lines 204-213 of `gstdetection.c`: the box made from a child and its first
classification. -/
def detection_box (child : GstInferencePrediction) (classification : GstInferenceClassification) :
    PredictionBox :=
  { x := child.bbox.x, y := child.bbox.y, width := child.bbox.width
    height := child.bbox.height, category := classification.class_id
    probability := classification.class_prob }

/-- The loop of lines 199-219 of `gstdetection.c` over the immediate children:
each child adds one box behind the boxes gathered so far. Reading
`child->classifications->data` of a child without classification has no result. -/
def detection_collect :
    List GstInferencePrediction → List PredictionBox → List AccessEvent →
      Option (List PredictionBox × List AccessEvent)
  | [], boxes, accesses => some (boxes, accesses)
  | child :: rest, boxes, accesses =>
    match child.classifications with
    | [] => none
    | classification :: _ =>
      detection_collect rest (boxes ++ [detection_box child classification])
        (accesses ++ [AccessEvent.read_classifications child.prediction_id])

/-- The function `gst_detection_process_inference` (`gstdetection.c` lines
177-227). `gst_inference_prediction_get_children`, whose body is not among the
sources, is a parameter: it is handed `bypass_meta->prediction` as it is, `NULL`
included, and the loop walks the list it returns. The callback takes no lock. -/
def gst_detection_process_inference
    (gst_inference_prediction_get_children :
      Option GstInferencePrediction → List GstInferencePrediction)
    (element : Option Unit)
    (model_meta : Option GstInferenceMeta) (model_frame : Option GstVideoFrame)
    (bypass_meta : Option GstInferenceMeta) (bypass_frame : Option GstVideoFrame)
    (user_data : Option Unit) : Option DetectionResult :=
  match element, model_meta, model_frame, bypass_meta, bypass_frame, user_data with
  | some _, some _, some _, some imeta, some frame, some _ =>
    match detection_collect (gst_inference_prediction_get_children imeta.prediction) [] [] with
    | none => none
    | some (boxes, accesses) =>
      some { handled := some { frame := frame
                               boxes := if boxes = [] then none else some boxes
                               num_boxes := (boxes.length : Nat) }
             accesses := accesses }
  | _, _, _, _, _, _ => some { handled := none, accesses := [] }

/-- The function `gst_classification_process_inference` (`gstclassification.c`
lines 177-205): the read of the first classification of the root sits between
`GST_INFERENCE_PREDICTION_LOCK` and `GST_INFERENCE_PREDICTION_UNLOCK`. A meta
without prediction, or a root without classification, has no result. -/
def gst_classification_process_inference (element : Option Unit)
    (model_meta : Option GstInferenceMeta) (model_frame : Option GstVideoFrame)
    (bypass_meta : Option GstInferenceMeta) (bypass_frame : Option GstVideoFrame)
    (user_data : Option Unit) : Option ClassificationResult :=
  match element, model_meta, model_frame, bypass_meta, bypass_frame, user_data with
  | some _, some _, some _, some imeta, some frame, some _ =>
    match imeta.prediction with
    | none => none
    | some prediction =>
      match prediction.classifications with
      | [] => none
      | classification :: _ =>
        some { handled := some { frame := frame
                                 probabilities := classification.probabilities
                                 num_classes := classification.num_classes }
               accesses := [AccessEvent.lock prediction.prediction_id,
                            AccessEvent.read_classifications prediction.prediction_id,
                            AccessEvent.unlock prediction.prediction_id] }
  | _, _, _, _, _, _ => some { handled := none, accesses := [] }

/-- Whether every read of a classifications list in a run of accesses happens
while the lock of that prediction is held; `held` are the locks held at the
start, one entry per acquisition. -/
def reads_under_lock : List AccessEvent → List Nat → Bool
  | [], _ => true
  | AccessEvent.lock id :: rest, held => reads_under_lock rest (id :: held)
  | AccessEvent.unlock id :: rest, held => reads_under_lock rest (held.erase id)
  | AccessEvent.read_classifications id :: rest, held =>
    decide (id ∈ held) && reads_under_lock rest held

/-- Whether every lock taken in a run of accesses is released exactly once by
its end: no release of a lock that is not held, and no lock held at the end. -/
def locks_released : List AccessEvent → List Nat → Bool
  | [], held => decide (held = [])
  | AccessEvent.lock id :: rest, held => locks_released rest (id :: held)
  | AccessEvent.unlock id :: rest, held =>
    decide (id ∈ held) && locks_released rest (held.erase id)
  | AccessEvent.read_classifications _ :: rest, held => locks_released rest held

/-- A root with one classification and two classified children, as a detector
followed by a classifier leaves it. -/
def detected_root : GstInferencePrediction :=
  .mk 20 { x := 0, y := 0, width := 416, height := 416 }
    [{ class_id := 0, class_prob := 1 / 2, class_label := some "scene", num_classes := 1,
       probabilities := [1 / 2] }]
    [.mk 21 { x := 10, y := 20, width := 30, height := 40 }
       [{ class_id := 1, class_prob := 7 / 10, class_label := some "dog", num_classes := 2,
          probabilities := [3 / 10, 7 / 10] }] [],
     .mk 22 { x := 50, y := 60, width := 70, height := 80 }
       [{ class_id := 0, class_prob := 9 / 10, class_label := some "cat", num_classes := 2,
          probabilities := [9 / 10, 1 / 10] },
        { class_id := 1, class_prob := 1 / 10, class_label := some "dog", num_classes := 2,
          probabilities := [9 / 10, 1 / 10] }] []]

/-- A `gst_inference_prediction_get_children` that returns the children list of
the node it is given, and no child for `NULL`. -/
def children_list : Option GstInferencePrediction → List GstInferencePrediction
  | none => []
  | some prediction => prediction.children

/-- A meta that carries `detected_root`. -/
def detected_meta : GstInferenceMeta :=
  { prediction := some detected_root }

/-- A parameter table that lists the name `device` twice, the first entry
without the flag `WRITE_BEFORE_START` and the second with it. -/
def repeated_name_table : List ParameterMeta :=
  [{ name := "device", write_before_start := false },
   { name := "device", write_before_start := true }]

/-- A backend that is created, with one queued property for `device`. -/
def created_backend : GstBaseBackendPrivate :=
  { backend_started := false, backend_created := true, property_list := [device_property]
    events := [] }

/-- GStreamer calls that all succeed: the parsed bin is element 5, its pads 6
and 7. -/
def working_parse : GstParse :=
  { gst_parse_bin_from_description_full := fun _ => some 5
    gst_bin_add := fun _ => true
    gst_element_get_static_pad := fun _ name => if name = "sink" then some 6 else some 7 }

/-- GStreamer calls of which the parse fails. -/
def failing_parse : GstParse :=
  { working_parse with gst_parse_bin_from_description_full := fun _ => none }

/-- Whether a string property is set to a text that holds `part` somewhere
inside; a property that is `NULL` holds nothing. -/
def holds_text (value : Option String) (part : String) : Bool :=
  match value with
  | some text => contains_text text part
  | none => false

/-- The fixed texts of `gst_inference_bin_build_pipe` that do not depend on which
optional setting is written, the two texts of a boolean and the text of a
`NULL` string among them. -/
def pipe_literals : List String :=
  [ "inferencefilter filter-class=", " name=filter ! ",
    "inferencedebug name=debug_before ! ", " name=converter_before ! ", "tee name=tee ",
    "tee. ! queue max-size-buffers=3 leaky=no name=queue_bypass ! arch.sink_bypass ",
    "tee. ! queue max-size-buffers=3 leaky=no name=queue_sink ! inferencecrop enable=",
    " name=crop ! ", " name=scaler ! arch.sink_model ", " name=arch backend=",
    " model-location=", " ", "\" ",
    "arch.src_bypass ! queue name=queue_output ! inferencedebug name=debug_after ",
    "! inferenceoverlay enable=", " name=overlay ", "true", "false", "(null)" ]

/-! ## Lemmas on the tree primitives and the append loop -/

theorem GstInferencePrediction.mk_eta (p : GstInferencePrediction) :
    GstInferencePrediction.mk p.prediction_id p.bbox p.classifications p.children = p := by
  cases p; rfl

/-- The append loop, started at index `i` with all the entries it reads in
range, appends the predictions built from `boxes[i ..]` and
`probabilities[i ..]` in order and touches nothing else of the root. -/
theorem tinyyolov3_append_boxes_from (env : Tinyyolov3Env) (vi : GstTinyyolov3)
    (boxes : List BBox) (probabilities : List (List gdouble))
    (labels_list : List String) (num_labels : Int) :
    ∀ (remaining i : Nat) (root : GstInferencePrediction),
      i + remaining ≤ boxes.length → i + remaining ≤ probabilities.length →
      tinyyolov3_append_boxes env vi boxes probabilities labels_list num_labels remaining i root =
        some (.mk root.prediction_id root.bbox root.classifications
          (root.children ++
            tinyyolov3_new_predictions env vi (boxes.drop i) (probabilities.drop i)
              labels_list num_labels remaining)) := by
  intro remaining
  induction remaining with
  | zero =>
    intro i root _ _
    simp [tinyyolov3_append_boxes, tinyyolov3_new_predictions, GstInferencePrediction.mk_eta]
  | succ k ih =>
    intro i root hb hp
    have hib : i < boxes.length := by omega
    have hip : i < probabilities.length := by omega
    have hdb : boxes.drop i = boxes[i] :: boxes.drop (i + 1) := List.drop_eq_getElem_cons hib
    have hdp : probabilities.drop i = probabilities[i] :: probabilities.drop (i + 1) :=
      List.drop_eq_getElem_cons hip
    simp only [tinyyolov3_append_boxes, List.getElem?_eq_getElem hib,
      List.getElem?_eq_getElem hip]
    rw [ih (i + 1) _ (by omega) (by omega)]
    unfold tinyyolov3_new_predictions
    rw [hdb, hdp, List.take_succ_cons, List.take_succ_cons, List.zipWith_cons_cons]
    simp only [gst_inference_prediction_append, GstInferencePrediction.prediction_id,
      GstInferencePrediction.bbox, GstInferencePrediction.classifications,
      GstInferencePrediction.children, List.append_assoc, List.singleton_append]

/-- The loop of `gst_tinyyolov3_postprocess`, run from index 0 over arrays that
hold at least `count` entries. -/
theorem tinyyolov3_append_boxes_all (env : Tinyyolov3Env) (vi : GstTinyyolov3)
    (boxes : List BBox) (probabilities : List (List gdouble))
    (labels_list : List String) (num_labels : Int) (count : Nat)
    (root : GstInferencePrediction)
    (hb : count ≤ boxes.length) (hp : count ≤ probabilities.length) :
    tinyyolov3_append_boxes env vi boxes probabilities labels_list num_labels count 0 root =
      some (.mk root.prediction_id root.bbox root.classifications
        (root.children ++
          tinyyolov3_new_predictions env vi boxes probabilities labels_list num_labels count)) := by
  have h := tinyyolov3_append_boxes_from env vi boxes probabilities labels_list num_labels
    count 0 root (by omega) (by omega)
  simpa using h

theorem tinyyolov3_new_predictions_length (env : Tinyyolov3Env) (vi : GstTinyyolov3)
    (boxes : List BBox) (probabilities : List (List gdouble))
    (labels_list : List String) (num_labels : Int) (count : Nat)
    (hb : count ≤ boxes.length) (hp : count ≤ probabilities.length) :
    (tinyyolov3_new_predictions env vi boxes probabilities labels_list num_labels count).length
      = count := by
  simp [tinyyolov3_new_predictions, List.length_zipWith, List.length_take, hb, hp]

/-- A call of `gst_tinyyolov3_postprocess` that passes its five guards, with
box arrays that hold at least `num_boxes` entries: the result in full. -/
theorem tinyyolov3_postprocess_passed (env : Tinyyolov3Env) (vi : GstTinyyolov3)
    (data : Tensor) (predsize : Nat) (imeta : GstInferenceMeta) (info : GstVideoInfo)
    (v : Bool) (labels_list : List String) (num_labels : Int)
    (hb : (tinyyolov3_create_boxes env vi data).elements.toNat
      ≤ (tinyyolov3_create_boxes env vi data).resulting_boxes.length)
    (hp : (tinyyolov3_create_boxes env vi data).elements.toNat
      ≤ (tinyyolov3_create_boxes env vi data).probabilities.length) :
    gst_tinyyolov3_postprocess env (some vi) (some data) predsize (some imeta) (some info)
        (some v) labels_list num_labels =
      some { ret := true
             meta_model := some { prediction := some (.mk
                 (tinyyolov3_root env imeta info).prediction_id
                 (tinyyolov3_root env imeta info).bbox
                 (tinyyolov3_root env imeta info).classifications
                 ((tinyyolov3_root env imeta info).children ++
                   tinyyolov3_new_predictions env vi
                     (tinyyolov3_create_boxes env vi data).resulting_boxes
                     (tinyyolov3_create_boxes env vi data).probabilities labels_list num_labels
                     (tinyyolov3_create_boxes env vi data).elements.toNat)) }
             valid_stores := (tinyyolov3_create_boxes env vi data).valid_stores ++
               [decide ((tinyyolov3_create_boxes env vi data).elements > 0)] } := by
  simp only [gst_tinyyolov3_postprocess]
  rw [tinyyolov3_append_boxes_all env vi _ _ labels_list num_labels _ _ hb hp]

/-! ## Claims -/

/-- C1 (as stated, refuted): with a prediction buffer of 28 bytes (7 floats),
which is no multiple of the stride of `4 + 1 + 80` floats, and a box creation
that itself reports failure, `gst_tinyyolov3_postprocess` still returns `TRUE`
and the meta that carried no root carries one afterwards. -/
theorem tinyyolov3_postprocess_malformed_length_counterexample :
    (¬ (4 + 1 + default_tinyyolov3.num_classes) ∣ 28) ∧
    (¬ (4 + 1 + default_tinyyolov3.num_classes) ∣ 7) ∧
    empty_meta.prediction = none ∧
    gst_tinyyolov3_postprocess rejecting_env (some default_tinyyolov3)
        (some [0, 0, 0, 0, 0, 0, 0]) 28 (some empty_meta) (some model_info) (some false) [] 0 =
      some { ret := true
             meta_model := some { prediction := some (.mk 11
               { x := 0, y := 0, width := 416, height := 416 } [] []) }
             valid_stores := [false, false] } :=
  ⟨by decide, by decide, rfl, rfl⟩

/-- C1 (amended): `gst_tinyyolov3_postprocess` never reads `predsize`. Every call
that passes its five argument guards, with box arrays that hold at least
`num_boxes` entries, returns `TRUE` and leaves a root on the meta, whatever
`predsize` is; and for every call the result is the same for every `predsize`. -/
theorem tinyyolov3_postprocess_predsize_unread (env : Tinyyolov3Env) (vi : GstTinyyolov3)
    (data : Tensor) (predsize : Nat) (imeta : GstInferenceMeta) (info : GstVideoInfo)
    (v : Bool) (labels_list : List String) (num_labels : Int)
    (hb : (tinyyolov3_create_boxes env vi data).elements.toNat
      ≤ (tinyyolov3_create_boxes env vi data).resulting_boxes.length)
    (hp : (tinyyolov3_create_boxes env vi data).elements.toNat
      ≤ (tinyyolov3_create_boxes env vi data).probabilities.length) :
    (∃ r root, gst_tinyyolov3_postprocess env (some vi) (some data) predsize (some imeta)
        (some info) (some v) labels_list num_labels = some r ∧
      r.ret = true ∧ r.meta_model = some { prediction := some root }) ∧
    (∀ (vi' : Option GstTinyyolov3) (prediction : Option Tensor)
      (meta_model : Option GstInferenceMeta) (info_model : Option GstVideoInfo)
      (valid_prediction : Option Bool) (predsize' : Nat),
      gst_tinyyolov3_postprocess env vi' prediction predsize' meta_model info_model
          valid_prediction labels_list num_labels =
        gst_tinyyolov3_postprocess env vi' prediction predsize meta_model info_model
          valid_prediction labels_list num_labels) :=
  ⟨⟨_, _, tinyyolov3_postprocess_passed env vi data predsize imeta info v labels_list num_labels
      hb hp, rfl, rfl⟩,
    fun _ _ _ _ _ _ => rfl⟩

/-- C1 (amended), at a concrete call: a 28-byte buffer and a rejecting box
creation. -/
theorem tinyyolov3_postprocess_predsize_unread_witness :
    (∃ r root, gst_tinyyolov3_postprocess rejecting_env (some default_tinyyolov3)
        (some [0, 0, 0, 0, 0, 0, 0]) 28 (some empty_meta) (some model_info) (some false) [] 0
          = some r ∧
      r.ret = true ∧ r.meta_model = some { prediction := some root }) ∧
    (∀ (vi' : Option GstTinyyolov3) (prediction : Option Tensor)
      (meta_model : Option GstInferenceMeta) (info_model : Option GstVideoInfo)
      (valid_prediction : Option Bool) (predsize' : Nat),
      gst_tinyyolov3_postprocess rejecting_env vi' prediction predsize' meta_model info_model
          valid_prediction [] 0 =
        gst_tinyyolov3_postprocess rejecting_env vi' prediction 28 meta_model info_model
          valid_prediction [] 0) :=
  tinyyolov3_postprocess_predsize_unread rejecting_env default_tinyyolov3
    [0, 0, 0, 0, 0, 0, 0] 28 empty_meta model_info false [] 0 (by decide) (by decide)

/-- C2 (the code at the failing input): with `prediction = NULL` on a meta that
carries a root, `gst_tinyyolov3_postprocess` returns `FALSE` and changes
nothing, but `gst_inceptionv3_postprocess`, which has no guard on `prediction`,
returns `TRUE`, appends a classification and stores `TRUE` through
`valid_prediction`. -/
theorem inceptionv3_postprocess_null_prediction :
    gst_tinyyolov3_postprocess two_box_env (some default_tinyyolov3) none 0
        (some rooted_meta) (some model_info) (some false) [] 0 =
      some { ret := false, meta_model := some rooted_meta, valid_stores := [] } ∧
    gst_inceptionv3_postprocess fixed_class_env (some default_inceptionv3) none 0
        (some rooted_meta) (some model_info) (some false) [] 0 =
      some { ret := true
             meta_model := some { prediction := some (.mk 3
               { x := 0, y := 0, width := 640, height := 480 }
               (earlier_root.classifications ++ [fixed_class]) earlier_root.children) }
             valid_stores := [true] } :=
  ⟨rfl, rfl⟩

/-- C3: whenever `gst_inceptionv3_postprocess` or `gst_tinyyolov3_postprocess`
returns `FALSE`, the meta (and with it the whole prediction tree) is exactly
what it was before the call and nothing was stored through `valid_prediction`. -/
theorem postprocess_false_changes_nothing :
    (∀ (env : Inceptionv3Env) (vi : Option GstInceptionv3) (prediction : Option Tensor)
      (predsize : Nat) (meta_model : Option GstInferenceMeta)
      (info_model : Option GstVideoInfo) (valid_prediction : Option Bool)
      (labels_list : List String) (num_labels : Int) (r : PostprocessResult),
      gst_inceptionv3_postprocess env vi prediction predsize meta_model info_model
          valid_prediction labels_list num_labels = some r →
      r.ret = false → r.meta_model = meta_model ∧ r.valid_stores = []) ∧
    (∀ (env : Tinyyolov3Env) (vi : Option GstTinyyolov3) (prediction : Option Tensor)
      (predsize : Nat) (meta_model : Option GstInferenceMeta)
      (info_model : Option GstVideoInfo) (valid_prediction : Option Bool)
      (labels_list : List String) (num_labels : Int) (r : PostprocessResult),
      gst_tinyyolov3_postprocess env vi prediction predsize meta_model info_model
          valid_prediction labels_list num_labels = some r →
      r.ret = false → r.meta_model = meta_model ∧ r.valid_stores = []) := by
  constructor
  · intro env vi prediction predsize meta_model info_model valid_prediction labels_list
      num_labels r h hr
    unfold gst_inceptionv3_postprocess at h
    split at h
    · split at h
      · cases h
        exact ⟨rfl, rfl⟩
      · split at h
        · cases h
          simp at hr
        · cases h
    · cases h
      exact ⟨rfl, rfl⟩
  · intro env vi prediction predsize meta_model info_model valid_prediction labels_list
      num_labels r h hr
    unfold gst_tinyyolov3_postprocess at h
    split at h
    · simp only at h
      split at h
      · cases h
        simp at hr
      · cases h
    · cases h
      exact ⟨rfl, rfl⟩

/-- C3, at two concrete calls: `gst_inceptionv3_postprocess` on a meta without
root and `gst_tinyyolov3_postprocess` without prediction data both return
`FALSE`. -/
theorem postprocess_false_changes_nothing_witness :
    (gst_inceptionv3_postprocess fixed_class_env (some default_inceptionv3) (some [1]) 4
        (some empty_meta) (some model_info) (some false) [] 0 =
      some { ret := false, meta_model := some empty_meta, valid_stores := [] } ∧
     ({ ret := false, meta_model := some empty_meta, valid_stores := [] }
        : PostprocessResult).meta_model = some empty_meta ∧
     ({ ret := false, meta_model := some empty_meta, valid_stores := [] }
        : PostprocessResult).valid_stores = []) ∧
    (gst_tinyyolov3_postprocess two_box_env (some default_tinyyolov3) none 0
        (some rooted_meta) (some model_info) (some false) [] 0 =
      some { ret := false, meta_model := some rooted_meta, valid_stores := [] } ∧
     ({ ret := false, meta_model := some rooted_meta, valid_stores := [] }
        : PostprocessResult).meta_model = some rooted_meta ∧
     ({ ret := false, meta_model := some rooted_meta, valid_stores := [] }
        : PostprocessResult).valid_stores = []) :=
  ⟨⟨rfl, postprocess_false_changes_nothing.1 fixed_class_env (some default_inceptionv3)
      (some [1]) 4 (some empty_meta) (some model_info) (some false) [] 0 _ rfl rfl⟩,
   ⟨rfl, postprocess_false_changes_nothing.2 two_box_env (some default_tinyyolov3) none 0
      (some rooted_meta) (some model_info) (some false) [] 0 _ rfl rfl⟩⟩

/-- C4: a call of `gst_tinyyolov3_postprocess` that passes its guards and whose
box creation yields `num_boxes = 0` returns `TRUE` and leaves on the meta the
root of lines 307-311 with no child appended: the root that was there, unchanged,
or a new root without children. -/
theorem tinyyolov3_postprocess_zero_boxes (env : Tinyyolov3Env) (vi : GstTinyyolov3)
    (data : Tensor) (predsize : Nat) (imeta : GstInferenceMeta) (info : GstVideoInfo)
    (v : Bool) (labels_list : List String) (num_labels : Int)
    (h0 : (tinyyolov3_create_boxes env vi data).elements = 0) :
    gst_tinyyolov3_postprocess env (some vi) (some data) predsize (some imeta) (some info)
        (some v) labels_list num_labels =
      some { ret := true
             meta_model := some { prediction := some (tinyyolov3_root env imeta info) }
             valid_stores := (tinyyolov3_create_boxes env vi data).valid_stores ++ [false] } ∧
    (∀ root, imeta.prediction = some root → tinyyolov3_root env imeta info = root) ∧
    (imeta.prediction = none → (tinyyolov3_root env imeta info).children = []) := by
  refine ⟨?_, ?_, ?_⟩
  · simp [gst_tinyyolov3_postprocess, h0, tinyyolov3_append_boxes]
  · intro root h
    simp [tinyyolov3_root, h]
  · intro h
    simp [tinyyolov3_root, h, set_bbox_size, gst_inference_prediction_new,
      GstInferencePrediction.children]

/-- C4, at a concrete call: a rejecting box creation on a meta that carries a
root leaves that root as it was. -/
theorem tinyyolov3_postprocess_zero_boxes_witness :
    gst_tinyyolov3_postprocess rejecting_env (some default_tinyyolov3) (some [1, 2]) 8
        (some rooted_meta) (some model_info) (some false) [] 0 =
      some { ret := true
             meta_model := some
               { prediction := some (tinyyolov3_root rejecting_env rooted_meta model_info) }
             valid_stores :=
               (tinyyolov3_create_boxes rejecting_env default_tinyyolov3 [1, 2]).valid_stores
                 ++ [false] } ∧
    (∀ root, rooted_meta.prediction = some root →
      tinyyolov3_root rejecting_env rooted_meta model_info = root) ∧
    (rooted_meta.prediction = none →
      (tinyyolov3_root rejecting_env rooted_meta model_info).children = []) :=
  tinyyolov3_postprocess_zero_boxes rejecting_env default_tinyyolov3 [1, 2] 8 rooted_meta
    model_info false [] 0 rfl

/-- C5: on a meta that carries no root, the root `gst_tinyyolov3_postprocess`
creates (lines 307-311) has the box `x = 0`, `y = 0`, `width = info_model->width`,
`height = info_model->height` and empty classification and children lists; the
call ends with that root holding exactly the predictions of this call. -/
theorem tinyyolov3_postprocess_creates_frame_root (env : Tinyyolov3Env)
    (vi : GstTinyyolov3) (data : Tensor) (predsize : Nat) (imeta : GstInferenceMeta)
    (info : GstVideoInfo) (v : Bool) (labels_list : List String) (num_labels : Int)
    (hroot : imeta.prediction = none)
    (hb : (tinyyolov3_create_boxes env vi data).elements.toNat
      ≤ (tinyyolov3_create_boxes env vi data).resulting_boxes.length)
    (hp : (tinyyolov3_create_boxes env vi data).elements.toNat
      ≤ (tinyyolov3_create_boxes env vi data).probabilities.length) :
    (tinyyolov3_root env imeta info).bbox =
      { x := 0, y := 0, width := info.width, height := info.height } ∧
    (tinyyolov3_root env imeta info).classifications = [] ∧
    (tinyyolov3_root env imeta info).children = [] ∧
    gst_tinyyolov3_postprocess env (some vi) (some data) predsize (some imeta) (some info)
        (some v) labels_list num_labels =
      some { ret := true
             meta_model := some { prediction := some (.mk env.fresh_id
               { x := 0, y := 0, width := info.width, height := info.height } []
               (tinyyolov3_new_predictions env vi
                 (tinyyolov3_create_boxes env vi data).resulting_boxes
                 (tinyyolov3_create_boxes env vi data).probabilities labels_list num_labels
                 (tinyyolov3_create_boxes env vi data).elements.toNat)) }
             valid_stores := (tinyyolov3_create_boxes env vi data).valid_stores ++
               [decide ((tinyyolov3_create_boxes env vi data).elements > 0)] } := by
  have hr : tinyyolov3_root env imeta info =
      .mk env.fresh_id { x := 0, y := 0, width := info.width, height := info.height } [] [] := by
    simp [tinyyolov3_root, hroot, set_bbox_size, gst_inference_prediction_new,
      GstInferencePrediction.prediction_id, GstInferencePrediction.bbox,
      GstInferencePrediction.classifications, GstInferencePrediction.children]
  refine ⟨by rw [hr]; rfl, by rw [hr]; rfl, by rw [hr]; rfl, ?_⟩
  rw [tinyyolov3_postprocess_passed env vi data predsize imeta info v labels_list num_labels
    hb hp, hr]
  simp [GstInferencePrediction.prediction_id, GstInferencePrediction.bbox,
    GstInferencePrediction.classifications, GstInferencePrediction.children]

/-- C5, at a concrete call: two boxes on a meta without root, 416 x 416 model. -/
theorem tinyyolov3_postprocess_creates_frame_root_witness :
    (tinyyolov3_root two_box_env empty_meta model_info).bbox =
      { x := 0, y := 0, width := model_info.width, height := model_info.height } ∧
    (tinyyolov3_root two_box_env empty_meta model_info).classifications = [] ∧
    (tinyyolov3_root two_box_env empty_meta model_info).children = [] ∧
    gst_tinyyolov3_postprocess two_box_env (some default_tinyyolov3) (some [1, 2]) 8
        (some empty_meta) (some model_info) (some false) [] 0 =
      some { ret := true
             meta_model := some { prediction := some (.mk two_box_env.fresh_id
               { x := 0, y := 0, width := model_info.width, height := model_info.height } []
               (tinyyolov3_new_predictions two_box_env default_tinyyolov3
                 (tinyyolov3_create_boxes two_box_env default_tinyyolov3 [1, 2]).resulting_boxes
                 (tinyyolov3_create_boxes two_box_env default_tinyyolov3 [1, 2]).probabilities
                 [] 0
                 (tinyyolov3_create_boxes two_box_env default_tinyyolov3 [1, 2]).elements.toNat)) }
             valid_stores :=
               (tinyyolov3_create_boxes two_box_env default_tinyyolov3 [1, 2]).valid_stores ++
               [decide ((tinyyolov3_create_boxes two_box_env default_tinyyolov3 [1, 2]).elements
                 > 0)] } :=
  tinyyolov3_postprocess_creates_frame_root two_box_env default_tinyyolov3 [1, 2] 8 empty_meta
    model_info false [] 0 rfl (by decide) (by decide)

/-- C6: on a meta that already carries a root, `gst_tinyyolov3_postprocess`
leaves the same root on the meta: same identifier, bounding box and
classifications, and the previous children, in their order, as a beginning of
its children. This holds whether the argument guards pass or not. -/
theorem tinyyolov3_postprocess_keeps_root (env : Tinyyolov3Env)
    (vi : Option GstTinyyolov3) (prediction : Option Tensor) (predsize : Nat)
    (imeta : GstInferenceMeta) (root : GstInferencePrediction)
    (info_model : Option GstVideoInfo) (valid_prediction : Option Bool)
    (labels_list : List String) (num_labels : Int)
    (hroot : imeta.prediction = some root)
    (hlen : ∀ tinyyolov3 data, vi = some tinyyolov3 → prediction = some data →
      (tinyyolov3_create_boxes env tinyyolov3 data).elements.toNat
        ≤ (tinyyolov3_create_boxes env tinyyolov3 data).resulting_boxes.length ∧
      (tinyyolov3_create_boxes env tinyyolov3 data).elements.toNat
        ≤ (tinyyolov3_create_boxes env tinyyolov3 data).probabilities.length) :
    ∃ r root', gst_tinyyolov3_postprocess env vi prediction predsize (some imeta) info_model
        valid_prediction labels_list num_labels = some r ∧
      r.meta_model = some { prediction := some root' } ∧
      root'.prediction_id = root.prediction_id ∧
      root'.bbox = root.bbox ∧
      root'.classifications = root.classifications ∧
      root.children <+: root'.children := by
  have hmeta : imeta = { prediction := some root } := by
    cases imeta
    simp only at hroot
    rw [hroot]
  have hfail : ∀ r : PostprocessResult, r.meta_model = some imeta →
      ∃ root', r.meta_model = some { prediction := some root' } ∧
        root'.prediction_id = root.prediction_id ∧ root'.bbox = root.bbox ∧
        root'.classifications = root.classifications ∧ root.children <+: root'.children :=
    fun r hr => ⟨root, by rw [hr, hmeta], rfl, rfl, rfl, List.prefix_refl _⟩
  rcases vi with _ | tinyyolov3
  · exact ⟨_, (hfail _ rfl).choose, rfl, (hfail _ rfl).choose_spec⟩
  rcases prediction with _ | data
  · exact ⟨_, (hfail _ rfl).choose, rfl, (hfail _ rfl).choose_spec⟩
  rcases info_model with _ | info
  · exact ⟨_, (hfail _ rfl).choose, rfl, (hfail _ rfl).choose_spec⟩
  rcases valid_prediction with _ | v
  · exact ⟨_, (hfail _ rfl).choose, rfl, (hfail _ rfl).choose_spec⟩
  obtain ⟨hb, hp⟩ := hlen tinyyolov3 data rfl rfl
  have hr : tinyyolov3_root env imeta info = root := by
    simp [tinyyolov3_root, hroot]
  refine ⟨_, _, tinyyolov3_postprocess_passed env tinyyolov3 data predsize imeta info v
    labels_list num_labels hb hp, rfl, ?_, ?_, ?_, ?_⟩
  · rw [hr]; rfl
  · rw [hr]; rfl
  · rw [hr]; rfl
  · rw [hr]
    exact List.prefix_append _ _

/-- C6, at a concrete call: two boxes appended under `earlier_root`. -/
theorem tinyyolov3_postprocess_keeps_root_witness :
    ∃ r root', gst_tinyyolov3_postprocess two_box_env (some default_tinyyolov3) (some [1, 2]) 8
        (some rooted_meta) (some model_info) (some false) [] 0 = some r ∧
      r.meta_model = some { prediction := some root' } ∧
      root'.prediction_id = earlier_root.prediction_id ∧
      root'.bbox = earlier_root.bbox ∧
      root'.classifications = earlier_root.classifications ∧
      earlier_root.children <+: root'.children :=
  tinyyolov3_postprocess_keeps_root two_box_env (some default_tinyyolov3) (some [1, 2]) 8
    rooted_meta earlier_root (some model_info) (some false) [] 0 rfl
    (fun _ _ _ _ => ⟨by simp [tinyyolov3_create_boxes, two_box_env],
      by simp [tinyyolov3_create_boxes, two_box_env]⟩)

/-- C7: when the guards pass and box creation yields `count` boxes, the root's
children afterwards are its previous children (those of the root found on the
meta, none for a root created by this call) followed by exactly `count` new
predictions, the `i`-th built by `gst_create_prediction_from_box` from `boxes[i]`
and `probabilities[i]`; and every single append puts the appended prediction
last and grows the children list by exactly one. -/
theorem tinyyolov3_postprocess_appends_in_order (env : Tinyyolov3Env)
    (vi : GstTinyyolov3) (data : Tensor) (predsize : Nat) (imeta : GstInferenceMeta)
    (info : GstVideoInfo) (v : Bool) (labels_list : List String) (num_labels : Int)
    (count : Nat)
    (hcount : (tinyyolov3_create_boxes env vi data).elements = (count : Int))
    (hb : count ≤ (tinyyolov3_create_boxes env vi data).resulting_boxes.length)
    (hp : count ≤ (tinyyolov3_create_boxes env vi data).probabilities.length) :
    (∃ r root', gst_tinyyolov3_postprocess env (some vi) (some data) predsize (some imeta)
        (some info) (some v) labels_list num_labels = some r ∧
      r.ret = true ∧
      r.meta_model = some { prediction := some root' } ∧
      root'.children = (tinyyolov3_root env imeta info).children ++
        tinyyolov3_new_predictions env vi (tinyyolov3_create_boxes env vi data).resulting_boxes
          (tinyyolov3_create_boxes env vi data).probabilities labels_list num_labels count ∧
      root'.children.length = (tinyyolov3_root env imeta info).children.length + count ∧
      (∀ (i : Nat) (box : BBox) (probs : List gdouble), i < count →
        (tinyyolov3_create_boxes env vi data).resulting_boxes[i]? = some box →
        (tinyyolov3_create_boxes env vi data).probabilities[i]? = some probs →
        root'.children[(tinyyolov3_root env imeta info).children.length + i]? =
          some (env.gst_create_prediction_from_box vi box labels_list num_labels probs))) ∧
    (∀ root, imeta.prediction = some root →
      (tinyyolov3_root env imeta info).children = root.children) ∧
    (imeta.prediction = none → (tinyyolov3_root env imeta info).children = []) ∧
    (∀ parent child : GstInferencePrediction,
      (gst_inference_prediction_append parent child).children.getLast? = some child ∧
      (gst_inference_prediction_append parent child).children.length
        = parent.children.length + 1 ∧
      (gst_inference_prediction_append parent child).children.take parent.children.length
        = parent.children) := by
  have hn : (tinyyolov3_create_boxes env vi data).elements.toNat = count := by
    rw [hcount]; exact Int.toNat_ofNat count
  have hpass := tinyyolov3_postprocess_passed env vi data predsize imeta info v labels_list
    num_labels (by rw [hn]; exact hb) (by rw [hn]; exact hp)
  rw [hn] at hpass
  have hlen := tinyyolov3_new_predictions_length env vi _ _ labels_list num_labels count hb hp
  refine ⟨⟨_, _, hpass, rfl, rfl, rfl, ?_, ?_⟩, ?_, ?_, ?_⟩
  · simp [GstInferencePrediction.children, hlen]
  · intro i box probs hi hbox hprobs
    simp only [GstInferencePrediction.children]
    rw [List.getElem?_append_right (Nat.le_add_right _ _), Nat.add_sub_cancel_left]
    simp [tinyyolov3_new_predictions, List.getElem?_zipWith, List.getElem?_take, hi, hbox,
      hprobs]
  · intro root h
    simp [tinyyolov3_root, h]
  · intro h
    simp [tinyyolov3_root, h, set_bbox_size, gst_inference_prediction_new,
      GstInferencePrediction.children]
  · intro parent child
    simp [gst_inference_prediction_append, GstInferencePrediction.children]

/-- C7, at a concrete call: two boxes appended under `earlier_root`. -/
theorem tinyyolov3_postprocess_appends_in_order_witness :
    (∃ r root', gst_tinyyolov3_postprocess two_box_env (some default_tinyyolov3) (some [1, 2])
        8 (some rooted_meta) (some model_info) (some false) [] 0 = some r ∧
      r.ret = true ∧
      r.meta_model = some { prediction := some root' } ∧
      root'.children = (tinyyolov3_root two_box_env rooted_meta model_info).children ++
        tinyyolov3_new_predictions two_box_env default_tinyyolov3
          (tinyyolov3_create_boxes two_box_env default_tinyyolov3 [1, 2]).resulting_boxes
          (tinyyolov3_create_boxes two_box_env default_tinyyolov3 [1, 2]).probabilities [] 0 2 ∧
      root'.children.length
        = (tinyyolov3_root two_box_env rooted_meta model_info).children.length + 2 ∧
      (∀ (i : Nat) (box : BBox) (probs : List gdouble), i < 2 →
        (tinyyolov3_create_boxes two_box_env default_tinyyolov3 [1, 2]).resulting_boxes[i]?
          = some box →
        (tinyyolov3_create_boxes two_box_env default_tinyyolov3 [1, 2]).probabilities[i]?
          = some probs →
        root'.children[(tinyyolov3_root two_box_env rooted_meta model_info).children.length
            + i]? =
          some (two_box_env.gst_create_prediction_from_box default_tinyyolov3 box [] 0 probs))) ∧
    (∀ root, rooted_meta.prediction = some root →
      (tinyyolov3_root two_box_env rooted_meta model_info).children = root.children) ∧
    (rooted_meta.prediction = none →
      (tinyyolov3_root two_box_env rooted_meta model_info).children = []) ∧
    (∀ parent child : GstInferencePrediction,
      (gst_inference_prediction_append parent child).children.getLast? = some child ∧
      (gst_inference_prediction_append parent child).children.length
        = parent.children.length + 1 ∧
      (gst_inference_prediction_append parent child).children.take parent.children.length
        = parent.children) :=
  tinyyolov3_postprocess_appends_in_order two_box_env default_tinyyolov3 [1, 2] 8 rooted_meta
    model_info false [] 0 2 rfl (by decide) (by decide)

/-- The calls of `gst_inceptionv3_postprocess` with a `valid_prediction` that
is not `NULL`: with non-NULL `vi`, `meta_model` and `info_model` on a meta that
carries a root, the call returns `TRUE`, stores `TRUE` through
`valid_prediction` and appends exactly the classification that
`gst_create_class_from_prediction` returns as the last classification of the
root; children and earlier classifications stay as they were. -/
theorem inceptionv3_postprocess_appends_class (env : Inceptionv3Env)
    (vi : GstInceptionv3) (prediction : Option Tensor) (predsize : Nat)
    (imeta : GstInferenceMeta) (root : GstInferencePrediction) (info : GstVideoInfo)
    (v : Bool) (labels_list : List String) (num_labels : Int)
    (hroot : imeta.prediction = some root) :
    gst_inceptionv3_postprocess env (some vi) prediction predsize (some imeta) (some info)
        (some v) labels_list num_labels =
      some { ret := true
             meta_model := some { prediction := some (.mk root.prediction_id root.bbox
               (root.classifications ++
                 [env.gst_create_class_from_prediction vi prediction predsize labels_list
                   num_labels])
               root.children) }
             valid_stores := [true] } := by
  simp [gst_inceptionv3_postprocess, hroot, gst_inference_prediction_append_classification]

/-- The same at a concrete call on `rooted_meta`. -/
theorem inceptionv3_postprocess_appends_class_witness :
    gst_inceptionv3_postprocess fixed_class_env (some default_inceptionv3) (some [3 / 10, 7 / 10])
        8 (some rooted_meta) (some model_info) (some false) ["cat", "dog"] 2 =
      some { ret := true
             meta_model := some { prediction := some (.mk earlier_root.prediction_id
               earlier_root.bbox
               (earlier_root.classifications ++
                 [fixed_class_env.gst_create_class_from_prediction default_inceptionv3
                   (some [3 / 10, 7 / 10]) 8 ["cat", "dog"] 2])
               earlier_root.children) }
             valid_stores := [true] } :=
  inceptionv3_postprocess_appends_class fixed_class_env default_inceptionv3
    (some [3 / 10, 7 / 10]) 8 rooted_meta earlier_root model_info false ["cat", "dog"] 2 rfl

/-- C8 (the code at the failing input): with non-NULL `vi`, `meta_model` and
`info_model` on a meta that carries a root and with `valid_prediction = NULL`,
`gst_inceptionv3_postprocess`, which has no guard on `valid_prediction`, reaches
the store `*valid_prediction = TRUE` through the `NULL` pointer and has no
result: it does not return `TRUE`. `gst_tinyyolov3_postprocess` guards the
pointer: it returns `FALSE` and changes nothing. -/
theorem inceptionv3_postprocess_null_valid_prediction :
    (∀ (env : Inceptionv3Env) (vi : GstInceptionv3) (prediction : Option Tensor)
      (predsize : Nat) (root : GstInferencePrediction) (info : GstVideoInfo)
      (labels_list : List String) (num_labels : Int),
      gst_inceptionv3_postprocess env (some vi) prediction predsize
        (some { prediction := some root }) (some info) none labels_list num_labels = none) ∧
    rooted_meta.prediction = some earlier_root ∧
    gst_inceptionv3_postprocess fixed_class_env (some default_inceptionv3)
        (some [3 / 10, 7 / 10]) 8 (some rooted_meta) (some model_info) none ["cat", "dog"] 2
      = none ∧
    gst_tinyyolov3_postprocess two_box_env (some default_tinyyolov3) (some [1, 2]) 8
        (some rooted_meta) (some model_info) none [] 0 =
      some { ret := false, meta_model := some rooted_meta, valid_stores := [] } :=
  ⟨fun _ _ _ _ _ _ _ _ => rfl, rfl, rfl, rfl⟩

/-! ## Overlap measure -/

theorem intersection_area_comm (a b : BBox) :
    intersection_area a b = intersection_area b a := by
  simp only [intersection_area]
  rw [min_comm (a.x + a.width), max_comm a.x, min_comm (a.y + a.height), max_comm a.y]

/-- C9: the overlap measure used when duplicated boxes are removed is
symmetric, and a box with non-negative width and height (the invariant of the
data model) and non-zero area overlaps itself with measure exactly 1. -/
theorem intersection_over_union_symm_and_self :
    (∀ a b : BBox, intersection_over_union a b = intersection_over_union b a) ∧
    (∀ a : BBox, 0 ≤ a.width → 0 ≤ a.height → box_area a ≠ 0 →
      intersection_over_union a a = 1) := by
  constructor
  · intro a b
    simp only [intersection_over_union, union_area, intersection_area_comm a b,
      add_comm (box_area a), or_comm (a := box_area a = 0)]
  · intro a hw hh harea
    have hw0 : a.width ≠ 0 := fun h => harea (by simp [box_area, h])
    have hh0 : a.height ≠ 0 := fun h => harea (by simp [box_area, h])
    have hwpos : 0 < a.width := lt_of_le_of_ne hw (Ne.symm hw0)
    have hhpos : 0 < a.height := lt_of_le_of_ne hh (Ne.symm hh0)
    have hinter : intersection_area a a = box_area a := by
      simp only [intersection_area, box_area, min_self, max_self, add_sub_cancel_left]
      rw [if_neg]
      rintro (h | h)
      · exact absurd h (not_le.mpr hwpos)
      · exact absurd h (not_le.mpr hhpos)
    simp only [intersection_over_union, union_area, hinter, or_self, if_neg harea,
      add_sub_cancel_right]
    exact div_self harea

/-- C9, at a concrete box: the 10 x 10 box `left_box`. -/
theorem intersection_over_union_symm_and_self_witness :
    intersection_over_union left_box right_box = intersection_over_union right_box left_box ∧
    intersection_over_union left_box left_box = 1 :=
  ⟨intersection_over_union_symm_and_self.1 left_box right_box,
   intersection_over_union_symm_and_self.2 left_box (by norm_num [left_box])
     (by norm_num [left_box]) (by norm_num [box_area, left_box])⟩

/-! ## Classification extractor -/

/-- The scan keeps its invariant: with `pre` the part already visited, `best`
its greatest value and `best_index` the first index holding it, the index
returned holds the greatest value of the whole vector and no earlier index
holds a value as great. -/
theorem argmax_scan_spec :
    ∀ (rest pre : List gdouble) (best_index : Nat) (best : gdouble),
      pre[best_index]? = some best →
      (∀ x ∈ pre, x ≤ best) →
      (∀ (j : Nat) (x : gdouble), j < best_index → pre[j]? = some x → x < best) →
      ∃ m, (pre ++ rest)[argmax_scan rest pre.length best_index best]? = some m ∧
        (∀ x ∈ pre ++ rest, x ≤ m) ∧
        (∀ (j : Nat) (x : gdouble), j < argmax_scan rest pre.length best_index best →
          (pre ++ rest)[j]? = some x → x < m) := by
  intro rest
  induction rest with
  | nil =>
    intro pre best_index best hbest hmax hfirst
    refine ⟨best, ?_, ?_, ?_⟩
    · simpa [argmax_scan] using hbest
    · simpa using hmax
    · simpa [argmax_scan] using hfirst
  | cons p rest ih =>
    intro pre best_index best hbest hmax hfirst
    have hlt : best_index < pre.length := by
      by_contra h
      rw [List.getElem?_eq_none (Nat.le_of_not_lt h)] at hbest
      exact Option.noConfusion hbest
    have happ : pre ++ p :: rest = (pre ++ [p]) ++ rest := by simp
    have hlen : (pre ++ [p]).length = pre.length + 1 := by simp
    by_cases hp : p > best
    · have step : argmax_scan (p :: rest) pre.length best_index best
          = argmax_scan rest (pre ++ [p]).length pre.length p := by
        simp [argmax_scan, hp]
      rw [step, happ]
      apply ih (pre ++ [p]) pre.length p
      · simp
      · intro x hx
        rcases List.mem_append.mp hx with h | h
        · exact le_of_lt (lt_of_le_of_lt (hmax x h) hp)
        · simp at h
          exact le_of_eq h
      · intro j x hj hx
        rw [List.getElem?_append_left hj] at hx
        exact lt_of_le_of_lt (hmax x (List.getElem?_mem hx)) hp
    · have step : argmax_scan (p :: rest) pre.length best_index best
          = argmax_scan rest (pre ++ [p]).length best_index best := by
        simp [argmax_scan, hp]
      rw [step, happ]
      apply ih (pre ++ [p]) best_index best
      · rw [List.getElem?_append_left hlt]
        exact hbest
      · intro x hx
        rcases List.mem_append.mp hx with h | h
        · exact hmax x h
        · simp at h
          rw [h]
          exact le_of_not_lt hp
      · intro j x hj hx
        rw [List.getElem?_append_left (lt_trans hj hlt)] at hx
        exact hfirst j x hj hx

/-- C11: for every probability vector of length at least one, the classification
of `gst_create_class_from_prediction` has as `class_id` an index of the vector
that holds its maximum value, and the lowest such index: every entry is at most
the entry at `class_id` and every entry before it is strictly smaller. -/
theorem create_class_from_prediction_argmax (prediction : Tensor)
    (labels_list : List String) (num_labels : Int) (hlen : 1 ≤ prediction.length) :
    ∃ (i : Nat) (m : gdouble),
      (gst_create_class_from_prediction prediction labels_list num_labels).class_id = (i : Int) ∧
      prediction[i]? = some m ∧
      (gst_create_class_from_prediction prediction labels_list num_labels).class_prob = m ∧
      (∀ x ∈ prediction, x ≤ m) ∧
      (∀ (j : Nat) (x : gdouble), j < i → prediction[j]? = some x → x < m) := by
  cases prediction with
  | nil => simp at hlen
  | cons p rest =>
    obtain ⟨m, hm, hmax, hfirst⟩ := argmax_scan_spec rest [p] 0 p (by simp)
      (by intro x hx; simp at hx; exact le_of_eq hx) (by intro j x hj; omega)
    have hidx : argmax_index (p :: rest) = argmax_scan rest 1 0 p := rfl
    simp only [List.length_singleton, List.singleton_append] at hm hmax hfirst
    refine ⟨argmax_scan rest 1 0 p, m, ?_, hm, ?_, hmax, hfirst⟩
    · simp [gst_create_class_from_prediction, hidx]
    · simp only [gst_create_class_from_prediction, hidx, List.getD_eq_getElem?_getD, hm,
        Option.getD_some]

/-- C11, at a concrete vector whose maximum 7/10 occurs at indices 1 and 3. -/
theorem create_class_from_prediction_argmax_witness :
    ∃ (i : Nat) (m : gdouble),
      (gst_create_class_from_prediction [1 / 10, 7 / 10, 1 / 5, 7 / 10] ["a", "b", "c", "d"]
        4).class_id = (i : Int) ∧
      ([1 / 10, 7 / 10, 1 / 5, 7 / 10] : Tensor)[i]? = some m ∧
      (gst_create_class_from_prediction [1 / 10, 7 / 10, 1 / 5, 7 / 10] ["a", "b", "c", "d"]
        4).class_prob = m ∧
      (∀ x ∈ ([1 / 10, 7 / 10, 1 / 5, 7 / 10] : Tensor), x ≤ m) ∧
      (∀ (j : Nat) (x : gdouble), j < i →
        ([1 / 10, 7 / 10, 1 / 5, 7 / 10] : Tensor)[j]? = some x → x < m) :=
  create_class_from_prediction_argmax [1 / 10, 7 / 10, 1 / 5, 7 / 10] ["a", "b", "c", "d"] 4
    (by decide)

/-! ## Properties of the tinyyolov3 element -/

/-- C12: for each of `object-threshold`, `probability-threshold` and
`iou-threshold`, for every double `v` (those of [0,1] among them) and every
element, state included, setting the property to `v` and reading it back gives
`v`, and the set leaves the other two thresholds, `num_classes` and the state as
they were. -/
theorem tinyyolov3_threshold_set_get (tinyyolov3 : GstTinyyolov3) (v : gdouble) :
    (gst_tinyyolov3_get_property
        (gst_tinyyolov3_set_property tinyyolov3 PROP_OBJ_THRESH (.g_double v)).element
        PROP_OBJ_THRESH = some (.g_double v) ∧
      (gst_tinyyolov3_set_property tinyyolov3 PROP_OBJ_THRESH (.g_double v)).element =
        { tinyyolov3 with obj_thresh := v }) ∧
    (gst_tinyyolov3_get_property
        (gst_tinyyolov3_set_property tinyyolov3 PROP_PROB_THRESH (.g_double v)).element
        PROP_PROB_THRESH = some (.g_double v) ∧
      (gst_tinyyolov3_set_property tinyyolov3 PROP_PROB_THRESH (.g_double v)).element =
        { tinyyolov3 with prob_thresh := v }) ∧
    (gst_tinyyolov3_get_property
        (gst_tinyyolov3_set_property tinyyolov3 PROP_IOU_THRESH (.g_double v)).element
        PROP_IOU_THRESH = some (.g_double v) ∧
      (gst_tinyyolov3_set_property tinyyolov3 PROP_IOU_THRESH (.g_double v)).element =
        { tinyyolov3 with iou_thresh := v }) := by
  refine ⟨⟨?_, ?_⟩, ⟨?_, ?_⟩, ⟨?_, ?_⟩⟩ <;>
    simp [gst_tinyyolov3_set_property, gst_tinyyolov3_get_property, g_value_get_double,
      PROP_OBJ_THRESH, PROP_PROB_THRESH, PROP_IOU_THRESH, PROP_NUM_CLASSES]

/-- C13: `gst_tinyyolov3_set_property` on `number-of-classes` stores the value
when the element is in the `NULL` state, the three thresholds staying as they
were, and in every other state leaves the whole element as it was. -/
theorem tinyyolov3_num_classes_only_in_null (tinyyolov3 : GstTinyyolov3) (n : Nat) :
    (tinyyolov3.state = GstState.NULL →
      (gst_tinyyolov3_set_property tinyyolov3 PROP_NUM_CLASSES (.g_uint n)).element =
        { tinyyolov3 with num_classes := n }) ∧
    (tinyyolov3.state ≠ GstState.NULL →
      (gst_tinyyolov3_set_property tinyyolov3 PROP_NUM_CLASSES (.g_uint n)).element =
        tinyyolov3) := by
  constructor
  · intro h
    simp [gst_tinyyolov3_set_property, g_value_get_uint, h, PROP_OBJ_THRESH, PROP_PROB_THRESH,
      PROP_IOU_THRESH, PROP_NUM_CLASSES]
  · intro h
    simp [gst_tinyyolov3_set_property, h, PROP_OBJ_THRESH, PROP_PROB_THRESH,
      PROP_IOU_THRESH, PROP_NUM_CLASSES]

/-- C13, at a stopped element (stored) and at `default_tinyyolov3`, which is
playing (left as it was). -/
theorem tinyyolov3_num_classes_only_in_null_witness :
    (gst_tinyyolov3_set_property { default_tinyyolov3 with state := GstState.NULL }
        PROP_NUM_CLASSES (.g_uint 20)).element =
      { default_tinyyolov3 with state := GstState.NULL, num_classes := 20 } ∧
    (gst_tinyyolov3_set_property default_tinyyolov3 PROP_NUM_CLASSES (.g_uint 20)).element =
      default_tinyyolov3 :=
  ⟨(tinyyolov3_num_classes_only_in_null { default_tinyyolov3 with state := GstState.NULL }
      20).1 rfl,
   (tinyyolov3_num_classes_only_in_null default_tinyyolov3 20).2 (by decide)⟩

/-! ## Backend: queued properties and start -/

theorem applied_properties_append (a b : List BackendEvent) :
    applied_properties (a ++ b) = applied_properties a ++ applied_properties b := by
  induction a with
  | nil => rfl
  | cons e rest ih =>
    cases e <;> simp [applied_properties, ih]

/-- One invocation of `apply_inference_property` extends the events, and among
the new events exactly this property is recorded as applied; the engine is not
started by it. -/
theorem apply_inference_property_events (r2i : R2I) (property : InferenceProperty)
    (events : List BackendEvent) (error : RuntimeError) :
    ∃ more, (apply_inference_property r2i property events error).1 = events ++ more ∧
      applied_properties more = [property] ∧ BackendEvent.engine_start ∉ more := by
  unfold apply_inference_property
  cases h : property.apspec.value_type
  · exact ⟨[BackendEvent.apply_inference_property property,
      BackendEvent.params_set property.apspec.name
        (ParamValue.of_string (g_value_get_string property.avalue))],
      by simp, by simp [applied_properties], by simp⟩
  · exact ⟨[BackendEvent.apply_inference_property property,
      BackendEvent.params_set property.apspec.name
        (ParamValue.of_int (g_value_get_int property.avalue))],
      by simp, by simp [applied_properties], by simp⟩
  · exact ⟨[BackendEvent.apply_inference_property property,
      BackendEvent.params_set property.apspec.name
        (ParamValue.of_double (g_value_get_double property.avalue))],
      by simp, by simp [applied_properties], by simp⟩
  · exact ⟨[BackendEvent.apply_inference_property property],
      by simp, by simp [applied_properties], by simp⟩

/-- The loop before the start of the engine: what it applies and what it
leaves pending. -/
theorem start_apply_before_spec (r2i : R2I) (params : List ParameterMeta) :
    ∀ (pending : List InferenceProperty) (events : List BackendEvent) (error : RuntimeError),
      ∃ more, (start_apply_before r2i params pending events error).events = events ++ more ∧
        BackendEvent.engine_start ∉ more ∧
        (applied_properties more ++
          (start_apply_before r2i params pending events error).property_list).Perm pending ∧
        (start_apply_before r2i params pending events error).property_list.Sublist pending ∧
        ((start_apply_before r2i params pending events error).failed = false →
          applied_properties more =
            pending.filter (fun p => is_write_before_start params p.get_name) ∧
          (start_apply_before r2i params pending events error).property_list =
            pending.filter (fun p => !is_write_before_start params p.get_name)) := by
  intro pending
  induction pending with
  | nil =>
    intro events error
    exact ⟨[], by simp [start_apply_before], by simp,
      by simp [start_apply_before, applied_properties],
      by simp [start_apply_before], fun _ => by simp [start_apply_before, applied_properties]⟩
  | cons property rest ih =>
    intro events error
    obtain ⟨one, hone, happ, hns⟩ := apply_inference_property_events r2i property events error
    by_cases hw : is_write_before_start params property.get_name = true
    · by_cases he : (apply_inference_property r2i property events error).2.IsError = true
      · refine ⟨one, ?_, hns, ?_, ?_, ?_⟩
        · simp [start_apply_before, hw, he, hone]
        · simp [start_apply_before, hw, he, happ]
        · simp [start_apply_before, hw, he]
        · intro hf
          simp [start_apply_before, hw, he] at hf
      · obtain ⟨more, hmore, hnot, hperm, hsub, hok⟩ :=
          ih (apply_inference_property r2i property events error).1
            (apply_inference_property r2i property events error).2
        have hstep : start_apply_before r2i params (property :: rest) events error =
            start_apply_before r2i params rest
              (apply_inference_property r2i property events error).1
              (apply_inference_property r2i property events error).2 := by
          simp [start_apply_before, hw, he]
        rw [hstep]
        refine ⟨one ++ more, ?_, ?_, ?_, ?_, ?_⟩
        · rw [hmore, hone, List.append_assoc]
        · simp [hns, hnot]
        · rw [applied_properties_append, happ]
          simpa using hperm
        · exact hsub.trans (List.sublist_cons_self _ _)
        · intro hf
          obtain ⟨h1, h2⟩ := hok hf
          constructor
          · rw [applied_properties_append, happ, h1]
            simp [List.filter_cons, hw]
          · rw [h2]
            simp [List.filter_cons, hw]
    · obtain ⟨more, hmore, hnot, hperm, hsub, hok⟩ := ih events error
      have hstep : start_apply_before r2i params (property :: rest) events error =
          { start_apply_before r2i params rest events error with
            property_list := property ::
              (start_apply_before r2i params rest events error).property_list } := by
        simp [start_apply_before, hw]
      rw [hstep]
      refine ⟨more, hmore, hnot, ?_, ?_, ?_⟩
      · exact (List.perm_middle).trans (List.Perm.cons _ hperm)
      · exact hsub.cons₂ _
      · intro hf
        obtain ⟨h1, h2⟩ := hok hf
        constructor
        · rw [h1]
          simp [List.filter_cons, hw]
        · simp only [h2]
          simp [List.filter_cons, hw]

/-- The loop after the start of the engine: it applies the pending properties
from the front, in order, and leaves the rest. -/
theorem start_apply_rest_spec (r2i : R2I) :
    ∀ (pending : List InferenceProperty) (events : List BackendEvent) (error : RuntimeError),
      ∃ more, (start_apply_rest r2i pending events error).events = events ++ more ∧
        BackendEvent.engine_start ∉ more ∧
        applied_properties more ++ (start_apply_rest r2i pending events error).property_list
          = pending ∧
        ((start_apply_rest r2i pending events error).failed = false →
          (start_apply_rest r2i pending events error).property_list = []) := by
  intro pending
  induction pending with
  | nil =>
    intro events error
    exact ⟨[], by simp [start_apply_rest], by simp,
      by simp [start_apply_rest, applied_properties], fun _ => by simp [start_apply_rest]⟩
  | cons property rest ih =>
    intro events error
    obtain ⟨one, hone, happ, hns⟩ := apply_inference_property_events r2i property events error
    by_cases he : (apply_inference_property r2i property events error).2.IsError = true
    · refine ⟨one, ?_, hns, ?_, ?_⟩
      · simp [start_apply_rest, he, hone]
      · simp [start_apply_rest, he, happ]
      · intro hf
        simp [start_apply_rest, he] at hf
    · obtain ⟨more, hmore, hnot, hsplit, hok⟩ :=
        ih (apply_inference_property r2i property events error).1
          (apply_inference_property r2i property events error).2
      have hstep : start_apply_rest r2i (property :: rest) events error =
          start_apply_rest r2i rest
            (apply_inference_property r2i property events error).1
            (apply_inference_property r2i property events error).2 := by
        simp [start_apply_rest, he]
      rw [hstep]
      refine ⟨one ++ more, ?_, ?_, ?_, hok⟩
      · rw [hmore, hone, List.append_assoc]
      · simp [hns, hnot]
      · rw [applied_properties_append, happ]
        simpa using hsplit

/-- The account of a call of `gst_base_backend_start` that passes its guards:
the events grow, every property that was pending is either applied once or
still pending, success empties the list and sets `backend_started`, failure
leaves `backend_started` as it was and sets the error. -/
theorem backend_start_account (r2i : R2I) (params : List ParameterMeta)
    (priv : GstBaseBackendPrivate) (location : String) (u : Unit) :
    ∃ more,
      (gst_base_backend_start r2i params priv (some location) (some u)).priv.events
        = priv.events ++ more ∧
      (applied_properties more ++
        (gst_base_backend_start r2i params priv (some location) (some u)).priv.property_list).Perm
          priv.property_list ∧
      (gst_base_backend_start r2i params priv (some location) (some u)).priv.property_list.Sublist
        priv.property_list ∧
      ((gst_base_backend_start r2i params priv (some location) (some u)).ret = true →
        (gst_base_backend_start r2i params priv (some location) (some u)).priv.property_list = [] ∧
        (gst_base_backend_start r2i params priv (some location) (some u)).priv.backend_started
          = true) ∧
      ((gst_base_backend_start r2i params priv (some location) (some u)).ret = false →
        (gst_base_backend_start r2i params priv (some location) (some u)).priv.backend_started
          = priv.backend_started ∧
        (gst_base_backend_start r2i params priv (some location) (some u)).err ≠ none) := by
  generalize hc : (if priv.backend_created then (RuntimeError.clean, params)
    else backend_create r2i location params) = created
  by_cases h1 : created.1.IsError = true
  · have hres : gst_base_backend_start r2i params priv (some location) (some u) =
        { ret := false, priv := priv, params := created.2,
          err := some (gerror_of created.1) } := by
      simp [gst_base_backend_start, hc, h1]
    rw [hres]
    exact ⟨[], by simp, by simp [applied_properties], List.Sublist.refl _, by simp, by simp⟩
  obtain ⟨m1, hm1, -, hperm1, hsub1, -⟩ :=
    start_apply_before_spec r2i created.2 priv.property_list priv.events created.1
  generalize hb : start_apply_before r2i created.2 priv.property_list priv.events created.1
    = before at hm1 hperm1 hsub1
  by_cases h2 : before.failed = true
  · have hres : gst_base_backend_start r2i params priv (some location) (some u) =
        { ret := false
          priv := { priv with backend_created := true, property_list := before.property_list,
                              events := before.events }
          params := created.2, err := some (gerror_of before.error) } := by
      simp [gst_base_backend_start, hc, h1, hb, h2]
    rw [hres]
    exact ⟨m1, hm1, hperm1, hsub1, by simp, by simp⟩
  by_cases h3 : (r2i.Start before.events).IsError = true
  · have hres : gst_base_backend_start r2i params priv (some location) (some u) =
        { ret := false
          priv := { priv with backend_created := true, property_list := before.property_list,
                              events := before.events ++ [BackendEvent.engine_start] }
          params := created.2, err := some (gerror_of (r2i.Start before.events)) } := by
      simp [gst_base_backend_start, hc, h1, hb, h2, h3]
    rw [hres]
    refine ⟨m1 ++ [BackendEvent.engine_start], ?_, ?_, hsub1, by simp, by simp⟩
    · simp [hm1]
    · simpa [applied_properties_append, applied_properties] using hperm1
  obtain ⟨m2, hm2, -, hsplit2, hempty2⟩ :=
    start_apply_rest_spec r2i before.property_list
      (before.events ++ [BackendEvent.engine_start]) (r2i.Start before.events)
  generalize hr : start_apply_rest r2i before.property_list
    (before.events ++ [BackendEvent.engine_start]) (r2i.Start before.events)
    = rest at hm2 hsplit2 hempty2
  have hev : rest.events = priv.events ++ (m1 ++ [BackendEvent.engine_start] ++ m2) := by
    rw [hm2, hm1]
    simp
  have hperm : (applied_properties (m1 ++ [BackendEvent.engine_start] ++ m2) ++
      rest.property_list).Perm priv.property_list := by
    rw [applied_properties_append, applied_properties_append, List.append_assoc]
    simp only [applied_properties, List.append_nil]
    rw [hsplit2]
    exact hperm1
  have hsub : rest.property_list.Sublist priv.property_list := by
    have : rest.property_list.Sublist before.property_list := by
      rw [← hsplit2]
      exact List.sublist_append_right _ _
    exact this.trans hsub1
  by_cases h4 : rest.failed = true
  · have hres : gst_base_backend_start r2i params priv (some location) (some u) =
        { ret := false
          priv := { priv with backend_created := true, property_list := rest.property_list,
                              events := rest.events }
          params := created.2, err := some (gerror_of rest.error) } := by
      simp [gst_base_backend_start, hc, h1, hb, h2, h3, hr, h4]
    rw [hres]
    exact ⟨_, hev, hperm, hsub, by simp, by simp⟩
  · have hnil : rest.property_list = [] := hempty2 (by simpa using h4)
    have hres : gst_base_backend_start r2i params priv (some location) (some u) =
        { ret := true
          priv := { backend_started := true, backend_created := true,
                    property_list := rest.property_list, events := rest.events }
          params := created.2, err := none } := by
      simp [gst_base_backend_start, hc, h1, hb, h2, h3, hr, h4]
    rw [hres]
    exact ⟨_, hev, hperm, hsub, by simp [hnil], by simp⟩

/-- C14 (as stated, refuted): on a started backend a value whose spec is of
another type than string, int or double is not set on the engine parameters:
the call leaves the backend, its events included, exactly as it was. -/
theorem backend_set_property_other_type_counterexample :
    started_backend.backend_started = true ∧
    gst_base_backend_set_property started_backend GValue.g_array
        { name := "shape", value_type := GType.G_TYPE_OTHER } = started_backend :=
  ⟨rfl, rfl⟩

/-- C14 (amended): while the backend is not started, `gst_base_backend_set_property`
appends the pair of value and spec at the end of the pending list and does
nothing else; once the backend is started it leaves the pending list as it was
and calls `params->Set` with the name and the value when the spec is of type
string, int or double, and does nothing for a spec of another type. -/
theorem backend_set_property_queues_or_sets (priv : GstBaseBackendPrivate) (value : GValue)
    (pspec : GParamSpec) :
    (priv.backend_started = false →
      gst_base_backend_set_property priv value pspec =
        { priv with property_list :=
            priv.property_list ++ [{ avalue := value, apspec := pspec }] }) ∧
    (priv.backend_started = true →
      (gst_base_backend_set_property priv value pspec).property_list = priv.property_list ∧
      (gst_base_backend_set_property priv value pspec).backend_started = true ∧
      (gst_base_backend_set_property priv value pspec).backend_created = priv.backend_created ∧
      (pspec.value_type = GType.G_TYPE_STRING →
        (gst_base_backend_set_property priv value pspec).events = priv.events ++
          [BackendEvent.params_set pspec.name
            (ParamValue.of_string (g_value_get_string value))]) ∧
      (pspec.value_type = GType.G_TYPE_INT →
        (gst_base_backend_set_property priv value pspec).events = priv.events ++
          [BackendEvent.params_set pspec.name (ParamValue.of_int (g_value_get_int value))]) ∧
      (pspec.value_type = GType.G_TYPE_DOUBLE →
        (gst_base_backend_set_property priv value pspec).events = priv.events ++
          [BackendEvent.params_set pspec.name
            (ParamValue.of_double (g_value_get_double value))]) ∧
      (pspec.value_type = GType.G_TYPE_OTHER →
        (gst_base_backend_set_property priv value pspec).events = priv.events)) := by
  constructor
  · intro h
    simp [gst_base_backend_set_property, h]
  · intro h
    cases ht : pspec.value_type <;> simp [gst_base_backend_set_property, h, ht]

/-- C14 (amended), at a backend that is not started and at one that is. -/
theorem backend_set_property_queues_or_sets_witness :
    gst_base_backend_set_property fresh_backend (GValue.g_int 2)
        { name := "threads", value_type := GType.G_TYPE_INT } =
      { fresh_backend with property_list := fresh_backend.property_list ++
          [{ avalue := GValue.g_int 2
             apspec := { name := "threads", value_type := GType.G_TYPE_INT } }] } ∧
    (gst_base_backend_set_property started_backend (GValue.g_int 2)
        { name := "threads", value_type := GType.G_TYPE_INT }).events =
      started_backend.events ++
        [BackendEvent.params_set "threads" (ParamValue.of_int (g_value_get_int (GValue.g_int 2)))] :=
  ⟨(backend_set_property_queues_or_sets fresh_backend (GValue.g_int 2)
      { name := "threads", value_type := GType.G_TYPE_INT }).1 rfl,
   ((backend_set_property_queues_or_sets started_backend (GValue.g_int 2)
      { name := "threads", value_type := GType.G_TYPE_INT }).2 rfl).2.2.2.2.1 rfl⟩

/-- C15: whenever `gst_base_backend_start` returns `TRUE`, the pending list is
empty, `backend_started` is `TRUE`, and the invocations of
`apply_inference_property` made by the call are, up to their order, exactly the
properties that were pending when it began, each entry once. -/
theorem backend_start_true_applies_all (r2i : R2I) (params : List ParameterMeta)
    (priv : GstBaseBackendPrivate) (model_location : Option String) (err : Option Unit)
    (hret : (gst_base_backend_start r2i params priv model_location err).ret = true) :
    (gst_base_backend_start r2i params priv model_location err).priv.property_list = [] ∧
    (gst_base_backend_start r2i params priv model_location err).priv.backend_started = true ∧
    ∃ more,
      (gst_base_backend_start r2i params priv model_location err).priv.events
        = priv.events ++ more ∧
      (applied_properties more).Perm priv.property_list := by
  rcases model_location with _ | location
  · simp [gst_base_backend_start] at hret
  rcases err with _ | u
  · simp [gst_base_backend_start] at hret
  obtain ⟨more, hev, hperm, -, htrue, -⟩ := backend_start_account r2i params priv location u
  obtain ⟨hnil, hstarted⟩ := htrue hret
  refine ⟨hnil, hstarted, more, hev, ?_⟩
  rw [hnil, List.append_nil] at hperm
  exact hperm

/-- C15, at a backend with two queued properties on a library that works. -/
theorem backend_start_true_applies_all_witness :
    (gst_base_backend_start working_r2i [] fresh_backend (some "model.pb")
      (some ())).priv.property_list = [] ∧
    (gst_base_backend_start working_r2i [] fresh_backend (some "model.pb")
      (some ())).priv.backend_started = true ∧
    ∃ more,
      (gst_base_backend_start working_r2i [] fresh_backend (some "model.pb")
        (some ())).priv.events = fresh_backend.events ++ more ∧
      (applied_properties more).Perm fresh_backend.property_list :=
  backend_start_true_applies_all working_r2i [] fresh_backend (some "model.pb") (some ())
    (by decide)

/-- C16 (as stated, refuted): with the property `device` applied before the
start and an engine that then refuses to start, `gst_base_backend_start` returns
`FALSE` and the pending list has lost the applied property. -/
theorem backend_start_not_atomic_counterexample :
    fresh_backend.property_list = [threads_property, device_property] ∧
    (gst_base_backend_start refusing_r2i [] fresh_backend (some "model.pb") (some ())).ret
      = false ∧
    (gst_base_backend_start refusing_r2i [] fresh_backend (some "model.pb")
      (some ())).priv.property_list = [threads_property] ∧
    applied_properties (gst_base_backend_start refusing_r2i [] fresh_backend (some "model.pb")
      (some ())).priv.events = [device_property] := by
  decide

/-- C16 (amended): whenever `gst_base_backend_start` returns `FALSE`,
`backend_started` is what it was before the call, and the pending list is the
list before the call without the properties that the call applied: what is left
keeps its order, and every property that was pending is either still pending or
was applied once by the call. -/
theorem backend_start_false_keeps_unapplied (r2i : R2I) (params : List ParameterMeta)
    (priv : GstBaseBackendPrivate) (model_location : Option String) (err : Option Unit)
    (hret : (gst_base_backend_start r2i params priv model_location err).ret = false) :
    (gst_base_backend_start r2i params priv model_location err).priv.backend_started
      = priv.backend_started ∧
    (gst_base_backend_start r2i params priv model_location err).priv.property_list.Sublist
      priv.property_list ∧
    ∃ more,
      (gst_base_backend_start r2i params priv model_location err).priv.events
        = priv.events ++ more ∧
      (applied_properties more ++
        (gst_base_backend_start r2i params priv model_location err).priv.property_list).Perm
          priv.property_list := by
  rcases model_location with _ | location
  · exact ⟨rfl, List.Sublist.refl _, [], by simp [gst_base_backend_start],
      by simp [gst_base_backend_start, applied_properties]⟩
  rcases err with _ | u
  · exact ⟨rfl, List.Sublist.refl _, [], by simp [gst_base_backend_start],
      by simp [gst_base_backend_start, applied_properties]⟩
  obtain ⟨more, hev, hperm, hsub, -, hfalse⟩ := backend_start_account r2i params priv location u
  exact ⟨(hfalse hret).1, hsub, more, hev, hperm⟩

/-- C16 (amended), at the call of the counterexample. -/
theorem backend_start_false_keeps_unapplied_witness :
    (gst_base_backend_start refusing_r2i [] fresh_backend (some "model.pb")
      (some ())).priv.backend_started = fresh_backend.backend_started ∧
    (gst_base_backend_start refusing_r2i [] fresh_backend (some "model.pb")
      (some ())).priv.property_list.Sublist fresh_backend.property_list ∧
    ∃ more,
      (gst_base_backend_start refusing_r2i [] fresh_backend (some "model.pb")
        (some ())).priv.events = fresh_backend.events ++ more ∧
      (applied_properties more ++
        (gst_base_backend_start refusing_r2i [] fresh_backend (some "model.pb")
          (some ())).priv.property_list).Perm fresh_backend.property_list :=
  backend_start_false_keeps_unapplied refusing_r2i [] fresh_backend (some "model.pb") (some ())
    (by decide)

/-! ## Backend: processing a frame -/

theorem runtime_error_code_of_clean (error : RuntimeError) (h : error.IsError = false) :
    error.code = ErrorCode.EOK := by
  simpa [RuntimeError.IsError] using h

/-- The copy loop gathers the outputs in order behind what it started with. -/
theorem concatenate_outputs_all :
    ∀ (outs : List IPrediction) (data : List Nat) (size : Nat),
      concatenate_outputs (outs.map some) data size =
        some (data ++ (outs.map fun p => p.result_data).flatten,
          size + (outs.map fun p => p.GetResultSize).sum) := by
  intro outs
  induction outs with
  | nil =>
    intro data size
    simp [concatenate_outputs]
  | cons p rest ih =>
    intro data size
    simp [concatenate_outputs, ih, List.append_assoc, Nat.add_assoc]

/-- A frame whose creation and configuration succeed and whose prediction step
ends without error with the outputs `outs`, at least one: the result in full. -/
theorem backend_process_frame_outputs (r2i : R2I) (frame : GstVideoFrame) (u1 u2 u3 : Unit)
    (error : RuntimeError) (outs : List IPrediction)
    (hmake : r2i.MakeFrame.IsError = false)
    (hconf : (r2i.FrameConfigure frame.data frame.width frame.height
      (gst_base_backend_cast_format frame.format)).IsError = false)
    (hpred : backend_predict r2i frame = (error, outs.map some))
    (herr : error.IsError = false) (hk : 1 ≤ outs.length) :
    gst_base_backend_process_frame r2i (some frame) (some u1) (some u2) (some u3) =
      some { ret := true
             prediction_data := some (outs.map fun p => p.result_data).flatten
             prediction_size := some (outs.map fun p => p.GetResultSize).sum
             err := none } := by
  have hne : ¬ outs = [] := by
    intro h
    rw [h] at hk
    simp at hk
  simp [gst_base_backend_process_frame, hmake, hconf, hpred, herr, hne,
    concatenate_outputs_all]

/-- C17: for every frame for which the engine returns `k >= 1` outputs without
error (frame creation and configuration having succeeded),
`gst_base_backend_process_frame` returns `TRUE`, stores in `*prediction_size` the
sum of the `k` result sizes and in `*prediction_data` the `k` result byte
sequences concatenated in output order. -/
theorem backend_process_frame_concatenates (r2i : R2I) (frame : GstVideoFrame)
    (u1 u2 u3 : Unit) (error : RuntimeError) (outs : List IPrediction)
    (hmake : r2i.MakeFrame.IsError = false)
    (hconf : (r2i.FrameConfigure frame.data frame.width frame.height
      (gst_base_backend_cast_format frame.format)).IsError = false)
    (hpred : r2i.Predict frame = (error, outs.map some))
    (herr : error.IsError = false) (hk : 1 ≤ outs.length) :
    gst_base_backend_process_frame r2i (some frame) (some u1) (some u2) (some u3) =
      some { ret := true
             prediction_data := some (outs.map fun p => p.result_data).flatten
             prediction_size := some (outs.map fun p => p.GetResultSize).sum
             err := none } := by
  have hcode := runtime_error_code_of_clean error herr
  have hbp : backend_predict r2i frame = (error, outs.map some) := by
    simp [backend_predict, hpred, hcode]
  exact backend_process_frame_outputs r2i frame u1 u2 u3 error outs hmake hconf hbp herr hk

/-- C17, at a frame for which the engine gives the outputs `[1, 2]` and `[3]`. -/
theorem backend_process_frame_concatenates_witness :
    gst_base_backend_process_frame working_r2i (some small_frame) (some ()) (some ())
        (some ()) =
      some { ret := true
             prediction_data := some
               (([{ result_data := [1, 2] }, { result_data := [3] }] : List IPrediction).map
                 fun p => p.result_data).flatten
             prediction_size := some
               (([{ result_data := [1, 2] }, { result_data := [3] }] : List IPrediction).map
                 fun p => p.GetResultSize).sum
             err := none } :=
  backend_process_frame_concatenates working_r2i small_frame () () () RuntimeError.clean
    [{ result_data := [1, 2] }, { result_data := [3] }] rfl rfl rfl rfl (by decide)

/-- C18 (as stated, refuted): the multi-output `Predict` reports the error
`NOT_IMPLEMENTED`, the single-output `Predict` then succeeds, and
`gst_base_backend_process_frame` returns `TRUE` and writes the prediction. -/
theorem backend_process_frame_fallback_counterexample :
    (single_output_r2i.Predict small_frame).1.IsError = true ∧
    gst_base_backend_process_frame single_output_r2i (some small_frame) (some ()) (some ())
        (some ()) =
      some { ret := true, prediction_data := some [7], prediction_size := some 1
             err := none } := by
  decide

/-- C18 (amended): when frame creation reports an error, or frame configuration
does, or the prediction step ends with an error, or the engine returns zero
outputs without error, `gst_base_backend_process_frame` returns `FALSE` with the
`GError` set from the error (code `WRONG_ENGINE_STATE` in the zero-output case)
and writes neither `*prediction_data` nor `*prediction_size`. The prediction
step ends with the error of the multi-output `Predict`, unless that is
`NOT_IMPLEMENTED`, when it ends with the error of the single-output `Predict`. -/
theorem backend_process_frame_errors (r2i : R2I) (frame : GstVideoFrame) (u1 u2 u3 : Unit) :
    (r2i.MakeFrame.IsError = true →
      gst_base_backend_process_frame r2i (some frame) (some u1) (some u2) (some u3) =
        some { ret := false, prediction_data := none, prediction_size := none
               err := some (gerror_of r2i.MakeFrame) }) ∧
    (r2i.MakeFrame.IsError = false →
      (r2i.FrameConfigure frame.data frame.width frame.height
        (gst_base_backend_cast_format frame.format)).IsError = true →
      gst_base_backend_process_frame r2i (some frame) (some u1) (some u2) (some u3) =
        some { ret := false, prediction_data := none, prediction_size := none
               err := some (gerror_of (r2i.FrameConfigure frame.data frame.width frame.height
                 (gst_base_backend_cast_format frame.format))) }) ∧
    (r2i.MakeFrame.IsError = false →
      (r2i.FrameConfigure frame.data frame.width frame.height
        (gst_base_backend_cast_format frame.format)).IsError = false →
      (backend_predict r2i frame).1.IsError = true →
      gst_base_backend_process_frame r2i (some frame) (some u1) (some u2) (some u3) =
        some { ret := false, prediction_data := none, prediction_size := none
               err := some (gerror_of (backend_predict r2i frame).1) }) ∧
    (r2i.MakeFrame.IsError = false →
      (r2i.FrameConfigure frame.data frame.width frame.height
        (gst_base_backend_cast_format frame.format)).IsError = false →
      (r2i.Predict frame).1.IsError = false → (r2i.Predict frame).2 = [] →
      gst_base_backend_process_frame r2i (some frame) (some u1) (some u2) (some u3) =
        some { ret := false, prediction_data := none, prediction_size := none
               err := some { code := ErrorCode.WRONG_ENGINE_STATE
                             message := "Engine got 0 predictions" } }) ∧
    ((r2i.Predict frame).1.code ≠ ErrorCode.NOT_IMPLEMENTED →
      (backend_predict r2i frame).1 = (r2i.Predict frame).1) ∧
    ((r2i.Predict frame).1.code = ErrorCode.NOT_IMPLEMENTED →
      (backend_predict r2i frame).1 = (r2i.PredictSingle frame).1) := by
  refine ⟨?_, ?_, ?_, ?_, ?_, ?_⟩
  · intro h
    simp [gst_base_backend_process_frame, h]
  · intro h1 h2
    simp [gst_base_backend_process_frame, h1, h2]
  · intro h1 h2 h3
    simp [gst_base_backend_process_frame, h1, h2, h3]
  · intro h1 h2 h3 h4
    have hcode := runtime_error_code_of_clean _ h3
    have hbp : backend_predict r2i frame = r2i.Predict frame := by
      simp [backend_predict, hcode]
    simp [gst_base_backend_process_frame, h1, h2, hbp, h3, h4]
  · intro h
    simp [backend_predict, h]
  · intro h
    simp [backend_predict, h]

/-- C18 (amended), at an engine that gives no output: the zero-output case. -/
theorem backend_process_frame_errors_witness :
    gst_base_backend_process_frame silent_r2i (some small_frame) (some ()) (some ())
        (some ()) =
      some { ret := false, prediction_data := none, prediction_size := none
             err := some { code := ErrorCode.WRONG_ENGINE_STATE
                           message := "Engine got 0 predictions" } } :=
  (backend_process_frame_errors silent_r2i small_frame () () ()).2.2.2.1 rfl rfl rfl rfl

/-! ## Overlay base class -/

/-- C19: for a subclass with a non-NULL `process_meta`,
`gst_inference_base_overlay_transform_frame_ip` calls `process_meta` exactly when
`enable` is `TRUE` and the buffer carries a meta of the class's `meta_type`;
without a call the result is `GST_FLOW_OK`; with a call, there is one call, made
on that meta with the configured font scale, thickness, labels list, number of
labels, style and alpha, and the result is what `process_meta` returned. -/
theorem overlay_transform_calls_process_meta (io_class : GstInferenceBaseOverlayClass)
    (priv : GstInferenceBaseOverlayPrivate) (frame : GstVideoFrame)
    (process_meta : ProcessMetaCall → GstFlowReturn)
    (hclass : io_class.process_meta = some process_meta) :
    ((gst_inference_base_overlay_transform_frame_ip io_class priv frame).calls ≠ [] ↔
      priv.enable = true ∧ gst_buffer_get_meta frame.buffer io_class.meta_type ≠ none) ∧
    ((gst_inference_base_overlay_transform_frame_ip io_class priv frame).calls = [] →
      (gst_inference_base_overlay_transform_frame_ip io_class priv frame).ret
        = GstFlowReturn.GST_FLOW_OK) ∧
    (∀ found, priv.enable = true →
      gst_buffer_get_meta frame.buffer io_class.meta_type = some found →
      ∃ call, (gst_inference_base_overlay_transform_frame_ip io_class priv frame).calls = [call] ∧
        (gst_inference_base_overlay_transform_frame_ip io_class priv frame).ret
          = process_meta call ∧
        call.inference_meta = found ∧ call.frame = frame ∧
        call.font_scale = priv.font_scale ∧ call.thickness = priv.thickness ∧
        call.labels_list = priv.labels_list ∧ call.num_labels = priv.num_labels ∧
        call.style = priv.style ∧ call.alpha_overlay = priv.alpha_overlay) := by
  refine ⟨?_, ?_, ?_⟩
  · cases he : priv.enable <;>
      cases hm : gst_buffer_get_meta frame.buffer io_class.meta_type <;>
      simp [gst_inference_base_overlay_transform_frame_ip, hclass, he, hm]
  · cases he : priv.enable <;>
      cases hm : gst_buffer_get_meta frame.buffer io_class.meta_type <;>
      simp [gst_inference_base_overlay_transform_frame_ip, hclass, he, hm]
  · intro found he hm
    simp [gst_inference_base_overlay_transform_frame_ip, hclass, he, hm]

/-- C19, at an enabled overlay and a frame that carries the meta. -/
theorem overlay_transform_calls_process_meta_witness :
    ((gst_inference_base_overlay_transform_frame_ip echo_class default_overlay
        annotated_frame).calls ≠ [] ↔
      default_overlay.enable = true ∧
        gst_buffer_get_meta annotated_frame.buffer echo_class.meta_type ≠ none) ∧
    ((gst_inference_base_overlay_transform_frame_ip echo_class default_overlay
        annotated_frame).calls = [] →
      (gst_inference_base_overlay_transform_frame_ip echo_class default_overlay
        annotated_frame).ret = GstFlowReturn.GST_FLOW_OK) ∧
    (∀ found, default_overlay.enable = true →
      gst_buffer_get_meta annotated_frame.buffer echo_class.meta_type = some found →
      ∃ call, (gst_inference_base_overlay_transform_frame_ip echo_class default_overlay
          annotated_frame).calls = [call] ∧
        (gst_inference_base_overlay_transform_frame_ip echo_class default_overlay
          annotated_frame).ret
          = (fun call : ProcessMetaCall => GstFlowReturn.GST_FLOW_OTHER call.thickness) call ∧
        call.inference_meta = found ∧ call.frame = annotated_frame ∧
        call.font_scale = default_overlay.font_scale ∧
        call.thickness = default_overlay.thickness ∧
        call.labels_list = default_overlay.labels_list ∧
        call.num_labels = default_overlay.num_labels ∧
        call.style = default_overlay.style ∧
        call.alpha_overlay = default_overlay.alpha_overlay) :=
  overlay_transform_calls_process_meta echo_class default_overlay annotated_frame
    (fun call => GstFlowReturn.GST_FLOW_OTHER call.thickness) rfl

theorem split_fields_ne_nil (delimiter : Char) (chars : List Char) :
    split_fields delimiter chars ≠ [] := by
  cases chars with
  | nil => simp [split_fields]
  | cons c rest =>
    by_cases h : c = delimiter
    · simp [split_fields, h]
    · simp only [split_fields, h, if_false]
      split <;> simp

theorem split_fields_length (delimiter : Char) :
    ∀ chars : List Char,
      (split_fields delimiter chars).length = chars.count delimiter + 1 := by
  intro chars
  induction chars with
  | nil => simp [split_fields]
  | cons c rest ih =>
    by_cases h : c = delimiter
    · simp [split_fields, h, ih]
    · have hc : (c :: rest).count delimiter = rest.count delimiter := by
        rw [List.count_cons]
        simp [h]
      rw [hc, ← ih]
      simp only [split_fields, h, if_false]
      cases hs : split_fields delimiter rest with
      | nil => exact absurd hs (split_fields_ne_nil delimiter rest)
      | cons field fields => simp

theorem split_fields_no_delimiter (delimiter : Char) :
    ∀ chars : List Char, ∀ field ∈ split_fields delimiter chars, delimiter ∉ field := by
  intro chars
  induction chars with
  | nil => simp [split_fields]
  | cons c rest ih =>
    intro field hfield
    by_cases h : c = delimiter
    · simp only [split_fields, h, if_true, List.mem_cons] at hfield
      rcases hfield with rfl | hfield
      · simp
      · exact ih field hfield
    · simp only [split_fields, h, if_false] at hfield
      cases hs : split_fields delimiter rest with
      | nil => exact absurd hs (split_fields_ne_nil delimiter rest)
      | cons first fields =>
        rw [hs] at hfield ih
        simp only [List.mem_cons] at hfield
        rcases hfield with rfl | hfield
        · intro hmem
          rcases List.mem_cons.mp hmem with hd | hd
          · exact h hd.symm
          · exact ih first (List.mem_cons_self _ _) hd
        · exact ih field (List.mem_cons_of_mem _ hfield)

theorem join_split_fields (delimiter : Char) :
    ∀ chars : List Char, join_fields delimiter (split_fields delimiter chars) = chars := by
  intro chars
  induction chars with
  | nil => simp [split_fields, join_fields]
  | cons c rest ih =>
    by_cases h : c = delimiter
    · cases hs : split_fields delimiter rest with
      | nil => exact absurd hs (split_fields_ne_nil delimiter rest)
      | cons first fields =>
        rw [hs] at ih
        simp only [split_fields, h, if_true, hs]
        simp only [join_fields, List.flatMap_cons, List.nil_append] at ih ⊢
        rw [List.cons_append, ih]
    · cases hs : split_fields delimiter rest with
      | nil => exact absurd hs (split_fields_ne_nil delimiter rest)
      | cons first fields =>
        rw [hs] at ih
        simp only [split_fields, h, if_false, hs]
        simp only [join_fields] at ih ⊢
        rw [List.cons_append, ih]

theorem intercalate_go_data (sep : String) :
    ∀ (strings : List String) (acc : String),
      (String.intercalate.go acc sep strings).data =
        acc.data ++ strings.flatMap fun next => sep.data ++ next.data := by
  intro strings
  induction strings with
  | nil =>
    intro acc
    simp [String.intercalate.go]
  | cons a rest ih =>
    intro acc
    simp [String.intercalate.go, ih, List.append_assoc]

/-- Joining strings with `;` is joining their characters with `;`. -/
theorem intercalate_semicolon_data (fields : List (List Char)) :
    (String.intercalate ";" (fields.map String.mk)).data = join_fields ';' fields := by
  cases fields with
  | nil => rfl
  | cons first rest =>
    simp only [List.map_cons, String.intercalate, intercalate_go_data, join_fields]
    congr 1
    induction rest with
    | nil => rfl
    | cons next more ih =>
      simp only [List.map_cons, List.flatMap_cons, ih]
      rfl

/-- C20: for every non-empty labels string `s`, setting the overlay property
`labels` stores `labels = s`, `labels_list` = the fields of `s` between its
semicolons in their order (no field holds a semicolon and joining the fields with
`;` gives back `s`) and `num_labels` = the length of that list, which is the
number of semicolons of `s` plus one. -/
theorem overlay_set_labels_splits (priv : GstInferenceBaseOverlayPrivate) (s : String)
    (hs : s ≠ "") :
    ∃ fields : List String,
      (gst_inference_base_overlay_set_property priv PROP_LABELS
        (GValue.g_string (some s))).labels = some s ∧
      (gst_inference_base_overlay_set_property priv PROP_LABELS
        (GValue.g_string (some s))).labels_list = some fields ∧
      (gst_inference_base_overlay_set_property priv PROP_LABELS
        (GValue.g_string (some s))).num_labels = (fields.length : Int) ∧
      fields.length = s.data.count ';' + 1 ∧
      (∀ field ∈ fields, ';' ∉ field.data) ∧
      String.intercalate ";" fields = s := by
  have hdata : ¬ s.data = [] := by
    intro h
    apply hs
    exact String.ext h
  refine ⟨(split_fields ';' s.data).map String.mk, ?_, ?_, ?_, ?_, ?_, ?_⟩
  · simp [gst_inference_base_overlay_set_property, PROP_LABELS, PROP_FONT_SCALE,
      PROP_THICKNESS, g_value_get_string]
  · simp [gst_inference_base_overlay_set_property, PROP_LABELS, PROP_FONT_SCALE,
      PROP_THICKNESS, g_value_get_string, g_strsplit_semicolon, hdata]
  · simp [gst_inference_base_overlay_set_property, PROP_LABELS, PROP_FONT_SCALE,
      PROP_THICKNESS, g_value_get_string, g_strsplit_semicolon, hdata, g_strv_length]
  · rw [List.length_map, split_fields_length]
  · intro field hfield
    obtain ⟨chars, hchars, rfl⟩ := List.mem_map.mp hfield
    exact split_fields_no_delimiter ';' s.data chars hchars
  · apply String.ext
    rw [intercalate_semicolon_data, join_split_fields]

/-- C20, at the labels string `cat;dog;bird`. -/
theorem overlay_set_labels_splits_witness :
    ∃ fields : List String,
      (gst_inference_base_overlay_set_property default_overlay PROP_LABELS
        (GValue.g_string (some "cat;dog;bird"))).labels = some "cat;dog;bird" ∧
      (gst_inference_base_overlay_set_property default_overlay PROP_LABELS
        (GValue.g_string (some "cat;dog;bird"))).labels_list = some fields ∧
      (gst_inference_base_overlay_set_property default_overlay PROP_LABELS
        (GValue.g_string (some "cat;dog;bird"))).num_labels = (fields.length : Int) ∧
      fields.length = ("cat;dog;bird" : String).data.count ';' + 1 ∧
      (∀ field ∈ fields, ';' ∉ field.data) ∧
      String.intercalate ";" fields = "cat;dog;bird" :=
  overlay_set_labels_splits default_overlay "cat;dog;bird" (by decide)

/-! ## Inference bin -/

theorem guint_gint_round_trip (f : Int) (hlo : -2147483648 ≤ f) (hhi : f ≤ 2147483647) :
    guint_to_gint (gint_to_guint f) = f := by
  unfold guint_to_gint gint_to_guint
  have h32 : (2 : Int) ^ 32 = 4294967296 := by norm_num
  have n32 : (2 : Nat) ^ 32 = 4294967296 := by norm_num
  have n31 : (2 : Nat) ^ 31 = 2147483648 := by norm_num
  rw [h32, n32, n31]
  split <;> omega

theorem string_foldl_append (strings : List String) :
    ∀ acc : String, strings.foldl (fun r s => r ++ s) acc = acc ++ String.join strings := by
  induction strings with
  | nil =>
    intro acc
    simp [String.join]
  | cons s rest ih =>
    intro acc
    have hjoin : String.join (s :: rest) = rest.foldl (fun r s => r ++ s) ("" ++ s) := rfl
    rw [List.foldl_cons, ih (acc ++ s), hjoin, ih ("" ++ s), String.empty_append,
      String.append_assoc]

theorem string_join_cons (s : String) (rest : List String) :
    String.join (s :: rest) = s ++ String.join rest := by
  rw [String.join, List.foldl_cons, string_foldl_append, String.empty_append]

/-- C21: for every filter value `f` of the declared range [-1, 2147483647],
setting the property `filter` of the bin to `f` and reading it back gives `f`,
and `gst_inference_bin_build_pipe` then starts with
`inferencefilter filter-class=` followed by `f` in signed decimal; a bin as
`gst_inference_bin_init` leaves it holds 4294967295 in its unsigned field and
starts its description with `filter-class=-1`. -/
theorem inference_bin_filter_signed (self : GstInferenceBin) (f : Int)
    (hlo : -1 ≤ f) (hhi : f ≤ 2147483647) :
    gst_inference_bin_get_property
        (gst_inference_bin_set_property self GstInferenceBin.PROP_FILTER (GValue.g_int f))
        GstInferenceBin.PROP_FILTER = some (GValue.g_int f) ∧
    (∃ rest, gst_inference_bin_build_pipe
        (some (gst_inference_bin_set_property self GstInferenceBin.PROP_FILTER (GValue.g_int f)))
      = some ("inferencefilter filter-class=" ++ toString f ++ " name=filter ! " ++ rest)) ∧
    gst_inference_bin_init.filter = 4294967295 ∧
    (∃ rest, gst_inference_bin_build_pipe (some gst_inference_bin_init)
      = some ("inferencefilter filter-class=" ++ "-1" ++ " name=filter ! " ++ rest)) := by
  have hround : guint_to_gint (gint_to_guint f) = f :=
    guint_gint_round_trip f (by omega) hhi
  have hset : (gst_inference_bin_set_property self GstInferenceBin.PROP_FILTER
      (GValue.g_int f)).filter = gint_to_guint f := by
    simp [gst_inference_bin_set_property, g_value_get_int, GstInferenceBin.PROP_FILTER,
      GstInferenceBin.PROP_ARCH, GstInferenceBin.PROP_BACKEND,
      GstInferenceBin.PROP_MODEL_LOCATION, GstInferenceBin.PROP_INPUT_LAYER,
      GstInferenceBin.PROP_OUTPUT_LAYER, GstInferenceBin.PROP_LABELS,
      GstInferenceBin.PROP_CROP, GstInferenceBin.PROP_OVERLAY]
  have hget : ∀ bin : GstInferenceBin,
      gst_inference_bin_get_property bin GstInferenceBin.PROP_FILTER =
        some (GValue.g_int (guint_to_gint bin.filter)) := by
    intro bin
    simp [gst_inference_bin_get_property, GstInferenceBin.PROP_FILTER,
      GstInferenceBin.PROP_ARCH, GstInferenceBin.PROP_BACKEND,
      GstInferenceBin.PROP_MODEL_LOCATION, GstInferenceBin.PROP_INPUT_LAYER,
      GstInferenceBin.PROP_OUTPUT_LAYER, GstInferenceBin.PROP_LABELS,
      GstInferenceBin.PROP_CROP, GstInferenceBin.PROP_OVERLAY]
  refine ⟨?_, ?_, by decide, ?_⟩
  · rw [hget, hset, hround]
  · simp only [gst_inference_bin_build_pipe, string_join_cons, format_d, hset, hround]
    exact ⟨_, rfl⟩
  · have hinit : format_d gst_inference_bin_init.filter = "-1" := by decide
    simp only [gst_inference_bin_build_pipe, string_join_cons, hinit]
    exact ⟨_, rfl⟩

/-- C21, at the filter value 3 set on a bin with its defaults. -/
theorem inference_bin_filter_signed_witness :
    gst_inference_bin_get_property
        (gst_inference_bin_set_property gst_inference_bin_init GstInferenceBin.PROP_FILTER
          (GValue.g_int 3))
        GstInferenceBin.PROP_FILTER = some (GValue.g_int 3) ∧
    (∃ rest, gst_inference_bin_build_pipe
        (some (gst_inference_bin_set_property gst_inference_bin_init
          GstInferenceBin.PROP_FILTER (GValue.g_int 3)))
      = some ("inferencefilter filter-class=" ++ toString (3 : Int) ++ " name=filter ! "
          ++ rest)) ∧
    gst_inference_bin_init.filter = 4294967295 ∧
    (∃ rest, gst_inference_bin_build_pipe (some gst_inference_bin_init)
      = some ("inferencefilter filter-class=" ++ "-1" ++ " name=filter ! " ++ rest)) :=
  inference_bin_filter_signed gst_inference_bin_init 3 (by decide) (by decide)

theorem bool_text_true (b : Bool) : bool_text b = "true" ↔ b = true := by
  cases b <;> simp [bool_text]

theorem optional_setting_empty (before : String) (value : Option String) (after : String)
    (hbefore : before ≠ "") : optional_setting before value after = "" ↔ value = none := by
  cases value with
  | none => simp [optional_setting]
  | some text =>
    simp only [optional_setting, reduceCtorEq, iff_false]
    intro h
    apply hbefore
    have hdata := congrArg String.data h
    simp only [String.data_append] at hdata
    have hnil : before.data = [] := by
      have h2 : before.data ++ (text.data ++ after.data) = [] := by
        simpa [List.append_assoc] using hdata
      exact (List.append_eq_nil.mp h2).1
    exact String.ext hnil

/-- C25 (as stated, refuted): a bin whose property `labels` is `NULL` and whose
converter description is `videoconvert labels=x` gets a description that holds
a `labels=` setting. -/
theorem inference_bin_build_pipe_labels_counterexample :
    ({ gst_inference_bin_init with converter := some "videoconvert labels=x" }
      : GstInferenceBin).labels = none ∧
    contains_text
      ((gst_inference_bin_build_pipe
        (some { gst_inference_bin_init with converter := some "videoconvert labels=x" })).getD "")
      "labels=" = true := by
  set_option maxRecDepth 100000 in decide

/-- C29: `gst_inference_bin_change_state` calls `gst_inference_bin_start` for the
transition `READY_TO_PAUSED` and for no other; when that start fails it returns
`GST_STATE_CHANGE_FAILURE` and does not call the parent's `change_state`; in
every other case it calls the parent and returns exactly the parent's result. -/
theorem inference_bin_change_state_spec (gst : GstParse)
    (parent_change_state : GstInferenceBin → GstStateChange → GstStateChangeReturn)
    (self : GstInferenceBin) (transition : GstStateChange) :
    ((gst_inference_bin_change_state gst parent_change_state self transition).start_called
        = true ↔ transition = GstStateChange.READY_TO_PAUSED) ∧
    (transition = GstStateChange.READY_TO_PAUSED →
      (gst_inference_bin_start gst (some self)).1 = false →
      (gst_inference_bin_change_state gst parent_change_state self transition).ret
        = GstStateChangeReturn.GST_STATE_CHANGE_FAILURE ∧
      (gst_inference_bin_change_state gst parent_change_state self transition).parent_called
        = false) ∧
    (¬ (transition = GstStateChange.READY_TO_PAUSED ∧
        (gst_inference_bin_start gst (some self)).1 = false) →
      (gst_inference_bin_change_state gst parent_change_state self transition).parent_called
        = true ∧
      (gst_inference_bin_change_state gst parent_change_state self transition).ret
        = parent_change_state
            (gst_inference_bin_change_state gst parent_change_state self transition).self
            transition) := by
  have hstop : ∀ bin : GstInferenceBin, gst_inference_bin_stop (some bin) = true := fun _ => rfl
  refine ⟨?_, ?_, ?_⟩
  · unfold gst_inference_bin_change_state
    simp only [hstop]
    split_ifs <;> simp_all
  · intro ht hfail
    unfold gst_inference_bin_change_state
    simp [ht, hfail]
  · intro hnot
    unfold gst_inference_bin_change_state
    simp only [hstop]
    split_ifs <;> simp_all

/-- C29, at the transition `READY_TO_PAUSED` with a description that does not
parse. -/
theorem inference_bin_change_state_spec_witness :
    (gst_inference_bin_change_state failing_parse
        (fun _ _ => GstStateChangeReturn.GST_STATE_CHANGE_SUCCESS) gst_inference_bin_init
        GstStateChange.READY_TO_PAUSED).ret = GstStateChangeReturn.GST_STATE_CHANGE_FAILURE ∧
    (gst_inference_bin_change_state failing_parse
        (fun _ _ => GstStateChangeReturn.GST_STATE_CHANGE_SUCCESS) gst_inference_bin_init
        GstStateChange.READY_TO_PAUSED).parent_called = false :=
  (inference_bin_change_state_spec failing_parse
    (fun _ _ => GstStateChangeReturn.GST_STATE_CHANGE_SUCCESS) gst_inference_bin_init
    GstStateChange.READY_TO_PAUSED).2.1 rfl rfl

theorem register_elements_spec (gst_element_register : List (String × Bool) → String → Bool) :
    ∀ (names : List String) (attempted : List (String × Bool)),
      ∃ more, (register_elements gst_element_register names attempted).2 = attempted ++ more ∧
        ((register_elements gst_element_register names attempted).1 = true →
          more = names.map (fun name => (name, true))) ∧
        ((register_elements gst_element_register names attempted).1 = false →
          ∃ registered name rest, names = registered ++ name :: rest ∧
            more = registered.map (fun name => (name, true)) ++ [(name, false)] ∧
            gst_element_register
              (attempted ++ registered.map (fun name => (name, true))) name = false) ∧
        (∀ before entry after, more = before ++ entry :: after →
          entry.2 = gst_element_register (attempted ++ before) entry.1) := by
  intro names
  induction names with
  | nil =>
    intro attempted
    refine ⟨[], by simp [register_elements], by simp [register_elements],
      by simp [register_elements], ?_⟩
    intro before entry after h
    simp at h
  | cons name rest ih =>
    intro attempted
    by_cases h : gst_element_register attempted name = true
    · obtain ⟨more, h1, h2, h3, h4⟩ := ih (attempted ++ [(name, true)])
      refine ⟨(name, true) :: more, ?_, ?_, ?_, ?_⟩
      · simp only [register_elements, h, if_true]
        rw [h1]
        simp
      · intro hret
        simp only [register_elements, h, if_true] at hret
        rw [h2 hret]
        rfl
      · intro hret
        simp only [register_elements, h, if_true] at hret
        obtain ⟨registered, failed, later, hn, hm, hans⟩ := h3 hret
        refine ⟨name :: registered, failed, later, by rw [hn]; rfl, by rw [hm]; rfl, ?_⟩
        rw [← hans]
        simp
      · intro before entry after hsplit
        cases before with
        | nil =>
          simp only [List.nil_append, List.cons.injEq] at hsplit
          rw [← hsplit.1, List.append_nil]
          exact h.symm
        | cons first before2 =>
          simp only [List.cons_append, List.cons.injEq] at hsplit
          rw [h4 before2 entry after hsplit.2, ← hsplit.1]
          simp
    · have hfalse : gst_element_register attempted name = false := by
        simpa using h
      refine ⟨[(name, false)], ?_, ?_, ?_, ?_⟩
      · simp [register_elements, h]
      · intro hret
        simp [register_elements, h] at hret
      · intro _
        exact ⟨[], name, rest, rfl, rfl, by simpa using hfalse⟩
      · intro before entry after hsplit
        cases before with
        | nil =>
          simp only [List.nil_append, List.cons.injEq] at hsplit
          rw [← hsplit.1, List.append_nil]
          exact hfalse.symm
        | cons first before2 =>
          simp at hsplit

/-- The return value of `plugin_init` against the answers of
`gst_element_register`: `TRUE` exactly when every one of the registrations, each
made after the earlier ones succeeded, is answered with `TRUE`. -/
theorem plugin_init_true_iff (gst_element_register : List (String × Bool) → String → Bool) :
    (plugin_init gst_element_register).1 = true ↔
      ∀ registered name rest, element_names = registered ++ name :: rest →
        gst_element_register (registered.map (fun name => (name, true))) name = true := by
  obtain ⟨more, h1, h2, h3, h4⟩ := register_elements_spec gst_element_register element_names []
  constructor
  · intro hret registered name rest hsplit
    have hmore : more = registered.map (fun name => (name, true)) ++
        (name, true) :: rest.map (fun name => (name, true)) := by
      rw [h2 hret, hsplit]
      simp
    have hans := h4 _ _ _ hmore
    rw [List.nil_append] at hans
    exact hans.symm
  · intro hall
    cases hret : (plugin_init gst_element_register).1
    · obtain ⟨registered, name, rest, hn, -, hans⟩ := h3 hret
      rw [List.nil_append] at hans
      rw [hall registered name rest hn] at hans
      exact absurd hans (by decide)
    · rfl

/-- C30: `plugin_init` returns `TRUE` if and only if `gst_element_register`
answers `TRUE` to every one of the ten registrations of `element_names`
(resnet50v1, inceptionv1, inceptionv2, mobilenetv2, inceptionv3, inceptionv4,
tinyyolov2, tinyyolov3, mobilenetv2ssd, rosetta), each asked after the earlier
ones succeeded. The calls it makes are a leading part of that list, in its
order, every recorded outcome is the answer `gst_element_register` gave to that
call, and when it returns `FALSE` the last call is the first one answered with
`FALSE`: every call before it succeeded and none follows it. For a
`gst_element_register` whose answer depends on the name only, the return value
is `TRUE` exactly when it answers `TRUE` for all ten names. -/
theorem plugin_init_registers_in_order
    (gst_element_register : List (String × Bool) → String → Bool) :
    element_names = ["resnet50v1", "inceptionv1", "inceptionv2", "mobilenetv2", "inceptionv3",
      "inceptionv4", "tinyyolov2", "tinyyolov3", "mobilenetv2ssd", "rosetta"] ∧
    ((plugin_init gst_element_register).1 = true ↔
      (plugin_init gst_element_register).2 = element_names.map (fun name => (name, true))) ∧
    ((plugin_init gst_element_register).2.map Prod.fst <+: element_names) ∧
    ((plugin_init gst_element_register).1 = false →
      ∃ registered name rest, element_names = registered ++ name :: rest ∧
        (plugin_init gst_element_register).2
          = registered.map (fun name => (name, true)) ++ [(name, false)] ∧
        gst_element_register (registered.map (fun name => (name, true))) name = false) ∧
    ((plugin_init gst_element_register).1 = true ↔
      ∀ registered name rest, element_names = registered ++ name :: rest →
        gst_element_register (registered.map (fun name => (name, true))) name = true) ∧
    (∀ before entry after, (plugin_init gst_element_register).2 = before ++ entry :: after →
      entry.2 = gst_element_register before entry.1) ∧
    (∀ answer : String → Bool,
      (plugin_init (fun _ name => answer name)).1 = true ↔
        ∀ name ∈ element_names, answer name = true) := by
  obtain ⟨more, h1, h2, h3, h4⟩ := register_elements_spec gst_element_register element_names []
  rw [List.nil_append] at h1
  have hlog : (plugin_init gst_element_register).2 = more := h1
  have hfalse : (plugin_init gst_element_register).1 = false →
      ∃ registered name rest, element_names = registered ++ name :: rest ∧
        (plugin_init gst_element_register).2
          = registered.map (fun name => (name, true)) ++ [(name, false)] ∧
        gst_element_register (registered.map (fun name => (name, true))) name = false := by
    intro hret
    obtain ⟨registered, name, rest, hn, hm, hans⟩ := h3 hret
    rw [List.nil_append] at hans
    exact ⟨registered, name, rest, hn, by rw [hlog, hm], hans⟩
  refine ⟨rfl, ⟨?_, ?_⟩, ?_, hfalse, plugin_init_true_iff gst_element_register, ?_, ?_⟩
  · intro hret
    rw [hlog, h2 hret]
  · intro hall
    cases hret : (plugin_init gst_element_register).1
    · obtain ⟨registered, name, rest, hn, hm, -⟩ := hfalse hret
      have hmem : (name, false) ∈ (plugin_init gst_element_register).2 := by
        rw [hm]
        simp
      rw [hall] at hmem
      simp at hmem
    · rfl
  · cases hret : (plugin_init gst_element_register).1
    · obtain ⟨registered, name, rest, hn, hm, -⟩ := hfalse hret
      rw [hm, hn]
      refine ⟨rest, ?_⟩
      simp [List.map_append, Function.comp_def]
    · have hm : (plugin_init gst_element_register).2
          = element_names.map (fun name => (name, true)) := by
        rw [hlog, h2 hret]
      rw [hm]
      simp [List.map_map, Function.comp_def]
  · intro before entry after hsplit
    rw [hlog] at hsplit
    have hans := h4 before entry after hsplit
    rw [List.nil_append] at hans
    exact hans
  · intro answer
    rw [plugin_init_true_iff]
    constructor
    · intro hall name hmem
      obtain ⟨registered, rest, hsplit⟩ := List.append_of_mem hmem
      exact hall registered name rest hsplit
    · intro hall registered name rest hsplit
      apply hall
      rw [hsplit]
      simp

theorem detection_collect_spec :
    ∀ (children : List GstInferencePrediction) (boxes : List PredictionBox)
      (accesses : List AccessEvent),
      (∀ child ∈ children, child.classifications ≠ []) →
      ∃ more, detection_collect children boxes accesses
          = some (boxes ++ more,
              accesses ++ children.map
                (fun child => AccessEvent.read_classifications child.prediction_id)) ∧
        List.Forall₂
          (fun (child : GstInferencePrediction) (box : PredictionBox) =>
            ∃ classification, child.classifications.head? = some classification ∧
              box = detection_box child classification)
          children more := by
  intro children
  induction children with
  | nil =>
    intro boxes accesses _
    exact ⟨[], by simp [detection_collect], List.Forall₂.nil⟩
  | cons child rest ih =>
    intro boxes accesses hcls
    have hchild : child.classifications ≠ [] := hcls child (List.mem_cons_self _ _)
    obtain ⟨classification, others, hc⟩ := List.exists_cons_of_ne_nil hchild
    obtain ⟨more, hm, hall⟩ := ih (boxes ++ [detection_box child classification])
      (accesses ++ [AccessEvent.read_classifications child.prediction_id])
      (fun c hmem => hcls c (List.mem_cons_of_mem _ hmem))
    refine ⟨detection_box child classification :: more, ?_, ?_⟩
    · rw [detection_collect, hc]
      simp only []
      rw [hm]
      simp
    · exact List.Forall₂.cons ⟨classification, by rw [hc]; rfl, rfl⟩ hall

/-- C26: for a children list of which every node carries at least one
classification, `gst_detection_process_inference` (all six guards passed) calls
`handle_prediction` with the frame, with one box per child in the order of the
list, every box holding the `x`, `y`, `width` and `height` of its child and the
`class_id` and `class_prob` of that child's first classification, and with
`num_boxes` the number of children; the array is `NULL` when there is no box,
which is when there is no child. -/
theorem detection_process_inference_boxes
    (get_children : Option GstInferencePrediction → List GstInferencePrediction)
    (model_meta imeta : GstInferenceMeta) (model_frame frame : GstVideoFrame)
    (hcls : ∀ child ∈ get_children imeta.prediction, child.classifications ≠ []) :
    ∃ boxes accesses,
      gst_detection_process_inference get_children (some ()) (some model_meta)
          (some model_frame) (some imeta) (some frame) (some ()) =
        some { handled := some { frame := frame
                                 boxes := if boxes = [] then none else some boxes
                                 num_boxes := ((get_children imeta.prediction).length : Nat) }
               accesses := accesses } ∧
      boxes.length = (get_children imeta.prediction).length ∧
      List.Forall₂
        (fun (child : GstInferencePrediction) (box : PredictionBox) =>
          ∃ classification, child.classifications.head? = some classification ∧
            box.x = child.bbox.x ∧ box.y = child.bbox.y ∧ box.width = child.bbox.width ∧
            box.height = child.bbox.height ∧ box.category = classification.class_id ∧
            box.probability = classification.class_prob)
        (get_children imeta.prediction) boxes := by
  obtain ⟨more, hm, hall⟩ := detection_collect_spec (get_children imeta.prediction) [] [] hcls
  rw [List.nil_append] at hm
  have hlen : more.length = (get_children imeta.prediction).length := hall.length_eq.symm
  refine ⟨more, (get_children imeta.prediction).map
    (fun child => AccessEvent.read_classifications child.prediction_id), ?_, hlen, ?_⟩
  · simp only [gst_detection_process_inference, hm, hlen, List.nil_append]
  · refine List.Forall₂.imp ?_ hall
    intro child box hbox
    obtain ⟨classification, hhead, hb⟩ := hbox
    exact ⟨classification, hhead, by rw [hb]; simp [detection_box]⟩

/-- C26, at a root with the two classified children 21 and 22. -/
theorem detection_process_inference_boxes_witness :
    ∃ boxes accesses,
      gst_detection_process_inference children_list (some ()) (some detected_meta)
          (some small_frame) (some detected_meta) (some small_frame) (some ()) =
        some { handled := some { frame := small_frame
                                 boxes := if boxes = [] then none else some boxes
                                 num_boxes :=
                                   ((children_list detected_meta.prediction).length : Nat) }
               accesses := accesses } ∧
      boxes.length = (children_list detected_meta.prediction).length ∧
      List.Forall₂
        (fun (child : GstInferencePrediction) (box : PredictionBox) =>
          ∃ classification, child.classifications.head? = some classification ∧
            box.x = child.bbox.x ∧ box.y = child.bbox.y ∧ box.width = child.bbox.width ∧
            box.height = child.bbox.height ∧ box.category = classification.class_id ∧
            box.probability = classification.class_prob)
        (children_list detected_meta.prediction) boxes :=
  detection_process_inference_boxes children_list detected_meta detected_meta small_frame
    small_frame (by
      intro child hmem
      simp [children_list, detected_meta, detected_root, GstInferencePrediction.children] at hmem
      rcases hmem with h | h <;> rw [h] <;> simp [GstInferencePrediction.classifications])

/-- C22 (the detection callback diverges): on a root with the classified
children 21 and 22, `gst_detection_process_inference` reads the classifications
list of both children and takes no lock at all, so the reads do not happen under
the lock; `gst_classification_process_inference` on the same meta takes the lock
of the root, reads, and releases the lock once. -/
theorem detection_callback_reads_without_lock :
    (gst_detection_process_inference children_list (some ()) (some detected_meta)
        (some small_frame) (some detected_meta) (some small_frame) (some ())).map
      (fun result => result.accesses)
      = some [AccessEvent.read_classifications 21, AccessEvent.read_classifications 22] ∧
    reads_under_lock
      [AccessEvent.read_classifications 21, AccessEvent.read_classifications 22] [] = false ∧
    (gst_classification_process_inference (some ()) (some detected_meta) (some small_frame)
        (some detected_meta) (some small_frame) (some ())).map (fun result => result.accesses)
      = some [AccessEvent.lock 20, AccessEvent.read_classifications 20, AccessEvent.unlock 20] ∧
    reads_under_lock
      [AccessEvent.lock 20, AccessEvent.read_classifications 20, AccessEvent.unlock 20] []
      = true ∧
    locks_released
      [AccessEvent.lock 20, AccessEvent.read_classifications 20, AccessEvent.unlock 20] []
      = true :=
  ⟨rfl, by decide, rfl, by decide, by decide⟩

/-- C28 (the code diverges): the three threshold identifiers never reach the
invalid-property-id warning and the number-of-classes identifier does not reach
it outside the state `NULL`, but in the state `NULL` the number-of-classes case
stores the value and then runs the warning of the `default` branch. -/
theorem tinyyolov3_num_classes_reaches_warning (tinyyolov3 : GstTinyyolov3) (value : GValue) :
    (gst_tinyyolov3_set_property tinyyolov3 PROP_OBJ_THRESH value).invalid_id_warned = false ∧
    (gst_tinyyolov3_set_property tinyyolov3 PROP_PROB_THRESH value).invalid_id_warned = false ∧
    (gst_tinyyolov3_set_property tinyyolov3 PROP_IOU_THRESH value).invalid_id_warned = false ∧
    ((gst_tinyyolov3_set_property tinyyolov3 PROP_NUM_CLASSES value).invalid_id_warned = true ↔
      tinyyolov3.state = GstState.NULL) ∧
    (gst_tinyyolov3_set_property { default_tinyyolov3 with state := GstState.NULL }
      PROP_NUM_CLASSES (GValue.g_uint 20)).invalid_id_warned = true ∧
    (gst_tinyyolov3_set_property { default_tinyyolov3 with state := GstState.NULL }
      PROP_NUM_CLASSES (GValue.g_uint 20)).element.num_classes = 20 := by
  refine ⟨rfl, rfl, rfl, ?_, rfl, rfl⟩
  by_cases h : tinyyolov3.state = GstState.NULL
  · simp [gst_tinyyolov3_set_property, PROP_NUM_CLASSES, PROP_OBJ_THRESH, PROP_PROB_THRESH,
      PROP_IOU_THRESH, h]
  · simp [gst_tinyyolov3_set_property, PROP_NUM_CLASSES, PROP_OBJ_THRESH, PROP_PROB_THRESH,
      PROP_IOU_THRESH, h]

/-- C27: every call of `gst_tinyyolov3_postprocess` that passes its guards (the
box arrays holding at least `num_boxes` entries) returns `TRUE`, and the last
value stored through `valid_prediction` is `TRUE` if and only if
`num_boxes > 0`, whatever `gst_create_boxes_float` returned or stored through
`valid_prediction` before. -/
theorem tinyyolov3_postprocess_valid_prediction (env : Tinyyolov3Env) (vi : GstTinyyolov3)
    (data : Tensor) (predsize : Nat) (imeta : GstInferenceMeta) (info : GstVideoInfo)
    (v : Bool) (labels_list : List String) (num_labels : Int)
    (hb : (tinyyolov3_create_boxes env vi data).elements.toNat
      ≤ (tinyyolov3_create_boxes env vi data).resulting_boxes.length)
    (hp : (tinyyolov3_create_boxes env vi data).elements.toNat
      ≤ (tinyyolov3_create_boxes env vi data).probabilities.length) :
    ∃ result,
      gst_tinyyolov3_postprocess env (some vi) (some data) predsize (some imeta) (some info)
        (some v) labels_list num_labels = some result ∧
      result.ret = true ∧
      (∃ final, result.valid_stores.getLast? = some final ∧
        (final = true ↔ (tinyyolov3_create_boxes env vi data).elements > 0)) := by
  refine ⟨_, tinyyolov3_postprocess_passed env vi data predsize imeta info v labels_list
    num_labels hb hp, rfl, decide ((tinyyolov3_create_boxes env vi data).elements > 0), ?_, ?_⟩
  · simp
  · simp

/-- C27, at a box creation that reports failure, stores `FALSE` and leaves no
box: the call returns `TRUE` and the last store is `FALSE`. -/
theorem tinyyolov3_postprocess_valid_prediction_witness :
    ∃ result,
      gst_tinyyolov3_postprocess rejecting_env (some default_tinyyolov3)
        (some [0, 0, 0, 0, 0, 0, 0]) 28 (some empty_meta) (some model_info) (some true) [] 0
        = some result ∧
      result.ret = true ∧
      (∃ final, result.valid_stores.getLast? = some final ∧
        (final = true ↔
          (tinyyolov3_create_boxes rejecting_env default_tinyyolov3
            [0, 0, 0, 0, 0, 0, 0]).elements > 0)) :=
  tinyyolov3_postprocess_valid_prediction rejecting_env default_tinyyolov3
    [0, 0, 0, 0, 0, 0, 0] 28 empty_meta model_info true [] 0
    (by simp [tinyyolov3_create_boxes, rejecting_env])
    (by simp [tinyyolov3_create_boxes, rejecting_env])

/-- C24: when frame creation and configuration succeed, the multi-output
`Predict` answers `NOT_IMPLEMENTED` with no output and the single-output
`Predict` then gives the prediction `p` without error,
`gst_base_backend_process_frame` returns `TRUE`, stores exactly the bytes of `p`
in `*prediction_data` and its size in `*prediction_size`, and sets no error. -/
theorem backend_process_frame_single_output (r2i : R2I) (frame : GstVideoFrame)
    (u1 u2 u3 : Unit) (refusal error : RuntimeError) (p : IPrediction)
    (hmake : r2i.MakeFrame.IsError = false)
    (hconf : (r2i.FrameConfigure frame.data frame.width frame.height
      (gst_base_backend_cast_format frame.format)).IsError = false)
    (hmulti : r2i.Predict frame = (refusal, []))
    (hcode : refusal.code = ErrorCode.NOT_IMPLEMENTED)
    (hsingle : r2i.PredictSingle frame = (error, some p))
    (herr : error.IsError = false) :
    gst_base_backend_process_frame r2i (some frame) (some u1) (some u2) (some u3) =
      some { ret := true
             prediction_data := some p.result_data
             prediction_size := some p.GetResultSize
             err := none } := by
  have hbp : backend_predict r2i frame = (error, [p].map some) := by
    simp [backend_predict, hmulti, hcode, hsingle]
  have h := backend_process_frame_outputs r2i frame u1 u2 u3 error [p] hmake hconf hbp herr
    (by simp)
  rw [h]
  simp

/-- C24, at a library that knows only the single-output `Predict`. -/
theorem backend_process_frame_single_output_witness :
    gst_base_backend_process_frame single_output_r2i (some small_frame) (some ()) (some ())
        (some ()) =
      some { ret := true
             prediction_data := some ({ result_data := [7] } : IPrediction).result_data
             prediction_size := some ({ result_data := [7] } : IPrediction).GetResultSize
             err := none } :=
  backend_process_frame_single_output single_output_r2i small_frame () () ()
    { code := ErrorCode.NOT_IMPLEMENTED, description := "no multiple outputs" }
    RuntimeError.clean { result_data := [7] } rfl rfl rfl rfl rfl rfl

/-- In a table without repeated names the first entry with a name is the only
one, so the test of the inner loop is the flag of any entry with that name. -/
theorem is_write_before_start_of_nodup (name : String) :
    ∀ (params : List ParameterMeta), (params.map fun param => param.name).Nodup →
      (is_write_before_start params name = true ↔
        ∃ param ∈ params, param.name = name ∧ param.write_before_start = true) := by
  intro params
  induction params with
  | nil =>
    intro _
    simp [is_write_before_start]
  | cons first rest ih =>
    intro hnd
    rw [List.map_cons, List.nodup_cons] at hnd
    by_cases hname : first.name = name
    · have hrest : ∀ param ∈ rest, param.name ≠ name := by
        intro param hmem heq
        apply hnd.1
        rw [hname, ← heq]
        exact List.mem_map_of_mem _ hmem
      constructor
      · intro h
        refine ⟨first, List.mem_cons_self _ _, hname, ?_⟩
        simpa [is_write_before_start, List.find?, hname] using h
      · rintro ⟨param, hmem, hp, hflag⟩
        rcases List.mem_cons.mp hmem with heq | hin
        · rw [heq] at hflag
          simpa [is_write_before_start, List.find?, hname] using hflag
        · exact absurd hp (hrest param hin)
    · have hstep : is_write_before_start (first :: rest) name
          = is_write_before_start rest name := by
        simp [is_write_before_start, List.find?, hname]
      rw [hstep, ih hnd.2]
      constructor
      · rintro ⟨param, hmem, hp, hflag⟩
        exact ⟨param, List.mem_cons_of_mem _ hmem, hp, hflag⟩
      · rintro ⟨param, hmem, hp, hflag⟩
        rcases List.mem_cons.mp hmem with heq | hin
        · rw [heq] at hp
          exact absurd hp hname
        · exact ⟨param, hin, hp, hflag⟩

/-- A start that returns `TRUE`: its events are those of the first loop, the
start of the engine and those of the second loop. -/
theorem backend_start_true_events (r2i : R2I) (params : List ParameterMeta)
    (priv : GstBaseBackendPrivate) (location : String) (u : Unit)
    (hret : (gst_base_backend_start r2i params priv (some location) (some u)).ret = true) :
    ∃ before after,
      (gst_base_backend_start r2i params priv (some location) (some u)).priv.events
        = priv.events ++ before ++ [BackendEvent.engine_start] ++ after ∧
      BackendEvent.engine_start ∉ before ∧ BackendEvent.engine_start ∉ after ∧
      applied_properties before = priv.property_list.filter (fun p =>
        is_write_before_start
          (gst_base_backend_start r2i params priv (some location) (some u)).params p.get_name) ∧
      applied_properties after = priv.property_list.filter (fun p =>
        !is_write_before_start
          (gst_base_backend_start r2i params priv (some location) (some u)).params p.get_name) ∧
      (r2i.Start (priv.events ++ before)).IsError = false := by
  generalize hc : (if priv.backend_created then (RuntimeError.clean, params)
    else backend_create r2i location params) = created
  by_cases h1 : created.1.IsError = true
  · have hres : gst_base_backend_start r2i params priv (some location) (some u) =
        { ret := false, priv := priv, params := created.2,
          err := some (gerror_of created.1) } := by
      simp [gst_base_backend_start, hc, h1]
    rw [hres] at hret
    simp at hret
  obtain ⟨m1, hm1, hns1, -, -, hfilter⟩ :=
    start_apply_before_spec r2i created.2 priv.property_list priv.events created.1
  generalize hb : start_apply_before r2i created.2 priv.property_list priv.events created.1
    = before at hm1 hfilter
  by_cases h2 : before.failed = true
  · have hres : gst_base_backend_start r2i params priv (some location) (some u) =
        { ret := false
          priv := { priv with backend_created := true, property_list := before.property_list,
                              events := before.events }
          params := created.2, err := some (gerror_of before.error) } := by
      simp [gst_base_backend_start, hc, h1, hb, h2]
    rw [hres] at hret
    simp at hret
  by_cases h3 : (r2i.Start before.events).IsError = true
  · have hres : gst_base_backend_start r2i params priv (some location) (some u) =
        { ret := false
          priv := { priv with backend_created := true, property_list := before.property_list,
                              events := before.events ++ [BackendEvent.engine_start] }
          params := created.2, err := some (gerror_of (r2i.Start before.events)) } := by
      simp [gst_base_backend_start, hc, h1, hb, h2, h3]
    rw [hres] at hret
    simp at hret
  obtain ⟨m2, hm2, hns2, hsplit2, hempty2⟩ :=
    start_apply_rest_spec r2i before.property_list
      (before.events ++ [BackendEvent.engine_start]) (r2i.Start before.events)
  generalize hr : start_apply_rest r2i before.property_list
    (before.events ++ [BackendEvent.engine_start]) (r2i.Start before.events)
    = rest at hm2 hsplit2 hempty2
  by_cases h4 : rest.failed = true
  · have hres : gst_base_backend_start r2i params priv (some location) (some u) =
        { ret := false
          priv := { priv with backend_created := true, property_list := rest.property_list,
                              events := rest.events }
          params := created.2, err := some (gerror_of rest.error) } := by
      simp [gst_base_backend_start, hc, h1, hb, h2, h3, hr, h4]
    rw [hres] at hret
    simp at hret
  · have hnil : rest.property_list = [] := hempty2 (by simpa using h4)
    have hres : gst_base_backend_start r2i params priv (some location) (some u) =
        { ret := true
          priv := { backend_started := true, backend_created := true,
                    property_list := rest.property_list, events := rest.events }
          params := created.2, err := none } := by
      simp [gst_base_backend_start, hc, h1, hb, h2, h3, hr, h4]
    rw [hres]
    obtain ⟨hf1, hf2⟩ := hfilter (by simpa using h2)
    rw [hnil, List.append_nil] at hsplit2
    refine ⟨m1, m2, ?_, hns1, hns2, hf1, ?_, ?_⟩
    · show rest.events = _
      rw [hm2, hm1]
    · rw [hsplit2, hf2]
    · rw [← hm1]
      simpa using h3

/-- C23 (as stated, refuted): the table lists the name `device` twice, first
without and then with the flag `WRITE_BEFORE_START`. The pending property
`device` has the name of a listed parameter flagged `WRITE_BEFORE_START`, yet the
call, which returns `TRUE`, applies it only after the start of the engine. -/
theorem backend_start_repeated_name_counterexample :
    (gst_base_backend_start working_r2i repeated_name_table created_backend (some "m")
      (some ())).ret = true ∧
    device_property ∈ created_backend.property_list ∧
    (∃ param ∈ (gst_base_backend_start working_r2i repeated_name_table created_backend
        (some "m") (some ())).params,
      param.name = device_property.get_name ∧ param.write_before_start = true) ∧
    (gst_base_backend_start working_r2i repeated_name_table created_backend (some "m")
      (some ())).priv.events =
      [BackendEvent.engine_start, BackendEvent.apply_inference_property device_property,
       BackendEvent.params_set "device" (ParamValue.of_string (some "gpu"))] := by
  decide

/-- C23 (amended): a `gst_base_backend_start` that returns `TRUE` has made its
calls in this order: first it applied, in pending order, exactly the pending
properties for which the first entry of the parameter table with the property's
name is flagged `WRITE_BEFORE_START`; then it started the engine, once and with
success; then it applied all remaining pending properties, in pending order. In
a table that lists no name twice, the properties applied first are exactly those
whose name equals a listed parameter flagged `WRITE_BEFORE_START`. -/
theorem backend_start_true_order (r2i : R2I) (params : List ParameterMeta)
    (priv : GstBaseBackendPrivate) (model_location : Option String) (err : Option Unit)
    (hret : (gst_base_backend_start r2i params priv model_location err).ret = true) :
    (∃ before after,
      (gst_base_backend_start r2i params priv model_location err).priv.events
        = priv.events ++ before ++ [BackendEvent.engine_start] ++ after ∧
      BackendEvent.engine_start ∉ before ∧ BackendEvent.engine_start ∉ after ∧
      applied_properties before = priv.property_list.filter (fun p =>
        is_write_before_start
          (gst_base_backend_start r2i params priv model_location err).params p.get_name) ∧
      applied_properties after = priv.property_list.filter (fun p =>
        !is_write_before_start
          (gst_base_backend_start r2i params priv model_location err).params p.get_name) ∧
      (r2i.Start (priv.events ++ before)).IsError = false) ∧
    (∀ name, is_write_before_start
        (gst_base_backend_start r2i params priv model_location err).params name = true ↔
      ∃ param, (gst_base_backend_start r2i params priv model_location err).params.find?
          (fun param => param.name = name) = some param ∧ param.write_before_start = true) ∧
    (((gst_base_backend_start r2i params priv model_location err).params.map
        fun param => param.name).Nodup →
      ∀ name, is_write_before_start
          (gst_base_backend_start r2i params priv model_location err).params name = true ↔
        ∃ param ∈ (gst_base_backend_start r2i params priv model_location err).params,
          param.name = name ∧ param.write_before_start = true) := by
  rcases model_location with _ | location
  · simp [gst_base_backend_start] at hret
  rcases err with _ | u
  · simp [gst_base_backend_start] at hret
  refine ⟨backend_start_true_events r2i params priv location u hret, ?_, ?_⟩
  · intro name
    unfold is_write_before_start
    cases (gst_base_backend_start r2i params priv (some location) (some u)).params.find?
      (fun param => param.name = name) <;> simp
  · intro hnd name
    exact is_write_before_start_of_nodup name _ hnd

/-- C23 (amended), at a backend with the queued properties `device` and
`threads` on a library that lists `device` as `WRITE_BEFORE_START`. -/
theorem backend_start_true_order_witness :
    (gst_base_backend_start working_r2i [] fresh_backend (some "model.pb") (some ())).ret
      = true ∧
    ∃ before after,
      (gst_base_backend_start working_r2i [] fresh_backend (some "model.pb")
        (some ())).priv.events
        = fresh_backend.events ++ before ++ [BackendEvent.engine_start] ++ after ∧
      BackendEvent.engine_start ∉ before ∧ BackendEvent.engine_start ∉ after ∧
      applied_properties before = fresh_backend.property_list.filter (fun p =>
        is_write_before_start
          (gst_base_backend_start working_r2i [] fresh_backend (some "model.pb")
            (some ())).params p.get_name) ∧
      applied_properties after = fresh_backend.property_list.filter (fun p =>
        !is_write_before_start
          (gst_base_backend_start working_r2i [] fresh_backend (some "model.pb")
            (some ())).params p.get_name) ∧
      (working_r2i.Start (fresh_backend.events ++ before)).IsError = false :=
  ⟨by decide,
   (backend_start_true_order working_r2i [] fresh_backend (some "model.pb") (some ())
      (by decide)).1⟩

theorem infix_append_of_last {α : Type} (p x y : List α) (c : α)
    (hx : x.getLast? = some c) (hc : c ∉ p.dropLast) (h : p <:+: x ++ y) :
    p <:+: x ∨ p <:+: y := by
  obtain ⟨s, t, hst⟩ := h
  rcases List.append_eq_append_iff.mp hst with ⟨a, hxa, hta⟩ | ⟨b, hsb, hyb⟩
  · exact Or.inl ⟨s, a, hxa.symm⟩
  · rcases List.append_eq_append_iff.mp hsb with ⟨a, hxa, hpa⟩ | ⟨d, hsd, hbd⟩
    · rcases List.eq_nil_or_concat b with hb | ⟨b1, e, hb⟩
      · rw [hb, List.append_nil] at hpa
        exact Or.inl ⟨s, [], by rw [hxa, hpa]; simp⟩
      · rcases List.eq_nil_or_concat a with ha | ⟨a1, e2, ha⟩
        · rw [ha, List.nil_append] at hpa
          exact Or.inr ⟨[], t, by rw [hyb, hpa]; simp⟩
        · exfalso
          apply hc
          have hlast : e2 = c := by
            rw [hxa, ha] at hx
            simpa using hx
          rw [hpa, hb, ha, ← hlast,
            show a1.concat e2 ++ b1.concat e = (a1 ++ [e2] ++ b1) ++ [e] by simp,
            List.dropLast_concat]
          simp
    · exact Or.inr ⟨d, t, by rw [hyb, hbd]⟩

theorem infix_append_of_head {α : Type} (p x y : List α) (c : α)
    (hy : y.head? = some c) (hc : c ∉ p.tail) (h : p <:+: x ++ y) :
    p <:+: x ∨ p <:+: y := by
  obtain ⟨s, t, hst⟩ := h
  rcases List.append_eq_append_iff.mp hst with ⟨a, hxa, hta⟩ | ⟨b, hsb, hyb⟩
  · exact Or.inl ⟨s, a, hxa.symm⟩
  · rcases List.append_eq_append_iff.mp hsb with ⟨a, hxa, hpa⟩ | ⟨d, hsd, hbd⟩
    · cases b with
      | nil =>
        rw [List.append_nil] at hpa
        exact Or.inl ⟨s, [], by rw [hxa, hpa]; simp⟩
      | cons e b1 =>
        cases a with
        | nil =>
          rw [List.nil_append] at hpa
          exact Or.inr ⟨[], t, by rw [hyb, hpa]; simp⟩
        | cons e2 a1 =>
          exfalso
          apply hc
          have hhead : e = c := by
            rw [hyb] at hy
            simpa using hy
          rw [hpa, ← hhead]
          simp
    · exact Or.inr ⟨d, t, by rw [hyb, hbd]⟩

theorem infix_flatten_blocks {α : Type} (p : List α) (hne : p ≠ []) :
    ∀ (blocks : List (List α)),
      (∀ b ∈ blocks, b = [] ∨ ∃ c, b.getLast? = some c ∧ c ∉ p.dropLast) →
      p <:+: blocks.flatten → ∃ b ∈ blocks, p <:+: b := by
  intro blocks
  induction blocks with
  | nil =>
    intro _ h
    simp at h
    exact absurd h hne
  | cons b rest ih =>
    intro hb h
    rw [List.flatten_cons] at h
    have hrest : p <:+: rest.flatten → ∃ b2 ∈ b :: rest, p <:+: b2 := by
      intro h2
      obtain ⟨b2, hmem, hin⟩ := ih (fun b2 hmem => hb b2 (List.mem_cons_of_mem _ hmem)) h2
      exact ⟨b2, List.mem_cons_of_mem _ hmem, hin⟩
    rcases hb b (List.mem_cons_self _ _) with hnil | ⟨c, hlast, hc⟩
    · rw [hnil, List.nil_append] at h
      exact hrest h
    · rcases infix_append_of_last p b rest.flatten c hlast hc h with h1 | h2
      · exact ⟨b, List.mem_cons_self _ _, h1⟩
      · exact hrest h2

theorem digitChar_mem (n : Nat) (h : n < 10) : Nat.digitChar n ∈ "0123456789".data := by
  interval_cases n <;> decide

theorem toDigitsCore_chars (fuel : Nat) :
    ∀ (n : Nat) (ds : List Char), (∀ c ∈ ds, c ∈ "0123456789".data) →
      ∀ c ∈ Nat.toDigitsCore 10 fuel n ds, c ∈ "0123456789".data := by
  induction fuel with
  | zero =>
    intro n ds hds c hc
    simp [Nat.toDigitsCore] at hc
    exact hds c hc
  | succ fuel ih =>
    intro n ds hds c hc
    have hcons : ∀ c ∈ Nat.digitChar (n % 10) :: ds, c ∈ "0123456789".data := by
      intro c hc
      rcases List.mem_cons.mp hc with h | h
      · rw [h]
        exact digitChar_mem _ (Nat.mod_lt _ (by decide))
      · exact hds c h
    simp only [Nat.toDigitsCore] at hc
    split at hc
    · exact hcons c hc
    · exact ih _ _ hcons c hc

theorem int_toString_chars (i : Int) :
    ∀ c ∈ (toString i).data, c ∈ "-0123456789".data := by
  intro c hc
  have hnat : ∀ (m : Nat), ∀ c ∈ (toString m).data, c ∈ "0123456789".data := by
    intro m c hc
    exact toDigitsCore_chars _ m [] (by simp) c hc
  have hweak : ∀ c, c ∈ "0123456789".data → c ∈ "-0123456789".data := by
    intro c h
    exact List.mem_cons_of_mem _ h
  cases i with
  | ofNat m => exact hweak c (hnat m c hc)
  | negSucc m =>
    have hs : toString (Int.negSucc m) = "-" ++ toString (m + 1) := rfl
    rw [hs, String.data_append] at hc
    rcases List.mem_append.mp hc with h | h
    · have : c = '-' := by simpa using h
      rw [this]
      decide
    · exact hweak c (hnat _ c h)
theorem contains_text_iff (text part : String) :
    contains_text text part = true ↔ part.data <:+: text.data := by
  simp only [contains_text, List.any_eq_true, List.mem_tails, List.isPrefixOf_iff_prefix]
  rw [List.infix_iff_prefix_suffix]
  constructor
  · rintro ⟨rest, hs, hp⟩
    exact ⟨rest, hp, hs⟩
  · rintro ⟨rest, hp, hs⟩
    exact ⟨rest, hs, hp⟩

theorem contains_text_false_iff (text part : String) :
    contains_text text part = false ↔ ¬ part.data <:+: text.data := by
  rw [← contains_text_iff, Bool.not_eq_true]

/-- The characters of the description, block by block: every block is empty or
ends with a fixed text. -/
theorem build_pipe_blocks (self : GstInferenceBin) :
    ((gst_inference_bin_build_pipe (some self)).getD "").data = List.flatten
      [ "inferencefilter filter-class=".data,
        (format_d self.filter).data ++ " name=filter ! ".data,
        "inferencedebug name=debug_before ! ".data,
        (format_s self.converter).data ++ " name=converter_before ! ".data,
        "tee name=tee ".data,
        "tee. ! queue max-size-buffers=3 leaky=no name=queue_bypass ! arch.sink_bypass ".data,
        "tee. ! queue max-size-buffers=3 leaky=no name=queue_sink ! inferencecrop enable=".data,
        (bool_text self.crop).data ++ " name=crop ! ".data,
        (format_s self.scaler).data ++ " name=scaler ! arch.sink_model ".data,
        (format_s self.arch).data ++ " name=arch backend=".data,
        (format_s self.backend).data ++ " model-location=".data,
        (format_s self.model_location).data ++ " ".data,
        (optional_setting "labels=\"" self.labels "\" ").data,
        (optional_setting "backend::input-layer=" self.input_layer " ").data,
        (optional_setting "backend::output-layer=" self.output_layer " ").data,
        "arch.src_bypass ! queue name=queue_output ! inferencedebug name=debug_after ".data,
        "! inferenceoverlay enable=".data,
        (bool_text self.overlay).data ++ " name=overlay ".data ] := by
  simp only [gst_inference_bin_build_pipe, Option.getD_some, string_join_cons,
    String.data_append, List.flatten, List.append_assoc]
  rw [show (String.join []).data = [] from rfl]

/-- A block of a value followed by a fixed text that starts with a character
the part does not hold behind its first place: the part lies in the value or
in the fixed text. -/
theorem infix_value_then_fixed (p : List Char) (value fixed : String) (c : Char)
    (hhead : fixed.data.head? = some c) (hc : c ∉ p.tail)
    (h : p <:+: value.data ++ fixed.data) : p <:+: value.data ∨ p <:+: fixed.data :=
  infix_append_of_head p value.data fixed.data c hhead hc h

/-- The block of an optional setting: a part inside it lies in the text before
the value, in the value or in the text after it, and the property is set. -/
theorem infix_optional_setting (p : List Char) (hne : p ≠ []) (before after : String)
    (value : Option String) (c d : Char)
    (hlast : before.data.getLast? = some c) (hc : c ∉ p.dropLast)
    (hhead : after.data.head? = some d) (hd : d ∉ p.tail)
    (h : p <:+: (optional_setting before value after).data) :
    ∃ text, value = some text ∧
      (p <:+: before.data ∨ p <:+: text.data ∨ p <:+: after.data) := by
  cases value with
  | none =>
    simp only [optional_setting] at h
    exact absurd (List.eq_nil_of_infix_nil h) hne
  | some text =>
    refine ⟨text, rfl, ?_⟩
    simp only [optional_setting, String.data_append, List.append_assoc] at h
    rcases infix_append_of_last p before.data _ c hlast hc h with h1 | h2
    · exact Or.inl h1
    · rcases infix_append_of_head p text.data after.data d hhead hd h2 with h3 | h4
      · exact Or.inr (Or.inl h3)
      · exact Or.inr (Or.inr h4)

/-- Where a part of the description can lie, for a part without blank and
quote and with no `=` before its last character. -/
theorem build_pipe_infix (self : GstInferenceBin) (p : List Char) (hne : p ≠ [])
    (hsp : ' ' ∉ p) (hq : '"' ∉ p) (heq : '=' ∉ p.dropLast)
    (h : p <:+: ((gst_inference_bin_build_pipe (some self)).getD "").data) :
    (∃ lit ∈ pipe_literals, p <:+: lit.data) ∨
    p <:+: (format_d self.filter).data ∨
    (∃ value ∈ [self.converter, self.scaler, self.arch, self.backend, self.model_location],
      ∃ text, value = some text ∧ p <:+: text.data) ∨
    (∃ text, self.labels = some text ∧ (p <:+: "labels=\"".data ∨ p <:+: text.data)) ∨
    (∃ text, self.input_layer = some text ∧
      (p <:+: "backend::input-layer=".data ∨ p <:+: text.data)) ∨
    (∃ text, self.output_layer = some text ∧
      (p <:+: "backend::output-layer=".data ∨ p <:+: text.data)) := by
  have hs_last : ' ' ∉ p.dropLast := fun hmem => hsp (List.dropLast_subset p hmem)
  have hq_last : '"' ∉ p.dropLast := fun hmem => hq (List.dropLast_subset p hmem)
  have hs_head : ' ' ∉ p.tail := fun hmem => hsp (List.mem_of_mem_tail hmem)
  have hq_head : '"' ∉ p.tail := fun hmem => hq (List.mem_of_mem_tail hmem)
  have hlit : ∀ lit, lit ∈ pipe_literals → p <:+: lit.data →
      ∃ lit ∈ pipe_literals, p <:+: lit.data := fun lit hmem hin => ⟨lit, hmem, hin⟩
  have hbool : ∀ b : Bool, p <:+: (bool_text b).data →
      ∃ lit ∈ pipe_literals, p <:+: lit.data := by
    intro b hin
    cases b
    · exact ⟨"false", by decide, hin⟩
    · exact ⟨"true", by decide, hin⟩
  have hfmt : ∀ value, value ∈ [self.converter, self.scaler, self.arch, self.backend,
      self.model_location] → p <:+: (format_s value).data →
      (∃ lit ∈ pipe_literals, p <:+: lit.data) ∨
      (∃ value ∈ [self.converter, self.scaler, self.arch, self.backend, self.model_location],
        ∃ text, value = some text ∧ p <:+: text.data) := by
    intro value hmem hin
    cases value with
    | none => exact Or.inl ⟨"(null)", by decide, hin⟩
    | some text => exact Or.inr ⟨some text, hmem, text, rfl, hin⟩
  rw [build_pipe_blocks] at h
  obtain ⟨b, hmem, hin⟩ := infix_flatten_blocks p hne _ (by
    intro b hmem
    simp only [List.mem_cons, List.mem_singleton, List.not_mem_nil, or_false] at hmem
    rcases hmem with rfl | rfl | rfl | rfl | rfl | rfl | rfl | rfl | rfl | rfl | rfl | rfl |
      hl | hi | ho | rfl | rfl | rfl
    · exact Or.inr ⟨'=', by decide, heq⟩
    · exact Or.inr ⟨' ', by rw [List.getLast?_append]; rfl, hs_last⟩
    · exact Or.inr ⟨' ', by decide, hs_last⟩
    · exact Or.inr ⟨' ', by rw [List.getLast?_append]; rfl, hs_last⟩
    · exact Or.inr ⟨' ', by decide, hs_last⟩
    · exact Or.inr ⟨' ', by decide, hs_last⟩
    · exact Or.inr ⟨'=', by decide, heq⟩
    · exact Or.inr ⟨' ', by rw [List.getLast?_append]; rfl, hs_last⟩
    · exact Or.inr ⟨' ', by rw [List.getLast?_append]; rfl, hs_last⟩
    · exact Or.inr ⟨'=', by rw [List.getLast?_append]; rfl, heq⟩
    · exact Or.inr ⟨'=', by rw [List.getLast?_append]; rfl, heq⟩
    · exact Or.inr ⟨' ', by rw [List.getLast?_append]; rfl, hs_last⟩
    · rw [hl]
      cases self.labels with
      | none => exact Or.inl rfl
      | some text =>
        exact Or.inr ⟨' ', by
          simp only [optional_setting, String.data_append]
          rw [List.getLast?_append]; rfl, hs_last⟩
    · rw [hi]
      cases self.input_layer with
      | none => exact Or.inl rfl
      | some text =>
        exact Or.inr ⟨' ', by
          simp only [optional_setting, String.data_append]
          rw [List.getLast?_append]; rfl, hs_last⟩
    · rw [ho]
      cases self.output_layer with
      | none => exact Or.inl rfl
      | some text =>
        exact Or.inr ⟨' ', by
          simp only [optional_setting, String.data_append]
          rw [List.getLast?_append]; rfl, hs_last⟩
    · exact Or.inr ⟨' ', by decide, hs_last⟩
    · exact Or.inr ⟨'=', by decide, heq⟩
    · exact Or.inr ⟨' ', by rw [List.getLast?_append]; rfl, hs_last⟩) h
  simp only [List.mem_cons, List.mem_singleton, List.not_mem_nil, or_false] at hmem
  rcases hmem with rfl | rfl | rfl | rfl | rfl | rfl | rfl | rfl | rfl | rfl | rfl | rfl |
    hl | hi | ho | rfl | rfl | rfl
  · exact Or.inl (hlit _ (by decide) hin)
  · rcases infix_value_then_fixed p _ " name=filter ! " ' ' rfl hs_head hin with h1 | h2
    · exact Or.inr (Or.inl h1)
    · exact Or.inl (hlit _ (by decide) h2)
  · exact Or.inl (hlit _ (by decide) hin)
  · rcases infix_value_then_fixed p _ " name=converter_before ! " ' ' rfl hs_head hin
      with h1 | h2
    · rcases hfmt self.converter (by simp) h1 with h3 | h3
      · exact Or.inl h3
      · exact Or.inr (Or.inr (Or.inl h3))
    · exact Or.inl (hlit _ (by decide) h2)
  · exact Or.inl (hlit _ (by decide) hin)
  · exact Or.inl (hlit _ (by decide) hin)
  · exact Or.inl (hlit _ (by decide) hin)
  · rcases infix_value_then_fixed p _ " name=crop ! " ' ' rfl hs_head hin with h1 | h2
    · exact Or.inl (hbool _ h1)
    · exact Or.inl (hlit _ (by decide) h2)
  · rcases infix_value_then_fixed p _ " name=scaler ! arch.sink_model " ' ' rfl hs_head hin
      with h1 | h2
    · rcases hfmt self.scaler (by simp) h1 with h3 | h3
      · exact Or.inl h3
      · exact Or.inr (Or.inr (Or.inl h3))
    · exact Or.inl (hlit _ (by decide) h2)
  · rcases infix_value_then_fixed p _ " name=arch backend=" ' ' rfl hs_head hin with h1 | h2
    · rcases hfmt self.arch (by simp) h1 with h3 | h3
      · exact Or.inl h3
      · exact Or.inr (Or.inr (Or.inl h3))
    · exact Or.inl (hlit _ (by decide) h2)
  · rcases infix_value_then_fixed p _ " model-location=" ' ' rfl hs_head hin with h1 | h2
    · rcases hfmt self.backend (by simp) h1 with h3 | h3
      · exact Or.inl h3
      · exact Or.inr (Or.inr (Or.inl h3))
    · exact Or.inl (hlit _ (by decide) h2)
  · rcases infix_value_then_fixed p _ " " ' ' rfl hs_head hin with h1 | h2
    · rcases hfmt self.model_location (by simp) h1 with h3 | h3
      · exact Or.inl h3
      · exact Or.inr (Or.inr (Or.inl h3))
    · exact Or.inl (hlit _ (by decide) h2)
  · rw [hl] at hin
    obtain ⟨text, hv, h1 | h2 | h3⟩ := infix_optional_setting p hne "labels=\"" "\" "
      self.labels '"' '"' rfl hq_last rfl hq_head hin
    · exact Or.inr (Or.inr (Or.inr (Or.inl ⟨text, hv, Or.inl h1⟩)))
    · exact Or.inr (Or.inr (Or.inr (Or.inl ⟨text, hv, Or.inr h2⟩)))
    · exact Or.inl (hlit _ (by decide) h3)
  · rw [hi] at hin
    obtain ⟨text, hv, h1 | h2 | h3⟩ := infix_optional_setting p hne "backend::input-layer=" " "
      self.input_layer '=' ' ' rfl heq rfl hs_head hin
    · exact Or.inr (Or.inr (Or.inr (Or.inr (Or.inl ⟨text, hv, Or.inl h1⟩))))
    · exact Or.inr (Or.inr (Or.inr (Or.inr (Or.inl ⟨text, hv, Or.inr h2⟩))))
    · exact Or.inl (hlit _ (by decide) h3)
  · rw [ho] at hin
    obtain ⟨text, hv, h1 | h2 | h3⟩ := infix_optional_setting p hne "backend::output-layer=" " "
      self.output_layer '=' ' ' rfl heq rfl hs_head hin
    · exact Or.inr (Or.inr (Or.inr (Or.inr (Or.inr ⟨text, hv, Or.inl h1⟩))))
    · exact Or.inr (Or.inr (Or.inr (Or.inr (Or.inr ⟨text, hv, Or.inr h2⟩))))
    · exact Or.inl (hlit _ (by decide) h3)
  · exact Or.inl (hlit _ (by decide) hin)
  · exact Or.inl (hlit _ (by decide) hin)
  · rcases infix_value_then_fixed p _ " name=overlay " ' ' rfl hs_head hin with h1 | h2
    · exact Or.inl (hbool _ h1)
    · exact Or.inl (hlit _ (by decide) h2)

theorem format_d_chars (n : Nat) : ∀ c ∈ (format_d n).data, c ∈ "-0123456789".data :=
  int_toString_chars (guint_to_gint n)

/-- A part with a letter `l`, without blank and quote and with no `=` before
its last character, that lies in no fixed text and in no value of the five
properties that are always written, lies in the description only through an
optional setting that is written. -/
theorem build_pipe_setting_only (self : GstInferenceBin) (part : String)
    (hl : 'l' ∈ part.data) (hsp : ' ' ∉ part.data) (hq : '"' ∉ part.data)
    (heq : '=' ∉ part.data.dropLast)
    (hlits : ∀ lit ∈ pipe_literals, contains_text lit part = false)
    (hvals : ∀ value ∈ [self.converter, self.scaler, self.arch, self.backend,
      self.model_location], holds_text value part = false)
    (h : contains_text ((gst_inference_bin_build_pipe (some self)).getD "") part = true) :
    (∃ text, self.labels = some text ∧
      (contains_text "labels=\"" part = true ∨ contains_text text part = true)) ∨
    (∃ text, self.input_layer = some text ∧
      (contains_text "backend::input-layer=" part = true ∨ contains_text text part = true)) ∨
    (∃ text, self.output_layer = some text ∧
      (contains_text "backend::output-layer=" part = true ∨
        contains_text text part = true)) := by
  have hne : part.data ≠ [] := List.ne_nil_of_mem hl
  rw [contains_text_iff] at h
  rcases build_pipe_infix self part.data hne hsp hq heq h with
    ⟨lit, hmem, hin⟩ | hin | ⟨value, hmem, text, hv, hin⟩ | ⟨text, hv, hin⟩ | ⟨text, hv, hin⟩ |
    ⟨text, hv, hin⟩
  · exact absurd hin ((contains_text_false_iff _ _).mp (hlits lit hmem))
  · exfalso
    have hmem := format_d_chars self.filter 'l' (hin.subset hl)
    revert hmem
    decide
  · exfalso
    have hfalse := hvals value hmem
    rw [hv] at hfalse
    exact (contains_text_false_iff _ _).mp hfalse hin
  · exact Or.inl ⟨text, hv, by simpa only [contains_text_iff] using hin⟩
  · exact Or.inr (Or.inl ⟨text, hv, by simpa only [contains_text_iff] using hin⟩)
  · exact Or.inr (Or.inr ⟨text, hv, by simpa only [contains_text_iff] using hin⟩)

/-- An optional setting that is written lies in the description. -/
theorem build_pipe_holds_setting (self : GstInferenceBin) :
    (∀ text, self.labels = some text →
      ("labels=\"" ++ text ++ "\" ").data
        <:+: ((gst_inference_bin_build_pipe (some self)).getD "").data) ∧
    (∀ text, self.input_layer = some text →
      ("backend::input-layer=" ++ text ++ " ").data
        <:+: ((gst_inference_bin_build_pipe (some self)).getD "").data) ∧
    (∀ text, self.output_layer = some text →
      ("backend::output-layer=" ++ text ++ " ").data
        <:+: ((gst_inference_bin_build_pipe (some self)).getD "").data) := by
  rw [build_pipe_blocks]
  refine ⟨?_, ?_, ?_⟩
  · intro text hv
    apply List.infix_of_mem_flatten
    rw [hv]
    simp [optional_setting]
  · intro text hv
    apply List.infix_of_mem_flatten
    rw [hv]
    simp [optional_setting]
  · intro text hv
    apply List.infix_of_mem_flatten
    rw [hv]
    simp [optional_setting]

/-- A text that starts with a part holds it. -/
theorem contains_text_of_starts (before rest : String) :
    contains_text (before ++ rest) before = true := by
  rw [contains_text_iff, String.data_append]
  exact (List.prefix_append _ _).isInfix

theorem contains_text_trans (whole inner part : String)
    (h1 : inner.data <:+: whole.data) (h2 : contains_text inner part = true) :
    contains_text whole part = true := by
  rw [contains_text_iff] at h2 ⊢
  exact h2.trans h1

theorem pipe_literals_free_of_settings :
    (∀ lit ∈ pipe_literals, contains_text lit "labels=" = false) ∧
    (∀ lit ∈ pipe_literals, contains_text lit "backend::input-layer=" = false) ∧
    (∀ lit ∈ pipe_literals, contains_text lit "backend::output-layer=" = false) := by
  set_option maxRecDepth 100000 in decide

theorem build_pipe_labels_iff (self : GstInferenceBin)
    (hvals : ∀ value ∈ [self.converter, self.scaler, self.arch, self.backend,
      self.model_location, self.input_layer, self.output_layer],
      holds_text value "labels=" = false) :
    contains_text ((gst_inference_bin_build_pipe (some self)).getD "") "labels=" = true ↔
      self.labels ≠ none := by
  constructor
  · intro h
    rcases build_pipe_setting_only self "labels=" (by decide) (by decide) (by decide)
      (by decide) pipe_literals_free_of_settings.1
      (fun value hmem => hvals value (List.mem_append_left [_, _] hmem)) h with ⟨text, hv, _⟩ | ⟨text, hv, h1 | h2⟩ | ⟨text, hv, h1 | h2⟩
    · rw [hv]
      exact Option.some_ne_none text
    · exact absurd h1 (by decide)
    · have hfalse := hvals self.input_layer (by
        repeat (first | exact List.mem_cons_self _ _ | apply List.mem_cons_of_mem))
      rw [hv] at hfalse
      exact absurd h2 (by simpa [holds_text] using hfalse)
    · exact absurd h1 (by decide)
    · have hfalse := hvals self.output_layer (by
        repeat (first | exact List.mem_cons_self _ _ | apply List.mem_cons_of_mem))
      rw [hv] at hfalse
      exact absurd h2 (by simpa [holds_text] using hfalse)
  · intro hne
    obtain ⟨text, hv⟩ := Option.ne_none_iff_exists'.mp hne
    refine contains_text_trans _ _ _ ((build_pipe_holds_setting self).1 text hv) ?_
    have hstart : contains_text ("labels=" ++ ("\"" ++ text ++ "\" ")) "labels=" = true :=
      contains_text_of_starts _ _
    have hsame : "labels=\"" ++ text ++ "\" " = "labels=" ++ ("\"" ++ text ++ "\" ") := by
      rw [show "labels=\"" = "labels=" ++ "\"" from by decide]
      simp only [String.append_assoc]
    rw [hsame]
    exact hstart

theorem build_pipe_input_layer_iff (self : GstInferenceBin)
    (hvals : ∀ value ∈ [self.converter, self.scaler, self.arch, self.backend,
      self.model_location, self.labels, self.output_layer],
      holds_text value "backend::input-layer=" = false) :
    contains_text ((gst_inference_bin_build_pipe (some self)).getD "")
      "backend::input-layer=" = true ↔ self.input_layer ≠ none := by
  constructor
  · intro h
    rcases build_pipe_setting_only self "backend::input-layer=" (by decide) (by decide)
      (by decide) (by decide) pipe_literals_free_of_settings.2.1
      (fun value hmem => hvals value (List.mem_append_left [_, _] hmem)) h with ⟨text, hv, h1 | h2⟩ | ⟨text, hv, _⟩ | ⟨text, hv, h1 | h2⟩
    · exact absurd h1 (by decide)
    · have hfalse := hvals self.labels (by
        repeat (first | exact List.mem_cons_self _ _ | apply List.mem_cons_of_mem))
      rw [hv] at hfalse
      exact absurd h2 (by simpa [holds_text] using hfalse)
    · rw [hv]
      exact Option.some_ne_none text
    · exact absurd h1 (by decide)
    · have hfalse := hvals self.output_layer (by
        repeat (first | exact List.mem_cons_self _ _ | apply List.mem_cons_of_mem))
      rw [hv] at hfalse
      exact absurd h2 (by simpa [holds_text] using hfalse)
  · intro hne
    obtain ⟨text, hv⟩ := Option.ne_none_iff_exists'.mp hne
    refine contains_text_trans _ _ _ ((build_pipe_holds_setting self).2.1 text hv) ?_
    rw [String.append_assoc]
    exact contains_text_of_starts _ _

theorem build_pipe_output_layer_iff (self : GstInferenceBin)
    (hvals : ∀ value ∈ [self.converter, self.scaler, self.arch, self.backend,
      self.model_location, self.labels, self.input_layer],
      holds_text value "backend::output-layer=" = false) :
    contains_text ((gst_inference_bin_build_pipe (some self)).getD "")
      "backend::output-layer=" = true ↔ self.output_layer ≠ none := by
  constructor
  · intro h
    rcases build_pipe_setting_only self "backend::output-layer=" (by decide) (by decide)
      (by decide) (by decide) pipe_literals_free_of_settings.2.2
      (fun value hmem => hvals value (List.mem_append_left [_, _] hmem)) h with ⟨text, hv, h1 | h2⟩ | ⟨text, hv, h1 | h2⟩ | ⟨text, hv, _⟩
    · exact absurd h1 (by decide)
    · have hfalse := hvals self.labels (by
        repeat (first | exact List.mem_cons_self _ _ | apply List.mem_cons_of_mem))
      rw [hv] at hfalse
      exact absurd h2 (by simpa [holds_text] using hfalse)
    · exact absurd h1 (by decide)
    · have hfalse := hvals self.input_layer (by
        repeat (first | exact List.mem_cons_self _ _ | apply List.mem_cons_of_mem))
      rw [hv] at hfalse
      exact absurd h2 (by simpa [holds_text] using hfalse)
    · rw [hv]
      exact Option.some_ne_none text
  · intro hne
    obtain ⟨text, hv⟩ := Option.ne_none_iff_exists'.mp hne
    refine contains_text_trans _ _ _ ((build_pipe_holds_setting self).2.2 text hv) ?_
    rw [String.append_assoc]
    exact contains_text_of_starts _ _

/-- C25 (amended): the description of `gst_inference_bin_build_pipe` is the
following chain and depends on the eleven properties only. It starts with the
`inferencefilter` element, feeds `tee` into `arch.sink_bypass` and, through
`inferencecrop` and the scaler, into `arch.sink_model`, and ends with the
`inferenceoverlay` element; the text after `enable=` is `true` exactly for a
boolean property that is `TRUE`; the settings `labels=`, `backend::input-layer=`
and `backend::output-layer=` are appended exactly for the properties that are not
`NULL`, the other string properties being copied as they are. So the
description holds `labels=` if and only if the property `labels` is not `NULL`
provided that no other string property is set to a text that holds `labels=`
itself, and likewise for the two layer settings. -/
theorem inference_bin_build_pipe_shape (self : GstInferenceBin) :
    gst_inference_bin_build_pipe (some self) = some
      (("inferencefilter filter-class=" ++ format_d self.filter ++ " name=filter ! ") ++
        ("inferencedebug name=debug_before ! " ++
        ((format_s self.converter ++ " name=converter_before ! ") ++
        ("tee name=tee " ++
        ("tee. ! queue max-size-buffers=3 leaky=no name=queue_bypass ! arch.sink_bypass " ++
        (("tee. ! queue max-size-buffers=3 leaky=no name=queue_sink ! inferencecrop enable="
          ++ bool_text self.crop ++ " name=crop ! ") ++
        ((format_s self.scaler ++ " name=scaler ! arch.sink_model ") ++
        ((format_s self.arch ++ " name=arch backend=" ++ format_s self.backend
          ++ " model-location=" ++ format_s self.model_location ++ " ") ++
        (optional_setting "labels=\"" self.labels "\" " ++
        (optional_setting "backend::input-layer=" self.input_layer " " ++
        (optional_setting "backend::output-layer=" self.output_layer " " ++
        ("arch.src_bypass ! queue name=queue_output ! inferencedebug name=debug_after " ++
        ("! inferenceoverlay enable=" ++ bool_text self.overlay ++ " name=overlay "))))))))))))) ∧
    (bool_text self.crop = "true" ↔ self.crop = true) ∧
    (bool_text self.overlay = "true" ↔ self.overlay = true) ∧
    ((∀ value ∈ [self.converter, self.scaler, self.arch, self.backend, self.model_location,
        self.input_layer, self.output_layer], holds_text value "labels=" = false) →
      (contains_text ((gst_inference_bin_build_pipe (some self)).getD "") "labels=" = true ↔
        self.labels ≠ none)) ∧
    ((∀ value ∈ [self.converter, self.scaler, self.arch, self.backend, self.model_location,
        self.labels, self.output_layer], holds_text value "backend::input-layer=" = false) →
      (contains_text ((gst_inference_bin_build_pipe (some self)).getD "")
        "backend::input-layer=" = true ↔ self.input_layer ≠ none)) ∧
    ((∀ value ∈ [self.converter, self.scaler, self.arch, self.backend, self.model_location,
        self.labels, self.input_layer], holds_text value "backend::output-layer=" = false) →
      (contains_text ((gst_inference_bin_build_pipe (some self)).getD "")
        "backend::output-layer=" = true ↔ self.output_layer ≠ none)) ∧
    (∀ (sinkpad srcpad : Option Nat) (added : List Nat),
      gst_inference_bin_build_pipe
          (some { self with sinkpad := sinkpad, srcpad := srcpad, added := added })
        = gst_inference_bin_build_pipe (some self)) ∧
    (optional_setting "labels=\"" self.labels "\" " = "" ↔ self.labels = none) ∧
    (optional_setting "backend::input-layer=" self.input_layer " " = "" ↔
      self.input_layer = none) ∧
    (optional_setting "backend::output-layer=" self.output_layer " " = "" ↔
      self.output_layer = none) := by
  refine ⟨?_, bool_text_true _, bool_text_true _, build_pipe_labels_iff self,
    build_pipe_input_layer_iff self, build_pipe_output_layer_iff self, fun _ _ _ => rfl,
    optional_setting_empty _ _ _ (by decide), optional_setting_empty _ _ _ (by decide),
    optional_setting_empty _ _ _ (by decide)⟩
  simp only [gst_inference_bin_build_pipe, string_join_cons]
  rw [show String.join [] = "" from rfl, String.append_empty]

/-- C25 (amended), at a bin with its defaults and the labels `cat;dog`: no
other property holds `labels=`, and the description holds it. -/
theorem inference_bin_build_pipe_shape_witness :
    (∀ value ∈ [({ gst_inference_bin_init with labels := some "cat;dog" }
          : GstInferenceBin).converter, some "videoscale", some "tinyyolov2",
        some "tensorflow", none, none, none], holds_text value "labels=" = false) ∧
    (contains_text
        ((gst_inference_bin_build_pipe
          (some { gst_inference_bin_init with labels := some "cat;dog" })).getD "")
        "labels=" = true ↔
      ({ gst_inference_bin_init with labels := some "cat;dog" } : GstInferenceBin).labels
        ≠ none) :=
  ⟨by decide,
   (inference_bin_build_pipe_shape { gst_inference_bin_init with labels := some "cat;dog" }
      ).2.2.2.1 (by decide)⟩

end GstInference
